import Mathlib

/-!
VolumeResliceDriver logic: a shallow embedding.

Source: `VolumeResliceDriver/Logic/vtkSlicerVolumeResliceDriverLogic.cxx`.

Scalars (`double` in the source) are elements of a linearly ordered field `K`;
rounding is not modelled.  The numeric routines of VTK and libm that the logic
class calls (`sqrt`, the sine and cosine behind `vtkTransform::RotateX/Y/Z`,
`vtkMath::Orthogonalize3x3`) are not part of the repository and are passed in
as a record `VtkMath K`.  Facts about them that a theorem needs are stated as
hypotheses of that theorem.
-/

namespace VolumeResliceDriver

/-- A `vtkMatrix4x4`: `M i j` is `Element[i][j]` (row `i`, column `j`). -/
abbrev Mat4 (K : Type) := Matrix (Fin 4) (Fin 4) K

/-- A `double[3][3]` array. -/
abbrev Mat3 (K : Type) := Matrix (Fin 3) (Fin 3) K

/-- A `double[3]` array. -/
abbrev Vec3 (K : Type) := Fin 3 → K

/-- Numeric routines the logic class takes from VTK and libm. `cosDeg` and
`sinDeg` are cosine and sine of an angle given in degrees. -/
structure VtkMath (K : Type) where
  sqrt : K → K
  cosDeg : K → K
  sinDeg : K → K
  Orthogonalize3x3 : Mat3 K → Mat3 K

section vtkMath

variable {K : Type} [LinearOrderedField K]

/-- Function `vtkMath::Dot(a, b)`. -/
def Dot (a b : Vec3 K) : K := a 0 * b 0 + a 1 * b 1 + a 2 * b 2

/-- Function `vtkMath::Cross(a, b, c)`: the value written to `c`. -/
def Cross (a b : Vec3 K) : Vec3 K :=
  ![a 1 * b 2 - a 2 * b 1, a 2 * b 0 - a 0 * b 2, a 0 * b 1 - a 1 * b 0]

/-- Function `vtkMath::Norm(v)`. -/
def Norm (lib : VtkMath K) (v : Vec3 K) : K :=
  lib.sqrt (v 0 * v 0 + v 1 * v 1 + v 2 * v 2)

/-- Function `vtkMath::Normalize(v)`: the vector left in `v`. A vector of norm
zero is left as it is. -/
def Normalize (lib : VtkMath K) (v : Vec3 K) : Vec3 K :=
  let den := Norm lib v
  if den ≠ 0 then ![v 0 / den, v 1 / den, v 2 / den] else v

end vtkMath

section vtkMatrix4x4

variable {K : Type} [LinearOrderedField K]

/-- Method `vtkMatrix4x4::SetElement(i, j, value)`. -/
def SetElement (M : Mat4 K) (i j : Fin 4) (value : K) : Mat4 K :=
  Matrix.of fun r c => if r = i ∧ c = j then value else M r c

/-- Method `vtkMatrix4x4::GetElement(i, j)`. -/
def GetElement (M : Mat4 K) (i j : Fin 4) : K := M i j

/-- The first three entries of column `j`. -/
def column (M : Mat4 K) (j : Fin 4) : Vec3 K := ![M 0 j, M 1 j, M 2 j]

/-- The pure translation by `p`, the matrix of `vtkTransform::Translate(p)`. -/
def translationMatrix (p : Vec3 K) : Mat4 K :=
  !![1, 0, 0, p 0;
     0, 1, 0, p 1;
     0, 0, 1, p 2;
     0, 0, 0, 1]

/-- Rotation by `deg` degrees about the x axis. -/
def Rx (lib : VtkMath K) (deg : K) : Mat4 K :=
  !![1, 0, 0, 0;
     0, lib.cosDeg deg, -lib.sinDeg deg, 0;
     0, lib.sinDeg deg, lib.cosDeg deg, 0;
     0, 0, 0, 1]

/-- Rotation by `deg` degrees about the y axis. -/
def Ry (lib : VtkMath K) (deg : K) : Mat4 K :=
  !![lib.cosDeg deg, 0, lib.sinDeg deg, 0;
     0, 1, 0, 0;
     -lib.sinDeg deg, 0, lib.cosDeg deg, 0;
     0, 0, 0, 1]

/-- Rotation by `deg` degrees about the z axis. -/
def Rz (lib : VtkMath K) (deg : K) : Mat4 K :=
  !![lib.cosDeg deg, -lib.sinDeg deg, 0, 0;
     lib.sinDeg deg, lib.cosDeg deg, 0, 0;
     0, 0, 1, 0;
     0, 0, 0, 1]

end vtkMatrix4x4

section vtkTransform

variable {K : Type} [LinearOrderedField K]

/-- Method `vtkTransform::Concatenate` in the default PreMultiply mode: the
current matrix `cur` becomes `cur * m`. -/
def Concatenate (cur m : Mat4 K) : Mat4 K := cur * m

/-- Method `vtkTransform::Translate(v)`. -/
def Translate (cur : Mat4 K) (v : Vec3 K) : Mat4 K := Concatenate cur (translationMatrix v)

/-- Method `vtkTransform::RotateX(angle)`, angle in degrees. -/
def RotateX (lib : VtkMath K) (cur : Mat4 K) (angle : K) : Mat4 K := Concatenate cur (Rx lib angle)

/-- Method `vtkTransform::RotateY(angle)`, angle in degrees. -/
def RotateY (lib : VtkMath K) (cur : Mat4 K) (angle : K) : Mat4 K := Concatenate cur (Ry lib angle)

/-- Method `vtkTransform::RotateZ(angle)`, angle in degrees. -/
def RotateZ (lib : VtkMath K) (cur : Mat4 K) (angle : K) : Mat4 K := Concatenate cur (Rz lib angle)

/-- Method `vtkTransform::GetPosition(v)`: the translation column. -/
def GetPosition (M : Mat4 K) : Vec3 K := ![M 0 3, M 1 3, M 2 3]

end vtkTransform

section attributes

/-- Whitespace skipped by a formatted stream input in the C locale. -/
def isStreamSpace (c : Char) : Bool :=
  c == ' ' || c == '\t' || c == '\n' || c == '\x0b' || c == '\x0c' || c == '\r'

/-- Value of a run of decimal digits. -/
def digitsValue (ds : List Char) : Nat :=
  ds.foldl (fun acc c => 10 * acc + (c.toNat - 48)) 0

/-- Largest value of a 32-bit `int`. -/
def INT_MAX : Int := 2147483647

/-- Smallest value of a 32-bit `int`. -/
def INT_MIN : Int := -2147483648

/-- Statement `std::stringstream ss(text); ss >> value;` for an `int value`
holding `init`: the value left in the variable. Leading whitespace is skipped,
an optional sign and the longest run of decimal digits are read and whatever
follows is left in the stream. At the end of input the variable keeps `init`;
with no digit the extraction fails and stores 0; a value out of range is
stored as the nearest `int`. -/
def streamExtractInt (init : Int) (text : String) : Int :=
  match text.toList.dropWhile isStreamSpace with
  | [] => init
  | c :: cs =>
    let negative := c == '-'
    let body := if c == '-' || c == '+' then cs else c :: cs
    let ds := body.takeWhile Char.isDigit
    if ds.isEmpty then 0
    else
      let v : Int := if negative then -(digitsValue ds : Int) else (digitsValue ds : Int)
      if v > INT_MAX then INT_MAX else if v < INT_MIN then INT_MIN else v

end attributes

section sliceNode

/-- Modelled from the spec: the macro `VOLUMERESLICEDRIVER_DRIVER_ATTRIBUTE` of
the class header, which is not under src; the key of the per-slice driver
identifier. -/
def VOLUMERESLICEDRIVER_DRIVER_ATTRIBUTE : String := "VolumeResliceDriver.Driver"

/-- Modelled from the spec: the macro `VOLUMERESLICEDRIVER_MODE_ATTRIBUTE` of
the class header; the key of the per-slice mode (an integer). -/
def VOLUMERESLICEDRIVER_MODE_ATTRIBUTE : String := "VolumeResliceDriver.Mode"

/-- Modelled from the spec: the macro `VOLUMERESLICEDRIVER_ROTATION_ATTRIBUTE`
of the class header; the key of the per-slice rotation (a numeric string). -/
def VOLUMERESLICEDRIVER_ROTATION_ATTRIBUTE : String := "VolumeResliceDriver.Rotation"

/-- Modelled from the spec: the macro `VOLUMERESLICEDRIVER_FLIP_ATTRIBUTE` of
the class header; the key of the per-slice flip (a boolean as a string). -/
def VOLUMERESLICEDRIVER_FLIP_ATTRIBUTE : String := "VolumeResliceDriver.Flip"

/-- Modelled from the spec: the mode enumeration of the class header, in the
order the spec lists it, NONE, AXIAL, SAGITTAL, CORONAL, INPLANE, INPLANE90,
TRANSVERSE; NONE is 0. -/
def MODE_NONE : Int := 0

/-- Mode AXIAL of the enumeration. -/
def MODE_AXIAL : Int := 1

/-- Mode SAGITTAL of the enumeration. -/
def MODE_SAGITTAL : Int := 2

/-- Mode CORONAL of the enumeration. -/
def MODE_CORONAL : Int := 3

/-- Mode INPLANE of the enumeration. -/
def MODE_INPLANE : Int := 4

/-- Mode INPLANE90 of the enumeration. -/
def MODE_INPLANE90 : Int := 5

/-- Mode TRANSVERSE of the enumeration. -/
def MODE_TRANSVERSE : Int := 6

/-- A `vtkMRMLSliceNode`, as far as the logic class reads and writes it: the
string attributes of the node and its slice-to-world matrix. -/
structure vtkMRMLSliceNode (K : Type) where
  Attributes : List (String × String)
  SliceToRAS : Mat4 K

variable {K : Type}

/-- Method `vtkMRMLNode::GetAttribute(name)`; `none` is the null pointer. -/
def vtkMRMLSliceNode.GetAttribute (sliceNode : vtkMRMLSliceNode K) (name : String) :
    Option String :=
  sliceNode.Attributes.lookup name

/-- Method `vtkMRMLNode::RemoveAttribute(name)`. -/
def vtkMRMLSliceNode.RemoveAttribute (sliceNode : vtkMRMLSliceNode K) (name : String) :
    vtkMRMLSliceNode K :=
  { sliceNode with Attributes := sliceNode.Attributes.filter fun kv => kv.1 != name }

/-- Method `vtkMRMLNode::SetAttribute(name, value)` with a non-null value. -/
def vtkMRMLSliceNode.SetAttribute (sliceNode : vtkMRMLSliceNode K) (name value : String) :
    vtkMRMLSliceNode K :=
  { sliceNode with
    Attributes := (name, value) :: sliceNode.Attributes.filter fun kv => kv.1 != name }

/-- An `int` variable initialised to `init` and overwritten from the attribute
`name` when the attribute is present. -/
def readIntAttribute (sliceNode : vtkMRMLSliceNode K) (name : String) (init : Int) : Int :=
  match sliceNode.GetAttribute name with
  | some text => streamExtractInt init text
  | none => init

end sliceNode

section UpdateSlice

variable {K : Type} [LinearOrderedField K]

/-- The constant `tolerance` of `UpdateSlice`. -/
def tolerance : K := 0.002

/-- Index `i < 3` of a row or column of the rotation block, as an index of the
4×4 matrix. -/
def idx (i : Fin 3) : Fin 4 := ⟨i.1, by omega⟩

/-- The test of `UpdateSlice` that selects its first branch: the three
pairwise dot products of the rotation columns are below `tolerance` in
absolute value. -/
def withinTolerance (driverToRASMatrix : Mat4 K) : Prop :=
  |Dot (column driverToRASMatrix 0) (column driverToRASMatrix 1)| < tolerance
    ∧ |Dot (column driverToRASMatrix 0) (column driverToRASMatrix 2)| < tolerance
    ∧ |Dot (column driverToRASMatrix 1) (column driverToRASMatrix 2)| < tolerance

instance (M : Mat4 K) : Decidable (withinTolerance M) := by
  unfold withinTolerance; infer_instance

/-- The array `in` of `UpdateSlice`: the upper left 3×3 block of the driver
matrix, `in[i][j] = Element[i][j]`. -/
def rotationBlock (driverToRASMatrix : Mat4 K) : Mat3 K :=
  Matrix.of fun i j => driverToRASMatrix (idx i) (idx j)

/-- The block of `UpdateSlice` that fills `driverToRASMatrixOrthoNormalized`
(a fresh `vtkMatrix4x4`, so the identity) from `driverToRASMatrix`. -/
def orthoNormalize (lib : VtkMath K) (driverToRASMatrix : Mat4 K) : Mat4 K :=
  if withinTolerance driverToRASMatrix then
    [(0 : Fin 3), 1, 2].foldl
      (fun out i =>
        let driverColumn := Normalize lib (column driverToRASMatrix (idx i))
        let out := SetElement out 0 (idx i) (driverColumn 0)
        let out := SetElement out 1 (idx i) (driverColumn 1)
        let out := SetElement out 2 (idx i) (driverColumn 2)
        SetElement out (idx i) 3 (GetElement driverToRASMatrix (idx i) 3))
      (1 : Mat4 K)
  else
    let output := lib.Orthogonalize3x3 (rotationBlock driverToRASMatrix)
    [(0 : Fin 3), 1, 2].foldl
      (fun out i =>
        let out := SetElement out (idx i) 0 (output i 0)
        let out := SetElement out (idx i) 1 (output i 1)
        let out := SetElement out (idx i) 2 (output i 2)
        SetElement out (idx i) 3 (GetElement driverToRASMatrix (idx i) 3))
      (1 : Mat4 K)

/-- The matrix `UpdateSlice` builds in `sliceToRASTransform` for the given
mode, rotation and flip, or `none` on the `default:` case of the switch, which
returns before anything is written. The unused `driverToRasRotation` is left
out. -/
def composeSliceToRAS (lib : VtkMath K) (driverToRASMatrix : Mat4 K)
    (mode rotation flip : Int) : Option (Mat4 K) :=
  let driverToRASTransform := orthoNormalize lib driverToRASMatrix
  let driverToRasTranslation := Translate 1 (GetPosition driverToRASTransform)
  let sliceToDriverTransform : Mat4 K := 1
  let sliceToRASTransform : Mat4 K := 1
  if mode = MODE_AXIAL then
    let sliceToRASTransform := Concatenate sliceToRASTransform driverToRasTranslation
    let sliceToRASTransform := RotateZ lib sliceToRASTransform ((rotation : K) + 180)
    some (RotateX lib sliceToRASTransform ((flip : K) * 180 + 180))
  else if mode = MODE_SAGITTAL then
    let sliceToRASTransform := Concatenate sliceToRASTransform driverToRasTranslation
    let sliceToRASTransform := RotateX lib sliceToRASTransform ((rotation : K) - 90)
    let sliceToRASTransform := RotateZ lib sliceToRASTransform ((flip : K) * 180 + 180)
    some (RotateY lib sliceToRASTransform 90)
  else if mode = MODE_CORONAL then
    let sliceToRASTransform := Concatenate sliceToRASTransform driverToRasTranslation
    let sliceToRASTransform := RotateY lib sliceToRASTransform ((rotation : K) + 180)
    let sliceToRASTransform := RotateX lib sliceToRASTransform ((flip : K) * 180 + 180)
    some (RotateX lib sliceToRASTransform 90)
  else if mode = MODE_INPLANE then
    let sliceToDriverTransform := RotateX lib sliceToDriverTransform (-90)
    let sliceToDriverTransform := RotateY lib sliceToDriverTransform 90
    let sliceToDriverTransform := RotateZ lib sliceToDriverTransform (rotation : K)
    let sliceToDriverTransform := RotateX lib sliceToDriverTransform ((flip : K) * 180)
    let sliceToRASTransform := Concatenate sliceToRASTransform driverToRASTransform
    some (Concatenate sliceToRASTransform sliceToDriverTransform)
  else if mode = MODE_INPLANE90 then
    let sliceToDriverTransform := RotateX lib sliceToDriverTransform (-90)
    let sliceToDriverTransform := RotateZ lib sliceToDriverTransform (rotation : K)
    let sliceToDriverTransform := RotateX lib sliceToDriverTransform ((flip : K) * 180)
    let sliceToRASTransform := Concatenate sliceToRASTransform driverToRASTransform
    some (Concatenate sliceToRASTransform sliceToDriverTransform)
  else if mode = MODE_TRANSVERSE then
    let sliceToDriverTransform := RotateZ lib sliceToDriverTransform (rotation : K)
    let sliceToDriverTransform := RotateX lib sliceToDriverTransform ((flip : K) * 180)
    let sliceToRASTransform := Concatenate sliceToRASTransform driverToRASTransform
    some (Concatenate sliceToRASTransform sliceToDriverTransform)
  else
    none

/-- Method `UpdateSlice(driverToRASMatrix, sliceNode)`: the slice node it
leaves. Mode, rotation and flip are `int` variables initialised to `MODE_NONE`,
0 and 0 and read from the attributes of the slice; the composed matrix is
copied into `SliceToRAS` unless the switch takes its `default:` case. -/
def UpdateSlice (lib : VtkMath K) (driverToRASMatrix : Mat4 K)
    (sliceNode : vtkMRMLSliceNode K) : vtkMRMLSliceNode K :=
  let mode := readIntAttribute sliceNode VOLUMERESLICEDRIVER_MODE_ATTRIBUTE MODE_NONE
  let rotation := readIntAttribute sliceNode VOLUMERESLICEDRIVER_ROTATION_ATTRIBUTE 0
  let flip := readIntAttribute sliceNode VOLUMERESLICEDRIVER_FLIP_ATTRIBUTE 0
  match composeSliceToRAS lib driverToRASMatrix mode rotation flip with
  | some sliceToRAS => { sliceNode with SliceToRAS := sliceToRAS }
  | none => sliceNode

end UpdateSlice

section UpdateSliceByLine

variable {K : Type} [LinearOrderedField K]

/-- The matrix `lineTransform` that `UpdateSliceByLine(position1, position2,
sliceNode)` fills and passes to `UpdateSlice`. It starts as a fresh
`vtkMatrix4x4`, the identity. -/
def lineTransform (lib : VtkMath K) (position1 position2 : Vec3 K) : Mat4 K :=
  let n0 : Vec3 K :=
    ![position2 0 - position1 0, position2 1 - position1 1, position2 2 - position1 2]
  let nlen := lib.sqrt (n0 0 * n0 0 + n0 1 * n0 1 + n0 2 * n0 2)
  let n : Vec3 K := if nlen > 0 then ![n0 0 / nlen, n0 1 / nlen, n0 2 / nlen] else ![0, 0, 1]
  let ts : Vec3 K × Vec3 K :=
    if n 1 < 1 then
      let s : Vec3 K := ![0, 1, 0]
      let t := Cross s n
      let s := Cross n t
      (t, s)
    else
      let t : Vec3 K := ![1, 0, 0]
      let s := Cross n t
      let t := Cross s n
      (t, s)
  let t := ts.1
  let s := ts.2
  let m : Mat4 K := 1
  let m := SetElement m 0 0 (t 0)
  let m := SetElement m 1 0 (t 1)
  let m := SetElement m 2 0 (t 2)
  let m := SetElement m 0 1 (s 0)
  let m := SetElement m 1 1 (s 1)
  let m := SetElement m 2 1 (s 2)
  let m := SetElement m 0 2 (n 0)
  let m := SetElement m 1 2 (n 1)
  let m := SetElement m 2 2 (n 2)
  let m := SetElement m 0 3 (position2 0)
  let m := SetElement m 1 3 (position2 1)
  SetElement m 2 3 (position2 2)

/-- Method `UpdateSliceByLine(position1, position2, sliceNode)`. -/
def UpdateSliceByLine (lib : VtkMath K) (position1 position2 : Vec3 K)
    (sliceNode : vtkMRMLSliceNode K) : vtkMRMLSliceNode K :=
  UpdateSlice lib (lineTransform lib position1 position2) sliceNode

end UpdateSliceByLine

section lineBranches

variable {K : Type} [LinearOrderedField K]

/-- The length `nlen` that `UpdateSliceByLine` computes for the vector from
`position1` to `position2`. -/
def lineLength (lib : VtkMath K) (position1 position2 : Vec3 K) : K :=
  lib.sqrt ((position2 0 - position1 0) * (position2 0 - position1 0)
    + (position2 1 - position1 1) * (position2 1 - position1 1)
    + (position2 2 - position1 2) * (position2 2 - position1 2))

/-- The vector `n` of `UpdateSliceByLine` after its first `if`: the difference
of the points divided by `nlen` when `nlen > 0`, else (0,0,1). -/
def lineDirection (lib : VtkMath K) (position1 position2 : Vec3 K) : Vec3 K :=
  if lineLength lib position1 position2 > 0 then
    ![(position2 0 - position1 0) / lineLength lib position1 position2,
      (position2 1 - position1 1) / lineLength lib position1 position2,
      (position2 2 - position1 2) / lineLength lib position1 position2]
  else ![0, 0, 1]

/-- The second `if` of `UpdateSliceByLine` takes its `else` branch, the one
that starts from `t = (1,0,0)` instead of `s = (0,1,0)`: the test
`n[1] < 1.0` fails. -/
def lineUsesFallback (lib : VtkMath K) (position1 position2 : Vec3 K) : Prop :=
  ¬ (lineDirection lib position1 position2 1 < 1)

instance (lib : VtkMath K) (position1 position2 : Vec3 K) :
    Decidable (lineUsesFallback lib position1 position2) := by
  unfold lineUsesFallback; infer_instance

end lineBranches

section driverNodes

variable {K : Type} [LinearOrderedField K]

/-- A `vtkMRMLScalarVolumeNode`, as far as `UpdateSliceByImageNode` reads it:
the matrix `GetIJKToRASMatrix` fills in, the dimensions of the image data
(`none` when `GetImageData()` is null), and the parent transform: `none` when
the volume has no parent that is a `vtkMRMLLinearTransformNode`, `some none`
when the parent's `GetMatrixTransformToWorld` returns 0, `some (some P)` when
it returns non-zero and fills in `P`. -/
structure vtkMRMLScalarVolumeNode (K : Type) where
  IJKToRAS : Mat4 K
  ImageDimensions : Option (Fin 3 → Int)
  ParentTransform : Option (Option (Mat4 K))

/-- The array `size` of `UpdateSliceByImageNode`: zero-initialised, and set to
the image dimensions when there is image data. -/
def imageSize (inode : vtkMRMLScalarVolumeNode K) : Fin 3 → Int :=
  match inode.ImageDimensions with
  | some dimensions => dimensions
  | none => fun _ => 0

/-- The matrix `rtimgTransform` of `UpdateSliceByImageNode` once its twelve
elements are set: the index-to-world matrix with its three axis columns
divided by their lengths and its translation shifted by half the field of
view along the first two axes. -/
def rtimgTransform (lib : VtkMath K) (inode : vtkMRMLScalarVolumeNode K) : Mat4 K :=
  let m := inode.IJKToRAS
  let tx := GetElement m 0 0
  let ty := GetElement m 1 0
  let tz := GetElement m 2 0
  let sx := GetElement m 0 1
  let sy := GetElement m 1 1
  let sz := GetElement m 2 1
  let nx := GetElement m 0 2
  let ny := GetElement m 1 2
  let nz := GetElement m 2 2
  let px := GetElement m 0 3
  let py := GetElement m 1 3
  let pz := GetElement m 2 3
  let size := imageSize inode
  let psi := lib.sqrt (tx * tx + ty * ty + tz * tz)
  let psj := lib.sqrt (sx * sx + sy * sy + sz * sz)
  let psk := lib.sqrt (nx * nx + ny * ny + nz * nz)
  let ntx := tx / psi
  let nty := ty / psi
  let ntz := tz / psi
  let nsx := sx / psj
  let nsy := sy / psj
  let nsz := sz / psj
  let nnx := nx / psk
  let nny := ny / psk
  let nnz := nz / psk
  let hfovi := psi * (size 0 : K) / 2
  let hfovj := psj * (size 1 : K) / 2
  let hfovk : K := 0
  let cx := ntx * hfovi + nsx * hfovj + nnx * hfovk
  let cy := nty * hfovi + nsy * hfovj + nny * hfovk
  let cz := ntz * hfovi + nsz * hfovj + nnz * hfovk
  let m := SetElement m 0 0 ntx
  let m := SetElement m 1 0 nty
  let m := SetElement m 2 0 ntz
  let m := SetElement m 0 1 nsx
  let m := SetElement m 1 1 nsy
  let m := SetElement m 2 1 nsz
  let m := SetElement m 0 2 nnx
  let m := SetElement m 1 2 nny
  let m := SetElement m 2 2 nnz
  let m := SetElement m 0 3 (px + cx)
  let m := SetElement m 1 3 (py + cy)
  SetElement m 2 3 (pz + cz)

/-- A `vtkMRMLTransformableNode`, by the classes the logic casts it to, with
what the logic reads of each: the result of `GetMatrixTransformToWorld` of a
linear transform (`none` when it returns 0), a scalar volume, the
object-to-world matrix of a markups plane, the first two control points of a
markups line, the first control point of a markups fiducial, any other
markups node, the two end points of an annotation ruler, and any other
transformable node. -/
inductive vtkMRMLTransformableNode (K : Type) where
  | LinearTransform (MatrixTransformToWorld : Option (Mat4 K))
  | ScalarVolume (inode : vtkMRMLScalarVolumeNode K)
  | MarkupsPlane (ObjectToWorld : Mat4 K)
  | MarkupsLine (position1 position2 : Vec3 K)
  | MarkupsFiducial (position1 : Vec3 K)
  | MarkupsOther
  | AnnotationRuler (position1 position2 : Vec3 K)
  | Other

/-- Method `UpdateSliceByTransformNode(tnode, sliceNode)`. The parameter
`updateSlice` stands for the method `UpdateSlice`, so that the calls made to it
can be read off; the logic passes `UpdateSlice lib`. -/
def UpdateSliceByTransformNode {σ : Type} (updateSlice : Mat4 K → σ → σ)
    (MatrixTransformToWorld : Option (Mat4 K)) (sliceNode : σ) : σ :=
  match MatrixTransformToWorld with
  | some transform => updateSlice transform sliceNode
  | none => sliceNode

/-- Method `UpdateSliceByImageNode(inode, sliceNode)`, with `updateSlice` for
the method `UpdateSlice`. -/
def UpdateSliceByImageNode {σ : Type} (updateSlice : Mat4 K → σ → σ) (lib : VtkMath K)
    (inode : vtkMRMLScalarVolumeNode K) (sliceNode : σ) : σ :=
  match inode.ParentTransform with
  | some (some parentTransform) =>
    updateSlice (parentTransform * rtimgTransform lib inode) sliceNode
  | some none => updateSlice (rtimgTransform lib inode) sliceNode
  | none => updateSlice (rtimgTransform lib inode) sliceNode

/-- The matrix `pointTransform` of `UpdateSliceByPoint`. -/
def pointTransform (position1 : Vec3 K) : Mat4 K :=
  let m : Mat4 K := 1
  let m := SetElement m 0 3 (position1 0)
  let m := SetElement m 1 3 (position1 1)
  SetElement m 2 3 (position1 2)

/-- Method `UpdateSliceByTransformableNode(tnode, sliceNode)`, with
`updateSlice` for the method `UpdateSlice`. Its four casts succeed on disjoint
classes; the markups and ruler cases are the bodies of
`UpdateSliceByMarkupsNode`, `UpdateSliceByRulerNode`, `UpdateSliceByLine` and
`UpdateSliceByPoint`. -/
def UpdateSliceByTransformableNode {σ : Type} (updateSlice : Mat4 K → σ → σ)
    (lib : VtkMath K) (tnode : vtkMRMLTransformableNode K) (sliceNode : σ) : σ :=
  match tnode with
  | .LinearTransform toWorld => UpdateSliceByTransformNode updateSlice toWorld sliceNode
  | .ScalarVolume inode => UpdateSliceByImageNode updateSlice lib inode sliceNode
  | .MarkupsPlane planeToRasMatrix => updateSlice planeToRasMatrix sliceNode
  | .MarkupsLine position1 position2 =>
    updateSlice (lineTransform lib position1 position2) sliceNode
  | .MarkupsFiducial position1 => updateSlice (pointTransform position1) sliceNode
  | .MarkupsOther => sliceNode
  | .AnnotationRuler position1 position2 =>
    updateSlice (lineTransform lib position1 position2) sliceNode
  | .Other => sliceNode

/-- The matrices passed to `UpdateSlice`, in order, when
`UpdateSliceByTransformableNode` runs on `tnode`. -/
def updateSliceCalls (lib : VtkMath K) (tnode : vtkMRMLTransformableNode K) :
    List (Mat4 K) :=
  UpdateSliceByTransformableNode (fun M calls => calls ++ [M]) lib tnode []

end driverNodes

section scene

variable {K : Type} [LinearOrderedField K]

/-- A node of the scene, by what the logic casts it to: a slice node, a
transformable node, or any other node. -/
inductive vtkMRMLNode (K : Type) where
  | Slice (sliceNode : vtkMRMLSliceNode K)
  | Transformable (tnode : vtkMRMLTransformableNode K)
  | Other

/-- The nodes of a `vtkMRMLScene` with their identifiers. A pointer to a node
of the scene is modelled by the node's identifier. -/
abbrev vtkMRMLScene (K : Type) := List (String × vtkMRMLNode K)

/-- Method `vtkMRMLScene::GetNodeByID(id)`; `none` is the null pointer. -/
def GetNodeByID (scene : vtkMRMLScene K) (id : String) : Option (vtkMRMLNode K) :=
  scene.lookup id

/-- The slice node a `vtkMRMLSliceNode*` points to; `none` is the null
pointer. -/
def GetSliceNode (scene : vtkMRMLScene K) (sliceID : String) :
    Option (vtkMRMLSliceNode K) :=
  match GetNodeByID scene sliceID with
  | some (.Slice sliceNode) => some sliceNode
  | _ => none

/-- The scene after every node is changed in place to `g id node`, for its
identifier `id`. -/
def mapNodes (g : String → vtkMRMLNode K → vtkMRMLNode K) (scene : vtkMRMLScene K) :
    vtkMRMLScene K :=
  scene.map fun entry => (entry.1, g entry.1 entry.2)

/-- The scene after the slice node `sliceID` is changed in place by `f`. -/
def modifySliceNode (scene : vtkMRMLScene K) (sliceID : String)
    (f : vtkMRMLSliceNode K → vtkMRMLSliceNode K) : vtkMRMLScene K :=
  mapNodes
    (fun id node =>
      match node with
      | .Slice sliceNode => if id = sliceID then .Slice (f sliceNode) else node
      | _ => node)
    scene

/-- The state of a `vtkSlicerVolumeResliceDriverLogic`: its scene and the
vector `ObservedNodes`, whose pointers are modelled by node identifiers. -/
structure vtkSlicerVolumeResliceDriverLogic (K : Type) where
  Scene : vtkMRMLScene K
  ObservedNodes : List String

/-- Method `AddObservedNode(node)` for a non-null node: nothing when the node
is already in `ObservedNodes`, else the node is observed and pushed back. -/
def AddObservedNode (node : String) (logic : vtkSlicerVolumeResliceDriverLogic K) :
    vtkSlicerVolumeResliceDriverLogic K :=
  if node ∈ logic.ObservedNodes then logic
  else { logic with ObservedNodes := logic.ObservedNodes ++ [node] }

/-- Method `ClearObservedNodes()`. -/
def ClearObservedNodes (logic : vtkSlicerVolumeResliceDriverLogic K) :
    vtkSlicerVolumeResliceDriverLogic K :=
  { logic with ObservedNodes := [] }

/-- The body of the loop of `UpdateFromMRMLScene()` for one node of the
scene: a slice node whose driver attribute names a transformable node of the
scene has that node added to the observed nodes; any other node is skipped. -/
def rescanNode (scene : vtkMRMLScene K) (logic : vtkSlicerVolumeResliceDriverLogic K)
    (entry : String × vtkMRMLNode K) : vtkSlicerVolumeResliceDriverLogic K :=
  match entry.2 with
  | .Slice slice =>
    match slice.GetAttribute VOLUMERESLICEDRIVER_DRIVER_ATTRIBUTE with
    | none => logic
    | some driverCC =>
      match GetNodeByID scene driverCC with
      | some (.Transformable _) => AddObservedNode driverCC logic
      | _ => logic
  | _ => logic

/-- Method `UpdateFromMRMLScene()` on a logic with a scene: the loop over the
nodes of the scene. -/
def UpdateFromMRMLScene (logic : vtkSlicerVolumeResliceDriverLogic K) :
    vtkSlicerVolumeResliceDriverLogic K :=
  logic.Scene.foldl (rescanNode logic.Scene) logic

/-- Method `ProcessMRMLNodesEvents(caller, event, callData)` for the caller
with identifier `callerID`. The event only decides whether the superclass
method is called first, which changes nothing here. A caller that is null or
not transformable changes nothing; otherwise every slice node of the scene
whose driver attribute equals the caller's identifier is passed to
`UpdateSliceByTransformableNode`. -/
def ProcessMRMLNodesEvents (lib : VtkMath K) (callerID : String)
    (logic : vtkSlicerVolumeResliceDriverLogic K) : vtkSlicerVolumeResliceDriverLogic K :=
  match GetNodeByID logic.Scene callerID with
  | some (.Transformable callerNode) =>
    { logic with
      Scene := mapNodes
        (fun _ node =>
          match node with
          | .Slice sliceNode =>
            if sliceNode.GetAttribute VOLUMERESLICEDRIVER_DRIVER_ATTRIBUTE = some callerID then
              .Slice (UpdateSliceByTransformableNode (UpdateSlice lib) lib callerNode sliceNode)
            else node
          | _ => node)
        logic.Scene }
  | _ => logic

/-- Call `node->InvokeEvent(vtkMRMLTransformableNode::TransformModifiedEvent)`
as the logic sees it: the logic's callback `ProcessMRMLNodesEvents` runs when
the node is one of its observed nodes. -/
def InvokeEvent (lib : VtkMath K) (node : String)
    (logic : vtkSlicerVolumeResliceDriverLogic K) : vtkSlicerVolumeResliceDriverLogic K :=
  if node ∈ logic.ObservedNodes then ProcessMRMLNodesEvents lib node logic else logic

/-- Method `UpdateSliceIfObserved(sliceNode)`. The result is `none` when the
method dereferences a null pointer: the node returned by `GetNodeByID` is used
without a check. -/
def UpdateSliceIfObserved (lib : VtkMath K) (sliceID : String)
    (logic : vtkSlicerVolumeResliceDriverLogic K) :
    Option (vtkSlicerVolumeResliceDriverLogic K) :=
  match GetSliceNode logic.Scene sliceID with
  | none => some logic
  | some sliceNode =>
    match sliceNode.GetAttribute VOLUMERESLICEDRIVER_DRIVER_ATTRIBUTE with
    | none => some logic
    | some driverCC =>
      match GetNodeByID logic.Scene driverCC with
      | none => none
      | some _ => some (InvokeEvent lib driverCC logic)

/-- Method `SetDriverForSlice(nodeID, sliceNode)`. The result is `none` when
the method dereferences a null pointer: `sliceNode` is used without a check. -/
def SetDriverForSlice (lib : VtkMath K) (nodeID sliceID : String)
    (logic : vtkSlicerVolumeResliceDriverLogic K) :
    Option (vtkSlicerVolumeResliceDriverLogic K) :=
  match GetSliceNode logic.Scene sliceID with
  | none => none
  | some _ =>
    match GetNodeByID logic.Scene nodeID with
    | some (.Transformable _) =>
      let logic := { logic with
        Scene := modifySliceNode logic.Scene sliceID fun sliceNode =>
          sliceNode.SetAttribute VOLUMERESLICEDRIVER_DRIVER_ATTRIBUTE nodeID }
      let logic := AddObservedNode nodeID logic
      UpdateSliceIfObserved lib sliceID logic
    | _ =>
      some { logic with
        Scene := modifySliceNode logic.Scene sliceID fun sliceNode =>
          sliceNode.RemoveAttribute VOLUMERESLICEDRIVER_DRIVER_ATTRIBUTE }

/-- A call to the registry: `SetDriverForSlice(nodeID, sliceNode)` or
`UpdateFromMRMLScene()`. -/
inductive RegistryCall where
  | SetDriver (nodeID sliceID : String)
  | Rescan

/-- The logic after a sequence of registry calls, `none` when one of them
dereferences a null pointer. -/
def runCalls (lib : VtkMath K) :
    List RegistryCall → vtkSlicerVolumeResliceDriverLogic K →
      Option (vtkSlicerVolumeResliceDriverLogic K)
  | [], logic => some logic
  | .SetDriver nodeID sliceID :: rest, logic =>
    match SetDriverForSlice lib nodeID sliceID logic with
    | some logic => runCalls lib rest logic
    | none => none
  | .Rescan :: rest, logic => runCalls lib rest (UpdateFromMRMLScene logic)

end scene

section setters

variable {K : Type} [LinearOrderedField K]

/-- Method `SetModeForSlice(mode, sliceNode)`. The statement `modeSS << mode`
writes the `int` in decimal. The result is `none` when the method dereferences
a null pointer, which `UpdateSliceIfObserved` can do. -/
def SetModeForSlice (lib : VtkMath K) (mode : Int) (sliceID : String)
    (logic : vtkSlicerVolumeResliceDriverLogic K) :
    Option (vtkSlicerVolumeResliceDriverLogic K) :=
  match GetSliceNode logic.Scene sliceID with
  | none => some logic
  | some _ =>
    let logic := { logic with
      Scene := modifySliceNode logic.Scene sliceID fun sliceNode =>
        sliceNode.SetAttribute VOLUMERESLICEDRIVER_MODE_ATTRIBUTE (toString mode) }
    UpdateSliceIfObserved lib sliceID logic

/-- Method `SetRotationForSlice(rotation, sliceNode)`. The parameter
`formatDouble` stands for the text `rotationSs << rotation` writes for a
`double`. -/
def SetRotationForSlice (lib : VtkMath K) (formatDouble : K → String) (rotation : K)
    (sliceID : String) (logic : vtkSlicerVolumeResliceDriverLogic K) :
    Option (vtkSlicerVolumeResliceDriverLogic K) :=
  match GetSliceNode logic.Scene sliceID with
  | none => some logic
  | some _ =>
    let logic := { logic with
      Scene := modifySliceNode logic.Scene sliceID fun sliceNode =>
        sliceNode.SetAttribute VOLUMERESLICEDRIVER_ROTATION_ATTRIBUTE (formatDouble rotation) }
    UpdateSliceIfObserved lib sliceID logic

/-- Method `SetFlipForSlice(flip, sliceNode)`. The statement `flipSs << flip`
writes a `bool` as 1 or 0. -/
def SetFlipForSlice (lib : VtkMath K) (flip : Bool) (sliceID : String)
    (logic : vtkSlicerVolumeResliceDriverLogic K) :
    Option (vtkSlicerVolumeResliceDriverLogic K) :=
  match GetSliceNode logic.Scene sliceID with
  | none => some logic
  | some _ =>
    let logic := { logic with
      Scene := modifySliceNode logic.Scene sliceID fun sliceNode =>
        sliceNode.SetAttribute VOLUMERESLICEDRIVER_FLIP_ATTRIBUTE (if flip then "1" else "0") }
    UpdateSliceIfObserved lib sliceID logic

end setters

section properties

variable {K : Type} [LinearOrderedField K]

/-- The three rotation columns of `M` have squared length 1 and are pairwise
orthogonal. -/
def orthonormalColumns (M : Mat4 K) : Prop :=
  Dot (column M 0) (column M 0) = 1 ∧ Dot (column M 1) (column M 1) = 1
    ∧ Dot (column M 2) (column M 2) = 1 ∧ Dot (column M 0) (column M 1) = 0
    ∧ Dot (column M 0) (column M 2) = 0 ∧ Dot (column M 1) (column M 2) = 0

/-- The columns of a 3×3 array have squared length 1 and are pairwise
orthogonal. -/
def orthonormal3 (A : Mat3 K) : Prop := A.transpose * A = 1

/-- The sine and cosine of `lib` are exact at 0 and 180 degrees and have
period 360 degrees. -/
structure ExactTrig (lib : VtkMath K) : Prop where
  cos_zero : lib.cosDeg 0 = 1
  sin_zero : lib.sinDeg 0 = 0
  cos_straight : lib.cosDeg 180 = -1
  sin_straight : lib.sinDeg 180 = 0
  cos_period : ∀ x, lib.cosDeg (x + 360) = lib.cosDeg x
  sin_period : ∀ x, lib.sinDeg (x + 360) = lib.sinDeg x

/-- The square root of `lib` is exact on the squared lengths of the three
rotation columns of `M`. -/
def sqrtExactOn (lib : VtkMath K) (M : Mat4 K) : Prop :=
  ∀ j : Fin 3, lib.sqrt (Dot (column M (idx j)) (column M (idx j)))
      * lib.sqrt (Dot (column M (idx j)) (column M (idx j)))
    = Dot (column M (idx j)) (column M (idx j))

/-- The bottom row of `M` is (0,0,0,1). -/
def bottomRowAffine (M : Mat4 K) : Prop :=
  M 3 0 = 0 ∧ M 3 1 = 0 ∧ M 3 2 = 0 ∧ M 3 3 = 1

/-- The translation column of `M` is zero. -/
def fixesOrigin (M : Mat4 K) : Prop :=
  M 0 3 = 0 ∧ M 1 3 = 0 ∧ M 2 3 = 0

end properties

section examples

/-- Sine of an angle in degrees over the rationals, by Bhaskara's rational
approximation on each half turn; exact at the multiples of 30 and 90 degrees
it is evaluated at below, with period 360. -/
def sinDegQ (x : ℚ) : ℚ :=
  let r := x - 360 * ⌊x / 360⌋
  if r ≤ 180 then 4 * r * (180 - r) / (40500 - r * (180 - r))
  else -(4 * (r - 180) * (360 - r) / (40500 - (r - 180) * (360 - r)))

/-- Cosine of an angle in degrees over the rationals. -/
def cosDegQ (x : ℚ) : ℚ := sinDegQ (x + 90)

/-- A computable instance of the numeric routines over the rationals, for
evaluating the definitions on concrete inputs: `Rat.sqrt` is exact on squares
of rationals; `Orthogonalize3x3` is the constant identity, an orthonormal
matrix. -/
def exampleMath : VtkMath ℚ where
  sqrt := Rat.sqrt
  cosDeg := cosDegQ
  sinDeg := sinDegQ
  Orthogonalize3x3 := fun _ => 1

/-- A driver pose with orthogonal rotation columns of lengths 2, 3 and 4. -/
def scaledPose : Mat4 ℚ :=
  !![2, 0, 0, 5;
     0, 3, 0, 6;
     0, 0, 4, 7;
     0, 0, 0, 1]

/-- A driver pose with the translation of `scaledPose` and a sheared rotation
block. -/
def shearedPose : Mat4 ℚ :=
  !![1, 1, 0, 5;
     0, 1, 0, 6;
     0, 0, 1, 7;
     0, 0, 0, 1]

/-- A slice node with the given mode, rotation and flip attributes and the
identity as its slice-to-world matrix. -/
def exampleSlice (mode rotation flip : String) : vtkMRMLSliceNode ℚ where
  Attributes :=
    [(VOLUMERESLICEDRIVER_MODE_ATTRIBUTE, mode),
     (VOLUMERESLICEDRIVER_ROTATION_ATTRIBUTE, rotation),
     (VOLUMERESLICEDRIVER_FLIP_ATTRIBUTE, flip)]
  SliceToRAS := 1

/-- A pose whose first two rotation columns, (1,0,0) and (1/1000,1,0), have
dot product 1/1000, below the tolerance. -/
def nearlyOrthogonalPose : Mat4 ℚ :=
  !![1, 1 / 1000, 0, 0;
     0, 1, 0, 0;
     0, 0, 1, 0;
     0, 0, 0, 1]

/-- A pose whose second rotation column (3/5000, 4/5000, 0) has length 1/1000
and makes an angle of about 53 degrees with the first, (1,0,0); their dot
product 3/5000 is below the tolerance. -/
def shortSkewedPose : Mat4 ℚ :=
  !![1, 3 / 5000, 0, 0;
     0, 4 / 5000, 0, 0;
     0, 0, 1, 0;
     0, 0, 0, 1]

/-- The rotation block of `shortSkewedPose` after its columns are divided by
their lengths. -/
def skewedBlock : Mat3 ℚ :=
  !![1, 3 / 5, 0;
     0, 4 / 5, 0;
     0, 0, 1]

end examples

section exampleScene

/-- A scene with two slice nodes without attributes, a linear transform whose
world matrix is `scaledPose`, a transformable node of a class the logic has no
case for, and a node that is not transformable. -/
def exampleScene : vtkMRMLScene ℚ :=
  [("Red", .Slice ⟨[], 1⟩),
   ("Yellow", .Slice ⟨[], 1⟩),
   ("Tracker", .Transformable (.LinearTransform (some scaledPose))),
   ("Model", .Transformable .Other),
   ("Camera", .Other)]

/-- A logic on `exampleScene` that observes no node yet. -/
def exampleLogic : vtkSlicerVolumeResliceDriverLogic ℚ where
  Scene := exampleScene
  ObservedNodes := []

/-- A 10×10×1 image with unit spacing, the identity as index-to-world matrix
and no parent transform. -/
def exampleImage : vtkMRMLScalarVolumeNode ℚ where
  IJKToRAS := !![1, 0, 0, 0; 0, 1, 0, 0; 0, 0, 1, 0; 0, 0, 0, 1]
  ImageDimensions := some ![10, 10, 1]
  ParentTransform := none

/-- A slice node bound to the driver "Tracker" in AXIAL mode. -/
def redSlice : vtkMRMLSliceNode ℚ where
  Attributes :=
    [(VOLUMERESLICEDRIVER_DRIVER_ATTRIBUTE, "Tracker"), (VOLUMERESLICEDRIVER_MODE_ATTRIBUTE, "1")]
  SliceToRAS := 1

/-- A slice node bound to the driver "Model" in AXIAL mode. -/
def yellowSlice : vtkMRMLSliceNode ℚ where
  Attributes :=
    [(VOLUMERESLICEDRIVER_DRIVER_ATTRIBUTE, "Model"), (VOLUMERESLICEDRIVER_MODE_ATTRIBUTE, "1")]
  SliceToRAS := 1

/-- A logic whose scene has `redSlice` bound to the linear transform
"Tracker", `yellowSlice` bound to the transformable node "Model", and a slice
without driver; both drivers are observed. -/
def boundLogic : vtkSlicerVolumeResliceDriverLogic ℚ where
  Scene :=
    [("Red", .Slice redSlice),
     ("Yellow", .Slice yellowSlice),
     ("Green", .Slice ⟨[], 1⟩),
     ("Tracker", .Transformable (.LinearTransform (some scaledPose))),
     ("Model", .Transformable .Other)]
  ObservedNodes := ["Tracker", "Model"]

/-- A logic whose slice "Red" is in AXIAL mode and names the driver "Gone",
which is no node of the scene; the committed matrix of the slice is
`scaledPose`. -/
def danglingLogic : vtkSlicerVolumeResliceDriverLogic ℚ where
  Scene :=
    [("Red", .Slice
        ⟨[(VOLUMERESLICEDRIVER_DRIVER_ATTRIBUTE, "Gone"),
          (VOLUMERESLICEDRIVER_MODE_ATTRIBUTE, "1")], scaledPose⟩),
     ("Tracker", .Transformable (.LinearTransform (some scaledPose)))]
  ObservedNodes := ["Tracker"]

/-- A driver matrix whose bottom row is (1,2,3,4) and whose rotation columns
are orthogonal. -/
def projectivePose : Mat4 ℚ :=
  !![2, 0, 0, 5;
     0, 3, 0, 6;
     0, 0, 4, 7;
     1, 2, 3, 4]

end exampleScene


section attributeLemmas

variable {K : Type}

theorem GetAttribute_SetAttribute (sliceNode : vtkMRMLSliceNode K) (name value : String) :
    (sliceNode.SetAttribute name value).GetAttribute name = some value := by
  simp [vtkMRMLSliceNode.SetAttribute, vtkMRMLSliceNode.GetAttribute, List.lookup]

theorem SliceToRAS_SetAttribute (sliceNode : vtkMRMLSliceNode K) (name value : String) :
    (sliceNode.SetAttribute name value).SliceToRAS = sliceNode.SliceToRAS := rfl

end attributeLemmas

section lemmas

variable {K : Type} [LinearOrderedField K]

theorem idx_zero : idx 0 = 0 := rfl

theorem idx_one : idx 1 = 1 := rfl

theorem idx_two : idx 2 = 2 := rfl

/-- Entries of the orthonormalized matrix when the tolerance test passes: each
rotation column is the normalized input column, the translation is copied and
the bottom row is that of the identity. -/
theorem orthoNormalize_of_withinTolerance (lib : VtkMath K) (M : Mat4 K)
    (h : withinTolerance M) :
    orthoNormalize lib M =
      !![Normalize lib (column M 0) 0, Normalize lib (column M 1) 0,
           Normalize lib (column M 2) 0, M 0 3;
         Normalize lib (column M 0) 1, Normalize lib (column M 1) 1,
           Normalize lib (column M 2) 1, M 1 3;
         Normalize lib (column M 0) 2, Normalize lib (column M 1) 2,
           Normalize lib (column M 2) 2, M 2 3;
         0, 0, 0, 1] := by
  unfold orthoNormalize
  rw [if_pos h]
  ext i j
  fin_cases i <;> fin_cases j <;>
    simp [SetElement, GetElement, idx_zero, idx_one, idx_two]

/-- Entries of the orthonormalized matrix when the tolerance test fails: the
rotation block is what `Orthogonalize3x3` returns for the input block. -/
theorem orthoNormalize_of_not_withinTolerance (lib : VtkMath K) (M : Mat4 K)
    (h : ¬ withinTolerance M) :
    orthoNormalize lib M =
      !![lib.Orthogonalize3x3 (rotationBlock M) 0 0,
         lib.Orthogonalize3x3 (rotationBlock M) 0 1,
         lib.Orthogonalize3x3 (rotationBlock M) 0 2, M 0 3;
         lib.Orthogonalize3x3 (rotationBlock M) 1 0,
         lib.Orthogonalize3x3 (rotationBlock M) 1 1,
         lib.Orthogonalize3x3 (rotationBlock M) 1 2, M 1 3;
         lib.Orthogonalize3x3 (rotationBlock M) 2 0,
         lib.Orthogonalize3x3 (rotationBlock M) 2 1,
         lib.Orthogonalize3x3 (rotationBlock M) 2 2, M 2 3;
         0, 0, 0, 1] := by
  unfold orthoNormalize
  rw [if_neg h]
  ext i j
  fin_cases i <;> fin_cases j <;>
    simp [SetElement, GetElement, idx_zero, idx_one, idx_two]

/-- The orthonormalization block copies the translation column. -/
theorem GetPosition_orthoNormalize (lib : VtkMath K) (M : Mat4 K) :
    GetPosition (orthoNormalize lib M) = GetPosition M := by
  by_cases h : withinTolerance M
  · rw [orthoNormalize_of_withinTolerance lib M h]; simp [GetPosition]
  · rw [orthoNormalize_of_not_withinTolerance lib M h]; simp [GetPosition]

/-- The matrix `UpdateSlice` commits is the composed one, when there is one. -/
theorem UpdateSlice_SliceToRAS (lib : VtkMath K) (M : Mat4 K) (sliceNode : vtkMRMLSliceNode K)
    (R : Mat4 K)
    (h : composeSliceToRAS lib M
        (readIntAttribute sliceNode VOLUMERESLICEDRIVER_MODE_ATTRIBUTE MODE_NONE)
        (readIntAttribute sliceNode VOLUMERESLICEDRIVER_ROTATION_ATTRIBUTE 0)
        (readIntAttribute sliceNode VOLUMERESLICEDRIVER_FLIP_ATTRIBUTE 0) = some R) :
    (UpdateSlice lib M sliceNode).SliceToRAS = R := by
  simp [UpdateSlice, h]

theorem compose_axial (lib : VtkMath K) (M : Mat4 K) (rotation flip : Int) :
    composeSliceToRAS lib M MODE_AXIAL rotation flip =
      some (translationMatrix (GetPosition M) * Rz lib ((rotation : K) + 180)
        * Rx lib ((flip : K) * 180 + 180)) := by
  simp [composeSliceToRAS, Concatenate, Translate, RotateX, RotateZ,
    GetPosition_orthoNormalize]

theorem compose_sagittal (lib : VtkMath K) (M : Mat4 K) (rotation flip : Int) :
    composeSliceToRAS lib M MODE_SAGITTAL rotation flip =
      some (translationMatrix (GetPosition M) * Rx lib ((rotation : K) - 90)
        * Rz lib ((flip : K) * 180 + 180) * Ry lib 90) := by
  simp [composeSliceToRAS, Concatenate, Translate, RotateX, RotateY, RotateZ,
    GetPosition_orthoNormalize, MODE_AXIAL, MODE_SAGITTAL]

theorem compose_coronal (lib : VtkMath K) (M : Mat4 K) (rotation flip : Int) :
    composeSliceToRAS lib M MODE_CORONAL rotation flip =
      some (translationMatrix (GetPosition M) * Ry lib ((rotation : K) + 180)
        * Rx lib ((flip : K) * 180 + 180) * Rx lib 90) := by
  simp [composeSliceToRAS, Concatenate, Translate, RotateX, RotateY,
    GetPosition_orthoNormalize, MODE_AXIAL, MODE_SAGITTAL, MODE_CORONAL]

theorem compose_inplane (lib : VtkMath K) (M : Mat4 K) (rotation flip : Int) :
    composeSliceToRAS lib M MODE_INPLANE rotation flip =
      some (orthoNormalize lib M * Rx lib (-90) * Ry lib 90 * Rz lib (rotation : K)
        * Rx lib ((flip : K) * 180)) := by
  simp [composeSliceToRAS, Concatenate, RotateX, RotateY, RotateZ,
    MODE_AXIAL, MODE_SAGITTAL, MODE_CORONAL, MODE_INPLANE, Matrix.mul_assoc]

theorem compose_inplane90 (lib : VtkMath K) (M : Mat4 K) (rotation flip : Int) :
    composeSliceToRAS lib M MODE_INPLANE90 rotation flip =
      some (orthoNormalize lib M * Rx lib (-90) * Rz lib (rotation : K)
        * Rx lib ((flip : K) * 180)) := by
  simp [composeSliceToRAS, Concatenate, RotateX, RotateZ,
    MODE_AXIAL, MODE_SAGITTAL, MODE_CORONAL, MODE_INPLANE, MODE_INPLANE90, Matrix.mul_assoc]

theorem compose_transverse (lib : VtkMath K) (M : Mat4 K) (rotation flip : Int) :
    composeSliceToRAS lib M MODE_TRANSVERSE rotation flip =
      some (orthoNormalize lib M * Rz lib (rotation : K) * Rx lib ((flip : K) * 180)) := by
  simp [composeSliceToRAS, Concatenate, RotateX, RotateZ,
    MODE_AXIAL, MODE_SAGITTAL, MODE_CORONAL, MODE_INPLANE, MODE_INPLANE90, MODE_TRANSVERSE,
    Matrix.mul_assoc]

theorem compose_none (lib : VtkMath K) (M : Mat4 K) (rotation flip : Int) :
    composeSliceToRAS lib M MODE_NONE rotation flip = none := by
  simp [composeSliceToRAS,
    MODE_AXIAL, MODE_SAGITTAL, MODE_CORONAL, MODE_INPLANE, MODE_INPLANE90, MODE_TRANSVERSE,
    MODE_NONE]

/-- The `default:` case of the switch: the slice node is returned as it is. -/
theorem UpdateSlice_of_mode_none (lib : VtkMath K) (M : Mat4 K) (sliceNode : vtkMRMLSliceNode K)
    (h : readIntAttribute sliceNode VOLUMERESLICEDRIVER_MODE_ATTRIBUTE MODE_NONE = MODE_NONE) :
    UpdateSlice lib M sliceNode = sliceNode := by
  simp [UpdateSlice, h, compose_none]

theorem ExactTrig.cos_full {lib : VtkMath K} (h : ExactTrig lib) : lib.cosDeg 360 = 1 := by
  have := h.cos_period 0
  rw [zero_add] at this
  rw [this, h.cos_zero]

theorem ExactTrig.sin_full {lib : VtkMath K} (h : ExactTrig lib) : lib.sinDeg 360 = 0 := by
  have := h.sin_period 0
  rw [zero_add] at this
  rw [this, h.sin_zero]

theorem one_fin_four :
    (1 : Mat4 K) = !![1, 0, 0, 0; 0, 1, 0, 0; 0, 0, 1, 0; 0, 0, 0, 1] := by
  ext i j
  fin_cases i <;> fin_cases j <;> rfl

theorem Rx_zero {lib : VtkMath K} (h : ExactTrig lib) : Rx lib 0 = 1 := by
  rw [one_fin_four]
  simp [Rx, h.cos_zero, h.sin_zero]

theorem Rx_full {lib : VtkMath K} (h : ExactTrig lib) : Rx lib 360 = 1 := by
  rw [one_fin_four]
  simp [Rx, h.cos_full, h.sin_full]

theorem Rz_full {lib : VtkMath K} (h : ExactTrig lib) : Rz lib 360 = 1 := by
  rw [one_fin_four]
  simp [Rz, h.cos_full, h.sin_full]

theorem Rx_straight_mul_self {lib : VtkMath K} (h : ExactTrig lib) :
    Rx lib 180 * Rx lib 180 = 1 := by
  rw [one_fin_four]
  ext i j
  fin_cases i <;> fin_cases j <;>
    simp [Rx, Matrix.mul_apply, Fin.sum_univ_four, Matrix.vecHead, Matrix.vecTail,
      h.cos_straight, h.sin_straight]

/-- A half turn about x commutes with every rotation about x. -/
theorem Rx_straight_conj {lib : VtkMath K} (h : ExactTrig lib) (a : K) :
    Rx lib 180 * Rx lib a * Rx lib 180 = Rx lib a := by
  ext i j
  fin_cases i <;> fin_cases j <;>
    simp [Rx, Matrix.mul_apply, Fin.sum_univ_four, Matrix.vecHead, Matrix.vecTail,
      h.cos_straight, h.sin_straight]

theorem Rx_period {lib : VtkMath K} (h : ExactTrig lib) (a : K) :
    Rx lib (a + 360) = Rx lib a := by
  simp [Rx, h.cos_period, h.sin_period]

theorem Ry_period {lib : VtkMath K} (h : ExactTrig lib) (a : K) :
    Ry lib (a + 360) = Ry lib a := by
  simp [Ry, h.cos_period, h.sin_period]

theorem Rz_period {lib : VtkMath K} (h : ExactTrig lib) (a : K) :
    Rz lib (a + 360) = Rz lib a := by
  simp [Rz, h.cos_period, h.sin_period]

theorem Norm_eq (lib : VtkMath K) (v : Vec3 K) : Norm lib v = lib.sqrt (Dot v v) := rfl

theorem Normalize_def (lib : VtkMath K) (v : Vec3 K) :
    Normalize lib v
      = if Norm lib v ≠ 0 then ![v 0 / Norm lib v, v 1 / Norm lib v, v 2 / Norm lib v]
        else v := rfl

/-- A vector whose squared length is non-zero, with the square root exact on
it, is divided by its length. -/
theorem Normalize_of_ne_zero (lib : VtkMath K) (v : Vec3 K)
    (hsq : lib.sqrt (Dot v v) * lib.sqrt (Dot v v) = Dot v v) (hv : Dot v v ≠ 0) :
    lib.sqrt (Dot v v) ≠ 0
      ∧ Normalize lib v
        = ![v 0 / lib.sqrt (Dot v v), v 1 / lib.sqrt (Dot v v), v 2 / lib.sqrt (Dot v v)] := by
  have hd : lib.sqrt (Dot v v) ≠ 0 := by
    intro h0
    rw [h0, mul_zero] at hsq
    exact hv hsq.symm
  refine ⟨hd, ?_⟩
  rw [Normalize_def, Norm_eq, if_pos hd]

/-- Dot product of two normalized vectors. -/
theorem Dot_Normalize (lib : VtkMath K) (a b : Vec3 K)
    (hsa : lib.sqrt (Dot a a) * lib.sqrt (Dot a a) = Dot a a) (ha : Dot a a ≠ 0)
    (hsb : lib.sqrt (Dot b b) * lib.sqrt (Dot b b) = Dot b b) (hb : Dot b b ≠ 0) :
    Dot (Normalize lib a) (Normalize lib b)
      = Dot a b / (lib.sqrt (Dot a a) * lib.sqrt (Dot b b)) := by
  obtain ⟨hda, hna⟩ := Normalize_of_ne_zero lib a hsa ha
  obtain ⟨hdb, hnb⟩ := Normalize_of_ne_zero lib b hsb hb
  rw [hna, hnb]
  simp only [Dot, Matrix.cons_val_zero, Matrix.cons_val_one, Matrix.head_cons,
    Matrix.cons_val_two, Matrix.tail_cons]
  field_simp

/-- Normalizing twice is normalizing once, when the square root is exact on
the squared length and at 1. -/
theorem Normalize_Normalize (lib : VtkMath K) (v : Vec3 K)
    (hsq : lib.sqrt (Dot v v) * lib.sqrt (Dot v v) = Dot v v) (hone : lib.sqrt 1 = 1) :
    Normalize lib (Normalize lib v) = Normalize lib v := by
  by_cases hd : lib.sqrt (Dot v v) = 0
  · have h : Normalize lib v = v := by
      rw [Normalize_def, Norm_eq, if_neg (not_not.mpr hd)]
    rw [h, h]
  · have hv : Dot v v ≠ 0 := by
      intro h0
      rw [h0] at hsq hd
      exact hd (mul_self_eq_zero.mp hsq)
    have hunit : Dot (Normalize lib v) (Normalize lib v) = 1 := by
      rw [Dot_Normalize lib v v hsq hv hsq hv, hsq]
      exact div_self hv
    have h1 : Norm lib (Normalize lib v) = 1 := by rw [Norm_eq, hunit, hone]
    have h2 : Normalize lib (Normalize lib v)
        = ![Normalize lib v 0 / 1, Normalize lib v 1 / 1, Normalize lib v 2 / 1] := by
      rw [Normalize_def lib (Normalize lib v), h1, if_pos one_ne_zero]
    rw [h2]
    funext i
    fin_cases i <;> simp

/-- On the first branch the rotation columns of the result are the normalized
input columns. -/
theorem column_orthoNormalize (lib : VtkMath K) (M : Mat4 K) (h : withinTolerance M)
    (j : Fin 3) :
    column (orthoNormalize lib M) (idx j) = Normalize lib (column M (idx j)) := by
  rw [orthoNormalize_of_withinTolerance lib M h]
  funext i
  fin_cases j <;> fin_cases i <;> simp [column, idx_zero, idx_one, idx_two]

/-- The bottom row of the orthonormalized matrix is (0,0,0,1). -/
theorem orthoNormalize_bottom (lib : VtkMath K) (M : Mat4 K) :
    orthoNormalize lib M 3 0 = 0 ∧ orthoNormalize lib M 3 1 = 0
      ∧ orthoNormalize lib M 3 2 = 0 ∧ orthoNormalize lib M 3 3 = 1 := by
  by_cases h : withinTolerance M
  · rw [orthoNormalize_of_withinTolerance lib M h]; simp
  · rw [orthoNormalize_of_not_withinTolerance lib M h]; simp

/-- A vector of squared length 1 is left as it is by `Normalize`, when the
square root is exact at 1. -/
theorem Normalize_of_unit (lib : VtkMath K) (v : Vec3 K) (hv : Dot v v = 1)
    (hone : lib.sqrt 1 = 1) : Normalize lib v = v := by
  rw [Normalize_def, Norm_eq, hv, hone, if_pos one_ne_zero]
  funext i
  fin_cases i <;> simp

/-- On the second branch the rotation columns of the result are the columns of
the array `Orthogonalize3x3` returns. -/
theorem column_orthoNormalize_of_not_withinTolerance (lib : VtkMath K) (M : Mat4 K)
    (h : ¬ withinTolerance M) (j : Fin 3) :
    column (orthoNormalize lib M) (idx j)
      = fun i => lib.Orthogonalize3x3 (rotationBlock M) i j := by
  rw [orthoNormalize_of_not_withinTolerance lib M h]
  funext i
  fin_cases j <;> fin_cases i <;> simp [column, idx_zero, idx_one, idx_two]

/-- Dot products of the columns of an array `A` are the entries of `Aᵀ A`. -/
theorem Dot_columns (A : Mat3 K) (i j : Fin 3) :
    Dot (fun k => A k i) (fun k => A k j) = (A.transpose * A) i j := by
  simp [Dot, Matrix.mul_apply, Fin.sum_univ_three]

/-- On the second branch the result has orthonormal columns when
`Orthogonalize3x3` returns an orthonormal array. -/
theorem orthonormalColumns_of_not_withinTolerance (lib : VtkMath K) (M : Mat4 K)
    (h : ¬ withinTolerance M) (horth : orthonormal3 (lib.Orthogonalize3x3 (rotationBlock M))) :
    orthonormalColumns (orthoNormalize lib M) := by
  have c0 := column_orthoNormalize_of_not_withinTolerance lib M h 0
  have c1 := column_orthoNormalize_of_not_withinTolerance lib M h 1
  have c2 := column_orthoNormalize_of_not_withinTolerance lib M h 2
  rw [idx_zero] at c0
  rw [idx_one] at c1
  rw [idx_two] at c2
  unfold orthonormalColumns
  unfold orthonormal3 at horth
  rw [c0, c1, c2]
  simp only [Dot_columns, horth]
  simp

/-- A matrix with orthonormal rotation columns passes the tolerance test. -/
theorem withinTolerance_of_orthonormalColumns (M : Mat4 K) (h : orthonormalColumns M) :
    withinTolerance M := by
  obtain ⟨-, -, -, h01, h02, h12⟩ := h
  have ht : (0 : K) < tolerance := by unfold tolerance; norm_num
  unfold withinTolerance
  rw [h01, h02, h12, abs_zero]
  exact ⟨ht, ht, ht⟩

/-- A matrix that passes the tolerance test, whose rotation columns are left
as they are by `Normalize` and whose bottom row is (0,0,0,1), is left as it is
by the orthonormalization block. -/
theorem orthoNormalize_eq_self (lib : VtkMath K) (D : Mat4 K) (hfast : withinTolerance D)
    (hcols : ∀ j : Fin 3, Normalize lib (column D (idx j)) = column D (idx j))
    (hbottom : D 3 0 = 0 ∧ D 3 1 = 0 ∧ D 3 2 = 0 ∧ D 3 3 = 1) :
    orthoNormalize lib D = D := by
  have e0 := hcols 0
  have e1 := hcols 1
  have e2 := hcols 2
  rw [idx_zero] at e0
  rw [idx_one] at e1
  rw [idx_two] at e2
  obtain ⟨b0, b1, b2, b3⟩ := hbottom
  rw [orthoNormalize_of_withinTolerance lib D hfast, e0, e1, e2]
  ext i j
  fin_cases i <;> fin_cases j <;> simp [column, b0, b1, b2, b3]

end lemmas

section concrete

theorem sinDegQ_period (x : ℚ) : sinDegQ (x + 360) = sinDegQ x := by
  have h : ⌊(x + 360) / 360⌋ = ⌊x / 360⌋ + 1 := by
    rw [add_div, div_self (by norm_num : (360 : ℚ) ≠ 0), Int.floor_add_one]
  simp only [sinDegQ, h]
  push_cast
  ring_nf

/-- The rational sine and cosine satisfy the exactness and period laws. -/
theorem exampleMath_exactTrig : ExactTrig exampleMath where
  cos_zero := by norm_num [exampleMath, cosDegQ, sinDegQ]
  sin_zero := by norm_num [exampleMath, sinDegQ]
  cos_straight := by norm_num [exampleMath, cosDegQ, sinDegQ]
  sin_straight := by norm_num [exampleMath, sinDegQ]
  cos_period := fun x => by
    show sinDegQ (x + 360 + 90) = sinDegQ (x + 90)
    rw [show x + 360 + 90 = (x + 90) + 360 by ring, sinDegQ_period]
  sin_period := sinDegQ_period

/-- Sine and cosine of real angles in degrees satisfy the exactness and
period laws, whatever the other routines are. -/
theorem real_exactTrig (sqrt : ℝ → ℝ) (orth : Mat3 ℝ → Mat3 ℝ) :
    ExactTrig (VtkMath.mk sqrt (fun d => Real.cos (d * Real.pi / 180))
      (fun d => Real.sin (d * Real.pi / 180)) orth) where
  cos_zero := by simp
  sin_zero := by simp
  cos_straight := by
    show Real.cos (180 * Real.pi / 180) = -1
    rw [show (180 : ℝ) * Real.pi / 180 = Real.pi by ring, Real.cos_pi]
  sin_straight := by
    show Real.sin (180 * Real.pi / 180) = 0
    rw [show (180 : ℝ) * Real.pi / 180 = Real.pi by ring, Real.sin_pi]
  cos_period := fun x => by
    show Real.cos ((x + 360) * Real.pi / 180) = Real.cos (x * Real.pi / 180)
    rw [show (x + 360) * Real.pi / 180 = x * Real.pi / 180 + 2 * Real.pi by ring,
      Real.cos_add_two_pi]
  sin_period := fun x => by
    show Real.sin ((x + 360) * Real.pi / 180) = Real.sin (x * Real.pi / 180)
    rw [show (x + 360) * Real.pi / 180 = x * Real.pi / 180 + 2 * Real.pi by ring,
      Real.sin_add_two_pi]

theorem withinTolerance_scaledPose : withinTolerance scaledPose := by
  norm_num [withinTolerance, Dot, column, scaledPose, tolerance, Matrix.vecHead, Matrix.vecTail]

theorem scaledPose_columns_ne_zero (j : Fin 3) :
    Dot (column scaledPose (idx j)) (column scaledPose (idx j)) ≠ 0 := by
  fin_cases j <;>
    simp [Dot, column, scaledPose, idx, Matrix.vecHead, Matrix.vecTail]

theorem sqrtExactOn_scaledPose : sqrtExactOn exampleMath scaledPose := by
  intro j
  fin_cases j <;>
    norm_num [Dot, column, scaledPose, idx, exampleMath, Rat.sqrt, Matrix.vecHead,
      Matrix.vecTail]

theorem orthoNormalize_scaledPose :
    orthoNormalize exampleMath scaledPose
      = !![1, 0, 0, 5; 0, 1, 0, 6; 0, 0, 1, 7; 0, 0, 0, 1] := by
  rw [orthoNormalize_of_withinTolerance _ _ withinTolerance_scaledPose]
  norm_num [Normalize_def, Norm, column, scaledPose, exampleMath, Rat.sqrt, Matrix.vecHead,
    Matrix.vecTail]

theorem withinTolerance_orthoNormalize_scaledPose :
    withinTolerance (orthoNormalize exampleMath scaledPose) := by
  rw [orthoNormalize_scaledPose]
  norm_num [withinTolerance, Dot, column, tolerance, Matrix.vecHead, Matrix.vecTail]

theorem scaledPose_columns_orthogonal :
    Dot (column scaledPose 0) (column scaledPose 1) = 0
      ∧ Dot (column scaledPose 0) (column scaledPose 2) = 0
      ∧ Dot (column scaledPose 1) (column scaledPose 2) = 0 := by
  norm_num [Dot, column, scaledPose, Matrix.vecHead, Matrix.vecTail]

theorem exampleMath_sqrt_one : exampleMath.sqrt 1 = 1 := by
  norm_num [exampleMath, Rat.sqrt]

/-- The premises on the numeric routines under which `shortSkewedPose` is
evaluated are met by `exampleMath`. -/
theorem exampleMath_meets_premises :
    exampleMath.sqrt 1 = 1 ∧ exampleMath.sqrt (1 / 1000000) = 1 / 1000
      ∧ orthonormal3 (exampleMath.Orthogonalize3x3 skewedBlock) := by
  refine ⟨exampleMath_sqrt_one, ?_, ?_⟩
  · norm_num [exampleMath, Rat.sqrt]
  · simp [orthonormal3, exampleMath]

theorem withinTolerance_nearlyOrthogonalPose : withinTolerance nearlyOrthogonalPose := by
  norm_num [withinTolerance, Dot, column, nearlyOrthogonalPose, tolerance, Matrix.vecHead,
    Matrix.vecTail, abs_lt]

theorem withinTolerance_shortSkewedPose : withinTolerance shortSkewedPose := by
  norm_num [withinTolerance, Dot, column, shortSkewedPose, tolerance, Matrix.vecHead,
    Matrix.vecTail, abs_lt]

/-- The once-orthonormalized `shortSkewedPose`, for a square root exact at 1
and at 1/1000000. -/
theorem orthoNormalize_shortSkewedPose (lib : VtkMath ℚ) (h1 : lib.sqrt 1 = 1)
    (h2 : lib.sqrt (1 / 1000000) = 1 / 1000) :
    orthoNormalize lib shortSkewedPose
      = !![1, 3 / 5, 0, 0; 0, 4 / 5, 0, 0; 0, 0, 1, 0; 0, 0, 0, 1] := by
  have n0 : Norm lib (column shortSkewedPose 0) = 1 := by
    rw [← h1]
    norm_num [Norm, column, shortSkewedPose, Matrix.vecHead, Matrix.vecTail]
  have n1 : Norm lib (column shortSkewedPose 1) = 1 / 1000 := by
    rw [← h2]
    norm_num [Norm, column, shortSkewedPose, Matrix.vecHead, Matrix.vecTail]
  have n2 : Norm lib (column shortSkewedPose 2) = 1 := by
    rw [← h1]
    norm_num [Norm, column, shortSkewedPose, Matrix.vecHead, Matrix.vecTail]
  rw [orthoNormalize_of_withinTolerance _ _ withinTolerance_shortSkewedPose]
  simp only [Normalize_def, n0, n1, n2]
  norm_num [column, shortSkewedPose, Matrix.vecHead, Matrix.vecTail]

end concrete

section claims

variable {K : Type} [LinearOrderedField K]

/-- C1: in modes AXIAL, SAGITTAL and CORONAL, for the integer rotation and flip
read from the attributes of the slice and the translation `p` of the driver
pose, `UpdateSlice` commits `T(p)·Rz(rotation+180)·Rx(flip·180+180)`,
`T(p)·Rx(rotation−90)·Rz(flip·180+180)·Ry(90)` and
`T(p)·Ry(rotation+180)·Rx(flip·180+180)·Rx(90)` respectively. -/
theorem UpdateSlice_world_axis_modes (lib : VtkMath K) (driverToRASMatrix : Mat4 K)
    (sliceNode : vtkMRMLSliceNode K) (rotationDeg flip : Int)
    (hrot : readIntAttribute sliceNode VOLUMERESLICEDRIVER_ROTATION_ATTRIBUTE 0 = rotationDeg)
    (hflip : readIntAttribute sliceNode VOLUMERESLICEDRIVER_FLIP_ATTRIBUTE 0 = flip) :
    (readIntAttribute sliceNode VOLUMERESLICEDRIVER_MODE_ATTRIBUTE MODE_NONE = MODE_AXIAL →
      (UpdateSlice lib driverToRASMatrix sliceNode).SliceToRAS =
        translationMatrix (GetPosition driverToRASMatrix) * Rz lib ((rotationDeg : K) + 180)
          * Rx lib ((flip : K) * 180 + 180))
    ∧ (readIntAttribute sliceNode VOLUMERESLICEDRIVER_MODE_ATTRIBUTE MODE_NONE = MODE_SAGITTAL →
      (UpdateSlice lib driverToRASMatrix sliceNode).SliceToRAS =
        translationMatrix (GetPosition driverToRASMatrix) * Rx lib ((rotationDeg : K) - 90)
          * Rz lib ((flip : K) * 180 + 180) * Ry lib 90)
    ∧ (readIntAttribute sliceNode VOLUMERESLICEDRIVER_MODE_ATTRIBUTE MODE_NONE = MODE_CORONAL →
      (UpdateSlice lib driverToRASMatrix sliceNode).SliceToRAS =
        translationMatrix (GetPosition driverToRASMatrix) * Ry lib ((rotationDeg : K) + 180)
          * Rx lib ((flip : K) * 180 + 180) * Rx lib 90) := by
  refine ⟨fun hm => ?_, fun hm => ?_, fun hm => ?_⟩ <;>
    apply UpdateSlice_SliceToRAS <;> rw [hm, hrot, hflip]
  · exact compose_axial lib driverToRASMatrix rotationDeg flip
  · exact compose_sagittal lib driverToRASMatrix rotationDeg flip
  · exact compose_coronal lib driverToRASMatrix rotationDeg flip

/-- Witness for C1: a slice in AXIAL mode with rotation 30 and flip 1, driven
by a pose with translation (5,6,7). -/
theorem UpdateSlice_world_axis_modes_witness :
    readIntAttribute (exampleSlice "1" "30" "1") VOLUMERESLICEDRIVER_MODE_ATTRIBUTE MODE_NONE
        = MODE_AXIAL
    ∧ (UpdateSlice exampleMath scaledPose (exampleSlice "1" "30" "1")).SliceToRAS =
        translationMatrix ![5, 6, 7] * Rz exampleMath (((30 : Int) : ℚ) + 180)
          * Rx exampleMath (((1 : Int) : ℚ) * 180 + 180) :=
  ⟨by decide,
    (UpdateSlice_world_axis_modes exampleMath scaledPose (exampleSlice "1" "30" "1") 30 1
      (by decide) (by decide)).1 (by decide)⟩

/-- C2: in modes INPLANE, INPLANE90 and TRANSVERSE, for the integer rotation
and flip read from the attributes of the slice and the orthonormalized driver
pose `D`, `UpdateSlice` commits `D·Rx(−90)·Ry(90)·Rz(rotation)·Rx(flip·180)`,
`D·Rx(−90)·Rz(rotation)·Rx(flip·180)` and `D·Rz(rotation)·Rx(flip·180)`
respectively. -/
theorem UpdateSlice_driver_frame_modes (lib : VtkMath K) (driverToRASMatrix : Mat4 K)
    (sliceNode : vtkMRMLSliceNode K) (rotationDeg flip : Int)
    (hrot : readIntAttribute sliceNode VOLUMERESLICEDRIVER_ROTATION_ATTRIBUTE 0 = rotationDeg)
    (hflip : readIntAttribute sliceNode VOLUMERESLICEDRIVER_FLIP_ATTRIBUTE 0 = flip) :
    (readIntAttribute sliceNode VOLUMERESLICEDRIVER_MODE_ATTRIBUTE MODE_NONE = MODE_INPLANE →
      (UpdateSlice lib driverToRASMatrix sliceNode).SliceToRAS =
        orthoNormalize lib driverToRASMatrix * Rx lib (-90) * Ry lib 90
          * Rz lib (rotationDeg : K) * Rx lib ((flip : K) * 180))
    ∧ (readIntAttribute sliceNode VOLUMERESLICEDRIVER_MODE_ATTRIBUTE MODE_NONE = MODE_INPLANE90 →
      (UpdateSlice lib driverToRASMatrix sliceNode).SliceToRAS =
        orthoNormalize lib driverToRASMatrix * Rx lib (-90)
          * Rz lib (rotationDeg : K) * Rx lib ((flip : K) * 180))
    ∧ (readIntAttribute sliceNode VOLUMERESLICEDRIVER_MODE_ATTRIBUTE MODE_NONE = MODE_TRANSVERSE →
      (UpdateSlice lib driverToRASMatrix sliceNode).SliceToRAS =
        orthoNormalize lib driverToRASMatrix
          * Rz lib (rotationDeg : K) * Rx lib ((flip : K) * 180)) := by
  refine ⟨fun hm => ?_, fun hm => ?_, fun hm => ?_⟩ <;>
    apply UpdateSlice_SliceToRAS <;> rw [hm, hrot, hflip]
  · exact compose_inplane lib driverToRASMatrix rotationDeg flip
  · exact compose_inplane90 lib driverToRASMatrix rotationDeg flip
  · exact compose_transverse lib driverToRASMatrix rotationDeg flip

/-- Witness for C2: a slice in INPLANE mode with rotation 30 and flip 1. -/
theorem UpdateSlice_driver_frame_modes_witness :
    readIntAttribute (exampleSlice "4" "30" "1") VOLUMERESLICEDRIVER_MODE_ATTRIBUTE MODE_NONE
        = MODE_INPLANE
    ∧ (UpdateSlice exampleMath scaledPose (exampleSlice "4" "30" "1")).SliceToRAS =
        orthoNormalize exampleMath scaledPose * Rx exampleMath (-90) * Ry exampleMath 90
          * Rz exampleMath ((30 : Int) : ℚ) * Rx exampleMath (((1 : Int) : ℚ) * 180) :=
  ⟨by decide,
    (UpdateSlice_driver_frame_modes exampleMath scaledPose (exampleSlice "4" "30" "1") 30 1
      (by decide) (by decide)).1 (by decide)⟩

/-- C3: when the mode attribute of the slice is absent or reads as NONE (0),
`UpdateSlice` returns the slice node unchanged, whatever the driver pose and
the rotation and flip attributes are; and a slice updated under any earlier
configuration (AXIAL included) whose mode attribute is then set to "0" keeps
the matrix committed by that earlier update after the next `UpdateSlice`. -/
theorem UpdateSlice_mode_none_unchanged (lib : VtkMath K) (driverToRASMatrix : Mat4 K)
    (sliceNode : vtkMRMLSliceNode K) :
    (sliceNode.GetAttribute VOLUMERESLICEDRIVER_MODE_ATTRIBUTE = none →
      UpdateSlice lib driverToRASMatrix sliceNode = sliceNode)
    ∧ (readIntAttribute sliceNode VOLUMERESLICEDRIVER_MODE_ATTRIBUTE MODE_NONE = MODE_NONE →
      UpdateSlice lib driverToRASMatrix sliceNode = sliceNode)
    ∧ ∀ earlierPose : Mat4 K,
      (UpdateSlice lib driverToRASMatrix
        ((UpdateSlice lib earlierPose sliceNode).SetAttribute
          VOLUMERESLICEDRIVER_MODE_ATTRIBUTE "0")).SliceToRAS
        = (UpdateSlice lib earlierPose sliceNode).SliceToRAS := by
  refine ⟨fun h => ?_, fun h => ?_, fun earlierPose => ?_⟩
  · apply UpdateSlice_of_mode_none
    simp [readIntAttribute, h]
  · exact UpdateSlice_of_mode_none lib driverToRASMatrix sliceNode h
  · rw [UpdateSlice_of_mode_none]
    · rfl
    · rw [readIntAttribute, GetAttribute_SetAttribute]
      decide

/-- Instance of C3: a slice driven in AXIAL mode to a pose with translation
(5,6,7), then set to mode NONE, keeps that committed matrix (which is not the
identity it started from) when the driver moves to another pose. -/
theorem UpdateSlice_mode_none_unchanged_witness :
    (UpdateSlice exampleMath shearedPose
        ((UpdateSlice exampleMath scaledPose (exampleSlice "1" "30" "1")).SetAttribute
          VOLUMERESLICEDRIVER_MODE_ATTRIBUTE "0")).SliceToRAS
      = (UpdateSlice exampleMath scaledPose (exampleSlice "1" "30" "1")).SliceToRAS :=
  (UpdateSlice_mode_none_unchanged exampleMath shearedPose (exampleSlice "1" "30" "1")).2.2
    scaledPose

/-- A residual within the tolerance: the pose with rotation columns (1,0,0),
(1/1000,1,0) and (0,0,1) passes the tolerance test, and whatever the numeric
routines are, the first two columns of the orthonormalized matrix are not
exactly orthogonal. -/
theorem orthoNormalize_not_orthonormal :
    ¬ ∃ lib : VtkMath ℚ, orthonormalColumns (orthoNormalize lib nearlyOrthogonalPose) := by
  rintro ⟨lib, -, -, -, h, -, -⟩
  have c0 := column_orthoNormalize lib _ withinTolerance_nearlyOrthogonalPose 0
  have c1 := column_orthoNormalize lib _ withinTolerance_nearlyOrthogonalPose 1
  rw [idx_zero] at c0
  rw [idx_one] at c1
  rw [c0, c1, Normalize_def, Normalize_def] at h
  have e0 : column nearlyOrthogonalPose 0 = ![1, 0, 0] := by
    simp [column, nearlyOrthogonalPose, Matrix.vecHead, Matrix.vecTail]
  have e1 : column nearlyOrthogonalPose 1 = ![1 / 1000, 1, 0] := by
    simp [column, nearlyOrthogonalPose, Matrix.vecHead, Matrix.vecTail]
  rw [e0, e1] at h
  generalize Norm lib ![1, 0, 0] = d0 at h
  generalize Norm lib ![1 / 1000, 1, 0] = d1 at h
  split_ifs at h with h0 h1 h1
  · simp [Dot, Matrix.vecHead, Matrix.vecTail] at h
    rcases h with h | h
    · exact h0 h
    · exact h1 h
  · simp [Dot, Matrix.vecHead, Matrix.vecTail] at h
    exact h0 h
  · simp [Dot, Matrix.vecHead, Matrix.vecTail] at h
    exact h1 h
  · simp [Dot, Matrix.vecHead, Matrix.vecTail] at h

/-- What the orthonormalization block guarantees: when the input pose passes
the tolerance test and its three rotation columns are non-zero (the square root
being exact on their squared lengths), each rotation column of the
orthonormalized matrix has unit length, and the three are mutually orthogonal
when the input columns are exactly orthogonal; when the input fails the
tolerance test, the orthonormalized matrix has orthonormal columns whenever
`Orthogonalize3x3` returns an orthonormal array. -/
theorem orthoNormalize_columns (lib : VtkMath K) (M : Mat4 K) :
    (withinTolerance M →
      (∀ j : Fin 3, Dot (column M (idx j)) (column M (idx j)) ≠ 0) →
      sqrtExactOn lib M →
      Dot (column (orthoNormalize lib M) 0) (column (orthoNormalize lib M) 0) = 1
      ∧ Dot (column (orthoNormalize lib M) 1) (column (orthoNormalize lib M) 1) = 1
      ∧ Dot (column (orthoNormalize lib M) 2) (column (orthoNormalize lib M) 2) = 1
      ∧ (Dot (column M 0) (column M 1) = 0 ∧ Dot (column M 0) (column M 2) = 0
          ∧ Dot (column M 1) (column M 2) = 0 →
        orthonormalColumns (orthoNormalize lib M)))
    ∧ (¬ withinTolerance M →
      orthonormal3 (lib.Orthogonalize3x3 (rotationBlock M)) →
      orthonormalColumns (orthoNormalize lib M)) := by
  refine ⟨fun hfast hnz hsqrt => ?_, orthonormalColumns_of_not_withinTolerance lib M⟩
  have c0 := column_orthoNormalize lib M hfast 0
  have c1 := column_orthoNormalize lib M hfast 1
  have c2 := column_orthoNormalize lib M hfast 2
  have n0 := hnz 0
  have n1 := hnz 1
  have n2 := hnz 2
  have s0 := hsqrt 0
  have s1 := hsqrt 1
  have s2 := hsqrt 2
  rw [idx_zero] at c0 n0 s0
  rw [idx_one] at c1 n1 s1
  rw [idx_two] at c2 n2 s2
  have u0 : Dot (column (orthoNormalize lib M) 0) (column (orthoNormalize lib M) 0) = 1 := by
    rw [c0, Dot_Normalize lib _ _ s0 n0 s0 n0, s0]; exact div_self n0
  have u1 : Dot (column (orthoNormalize lib M) 1) (column (orthoNormalize lib M) 1) = 1 := by
    rw [c1, Dot_Normalize lib _ _ s1 n1 s1 n1, s1]; exact div_self n1
  have u2 : Dot (column (orthoNormalize lib M) 2) (column (orthoNormalize lib M) 2) = 1 := by
    rw [c2, Dot_Normalize lib _ _ s2 n2 s2 n2, s2]; exact div_self n2
  refine ⟨u0, u1, u2, fun horth => ⟨u0, u1, u2, ?_, ?_, ?_⟩⟩
  · rw [c0, c1, Dot_Normalize lib _ _ s0 n0 s1 n1, horth.1, zero_div]
  · rw [c0, c2, Dot_Normalize lib _ _ s0 n0 s2 n2, horth.2.1, zero_div]
  · rw [c1, c2, Dot_Normalize lib _ _ s1 n1 s2 n2, horth.2.2, zero_div]

/-- Instance: the pose with orthogonal columns of lengths 2, 3 and 4 passes the
tolerance test and is orthonormalized to a matrix with orthonormal columns. -/
theorem orthoNormalize_columns_witness :
    withinTolerance scaledPose
      ∧ orthonormalColumns (orthoNormalize exampleMath scaledPose) :=
  ⟨withinTolerance_scaledPose,
    ((orthoNormalize_columns exampleMath scaledPose).1 withinTolerance_scaledPose
      scaledPose_columns_ne_zero sqrtExactOn_scaledPose).2.2.2
      scaledPose_columns_orthogonal⟩

/-- C5, where the code departs from the claim: `shortSkewedPose`, whose first
two axes are about 53 degrees apart, passes the tolerance test, which compares
the raw dot product 3/5000 with 0.002; once its columns are normalized their
dot product is 3/5, so the second application takes the other branch. For no
numeric routines with a square root exact at 1 and 1/1000000 and an
`Orthogonalize3x3` that returns an orthonormal array for the normalized block
is the second result equal to the first. -/
theorem orthoNormalize_not_idempotent :
    ¬ ∃ lib : VtkMath ℚ, lib.sqrt 1 = 1 ∧ lib.sqrt (1 / 1000000) = 1 / 1000
      ∧ orthonormal3 (lib.Orthogonalize3x3 skewedBlock)
      ∧ orthoNormalize lib (orthoNormalize lib shortSkewedPose)
        = orthoNormalize lib shortSkewedPose := by
  rintro ⟨lib, h1, h2, horth, hid⟩
  rw [orthoNormalize_shortSkewedPose lib h1 h2] at hid
  have hslow : ¬ withinTolerance
      (!![1, 3 / 5, 0, 0; 0, 4 / 5, 0, 0; 0, 0, 1, 0; 0, 0, 0, 1] : Mat4 ℚ) := by
    norm_num [withinTolerance, Dot, column, tolerance, Matrix.vecHead, Matrix.vecTail, abs_lt]
  have hblock : rotationBlock
      (!![1, 3 / 5, 0, 0; 0, 4 / 5, 0, 0; 0, 0, 1, 0; 0, 0, 0, 1] : Mat4 ℚ) = skewedBlock := by
    ext i j
    fin_cases i <;> fin_cases j <;>
      simp [rotationBlock, skewedBlock, idx, Matrix.vecHead, Matrix.vecTail]
  rw [orthoNormalize_of_not_withinTolerance lib _ hslow, hblock] at hid
  have e00 := congrFun (congrFun hid 0) 0
  have e01 := congrFun (congrFun hid 0) 1
  have e10 := congrFun (congrFun hid 1) 0
  have e11 := congrFun (congrFun hid 1) 1
  have e20 := congrFun (congrFun hid 2) 0
  have e21 := congrFun (congrFun hid 2) 1
  simp at e00 e01 e10 e11 e20 e21
  have hentry := congrFun (congrFun horth 0) 1
  simp [Matrix.mul_apply, Fin.sum_univ_three, e00, e01, e10, e11, e20, e21] at hentry

/-- Where a second application changes nothing: with a square root exact at 1,
orthonormalizing twice gives the same matrix as orthonormalizing once when the
input and the once-orthonormalized matrix both pass the tolerance test (the
square root being exact on the squared lengths of the input columns), and when
the input fails the tolerance test and `Orthogonalize3x3` returns an
orthonormal array. -/
theorem orthoNormalize_idempotent (lib : VtkMath K) (M : Mat4 K) (hone : lib.sqrt 1 = 1) :
    (withinTolerance M → withinTolerance (orthoNormalize lib M) → sqrtExactOn lib M →
      orthoNormalize lib (orthoNormalize lib M) = orthoNormalize lib M)
    ∧ (¬ withinTolerance M → orthonormal3 (lib.Orthogonalize3x3 (rotationBlock M)) →
      orthoNormalize lib (orthoNormalize lib M) = orthoNormalize lib M) := by
  constructor
  · intro hfast hagain hsqrt
    apply orthoNormalize_eq_self lib _ hagain _ (orthoNormalize_bottom lib M)
    intro j
    rw [column_orthoNormalize lib M hfast j]
    exact Normalize_Normalize lib _ (hsqrt j) hone
  · intro hslow horth
    have hcols := orthonormalColumns_of_not_withinTolerance lib M hslow horth
    apply orthoNormalize_eq_self lib _ (withinTolerance_of_orthonormalColumns _ hcols) _
      (orthoNormalize_bottom lib M)
    intro j
    obtain ⟨u0, u1, u2, -, -, -⟩ := hcols
    fin_cases j
    · exact Normalize_of_unit lib _ u0 hone
    · exact Normalize_of_unit lib _ u1 hone
    · exact Normalize_of_unit lib _ u2 hone

/-- Instance on the pose with orthogonal columns of lengths 2, 3 and 4. -/
theorem orthoNormalize_idempotent_witness :
    exampleMath.sqrt 1 = 1
      ∧ orthoNormalize exampleMath (orthoNormalize exampleMath scaledPose)
        = orthoNormalize exampleMath scaledPose :=
  ⟨exampleMath_sqrt_one,
    (orthoNormalize_idempotent exampleMath scaledPose exampleMath_sqrt_one).1
      withinTolerance_scaledPose withinTolerance_orthoNormalize_scaledPose
      sqrtExactOn_scaledPose⟩

end claims

section rotationAttribute

variable {K : Type}

/-- C6, the code at the failing inputs: with the rotation attribute holding the
text a C++ stream writes for the doubles 12.5 and 1000000, that is "12.5" and
"1e+06", the `int` that `UpdateSlice` reads back is 12 and 1. -/
theorem rotation_read_back_truncates (sliceNode : vtkMRMLSliceNode K) :
    readIntAttribute (sliceNode.SetAttribute VOLUMERESLICEDRIVER_ROTATION_ATTRIBUTE "12.5")
        VOLUMERESLICEDRIVER_ROTATION_ATTRIBUTE 0 = 12
    ∧ readIntAttribute (sliceNode.SetAttribute VOLUMERESLICEDRIVER_ROTATION_ATTRIBUTE "1e+06")
        VOLUMERESLICEDRIVER_ROTATION_ATTRIBUTE 0 = 1 := by
  constructor
  · rw [readIntAttribute, GetAttribute_SetAttribute]; decide
  · rw [readIntAttribute, GetAttribute_SetAttribute]; decide

end rotationAttribute

section claims

variable {K : Type} [LinearOrderedField K]

/-- C7: with sine and cosine exact at 0 and 180 degrees and of period 360, for
two slices that differ only in flip (0 and 1), under the same driver pose: in
modes AXIAL, CORONAL, INPLANE, INPLANE90 and TRANSVERSE the matrix committed
with flip 1 is the matrix committed with flip 0 times `Rx(180)`; in mode
SAGITTAL the matrix with flip 0 is `T·Rx(rotation−90)·Rz(180)·Ry(90)` and the
matrix with flip 1 is `T·Rx(rotation−90)·Ry(90)`. -/
theorem UpdateSlice_flip_half_turn (lib : VtkMath K) (hlib : ExactTrig lib)
    (driverToRASMatrix : Mat4 K) (slice0 slice1 : vtkMRMLSliceNode K) (mode rotationDeg : Int)
    (hmode0 : readIntAttribute slice0 VOLUMERESLICEDRIVER_MODE_ATTRIBUTE MODE_NONE = mode)
    (hmode1 : readIntAttribute slice1 VOLUMERESLICEDRIVER_MODE_ATTRIBUTE MODE_NONE = mode)
    (hrot0 : readIntAttribute slice0 VOLUMERESLICEDRIVER_ROTATION_ATTRIBUTE 0 = rotationDeg)
    (hrot1 : readIntAttribute slice1 VOLUMERESLICEDRIVER_ROTATION_ATTRIBUTE 0 = rotationDeg)
    (hflip0 : readIntAttribute slice0 VOLUMERESLICEDRIVER_FLIP_ATTRIBUTE 0 = 0)
    (hflip1 : readIntAttribute slice1 VOLUMERESLICEDRIVER_FLIP_ATTRIBUTE 0 = 1) :
    (mode = MODE_AXIAL ∨ mode = MODE_CORONAL ∨ mode = MODE_INPLANE ∨ mode = MODE_INPLANE90
        ∨ mode = MODE_TRANSVERSE →
      (UpdateSlice lib driverToRASMatrix slice1).SliceToRAS
        = (UpdateSlice lib driverToRASMatrix slice0).SliceToRAS * Rx lib 180)
    ∧ (mode = MODE_SAGITTAL →
      (UpdateSlice lib driverToRASMatrix slice0).SliceToRAS
          = translationMatrix (GetPosition driverToRASMatrix) * Rx lib ((rotationDeg : K) - 90)
            * Rz lib 180 * Ry lib 90
        ∧ (UpdateSlice lib driverToRASMatrix slice1).SliceToRAS
          = translationMatrix (GetPosition driverToRASMatrix) * Rx lib ((rotationDeg : K) - 90)
            * Ry lib 90) := by
  have e360 : ((1 : Int) : K) * 180 + 180 = 360 := by norm_num
  have e180 : ((0 : Int) : K) * 180 + 180 = 180 := by norm_num
  have f180 : ((1 : Int) : K) * 180 = 180 := by norm_num
  have f0 : ((0 : Int) : K) * 180 = 0 := by norm_num
  constructor
  · intro hm
    rcases hm with h | h | h | h | h <;> subst h
    · rw [UpdateSlice_SliceToRAS lib _ slice1 _
          (by rw [hmode1, hrot1, hflip1]; exact compose_axial lib _ _ _),
        UpdateSlice_SliceToRAS lib _ slice0 _
          (by rw [hmode0, hrot0, hflip0]; exact compose_axial lib _ _ _),
        e360, e180, Rx_full hlib, Matrix.mul_one, Matrix.mul_assoc _ (Rx lib 180),
        Rx_straight_mul_self hlib, Matrix.mul_one]
    · rw [UpdateSlice_SliceToRAS lib _ slice1 _
          (by rw [hmode1, hrot1, hflip1]; exact compose_coronal lib _ _ _),
        UpdateSlice_SliceToRAS lib _ slice0 _
          (by rw [hmode0, hrot0, hflip0]; exact compose_coronal lib _ _ _),
        e360, e180, Rx_full hlib, Matrix.mul_one]
      simp only [Matrix.mul_assoc]
      rw [← Matrix.mul_assoc (Rx lib 180), Rx_straight_conj hlib]
    · rw [UpdateSlice_SliceToRAS lib _ slice1 _
          (by rw [hmode1, hrot1, hflip1]; exact compose_inplane lib _ _ _),
        UpdateSlice_SliceToRAS lib _ slice0 _
          (by rw [hmode0, hrot0, hflip0]; exact compose_inplane lib _ _ _),
        f180, f0, Rx_zero hlib, Matrix.mul_one]
    · rw [UpdateSlice_SliceToRAS lib _ slice1 _
          (by rw [hmode1, hrot1, hflip1]; exact compose_inplane90 lib _ _ _),
        UpdateSlice_SliceToRAS lib _ slice0 _
          (by rw [hmode0, hrot0, hflip0]; exact compose_inplane90 lib _ _ _),
        f180, f0, Rx_zero hlib, Matrix.mul_one]
    · rw [UpdateSlice_SliceToRAS lib _ slice1 _
          (by rw [hmode1, hrot1, hflip1]; exact compose_transverse lib _ _ _),
        UpdateSlice_SliceToRAS lib _ slice0 _
          (by rw [hmode0, hrot0, hflip0]; exact compose_transverse lib _ _ _),
        f180, f0, Rx_zero hlib, Matrix.mul_one]
  · intro h
    subst h
    constructor
    · rw [UpdateSlice_SliceToRAS lib _ slice0 _
          (by rw [hmode0, hrot0, hflip0]; exact compose_sagittal lib _ _ _), e180]
    · rw [UpdateSlice_SliceToRAS lib _ slice1 _
          (by rw [hmode1, hrot1, hflip1]; exact compose_sagittal lib _ _ _),
        e360, Rz_full hlib, Matrix.mul_one]

/-- Witness for C7: two AXIAL slices with rotation 30 and flips 0 and 1. -/
theorem UpdateSlice_flip_half_turn_witness :
    ExactTrig exampleMath
      ∧ (UpdateSlice exampleMath scaledPose (exampleSlice "1" "30" "1")).SliceToRAS
        = (UpdateSlice exampleMath scaledPose (exampleSlice "1" "30" "0")).SliceToRAS
          * Rx exampleMath 180 :=
  ⟨exampleMath_exactTrig,
    (UpdateSlice_flip_half_turn exampleMath exampleMath_exactTrig scaledPose
      (exampleSlice "1" "30" "0") (exampleSlice "1" "30" "1") 1 30
      (by decide) (by decide) (by decide) (by decide) (by decide) (by decide)).1
      (Or.inl rfl)⟩

/-- C8: with sine and cosine of period 360 degrees, in every mode other than
NONE two slices whose rotation attributes read `r` and `r + 360`, with the
same mode and flip, get the same matrix committed under the same driver
pose. -/
theorem UpdateSlice_rotation_full_turn (lib : VtkMath K) (hlib : ExactTrig lib)
    (driverToRASMatrix : Mat4 K) (sliceA sliceB : vtkMRMLSliceNode K) (mode flip : Int)
    (hmodeA : readIntAttribute sliceA VOLUMERESLICEDRIVER_MODE_ATTRIBUTE MODE_NONE = mode)
    (hmodeB : readIntAttribute sliceB VOLUMERESLICEDRIVER_MODE_ATTRIBUTE MODE_NONE = mode)
    (hflipA : readIntAttribute sliceA VOLUMERESLICEDRIVER_FLIP_ATTRIBUTE 0 = flip)
    (hflipB : readIntAttribute sliceB VOLUMERESLICEDRIVER_FLIP_ATTRIBUTE 0 = flip)
    (hrot : readIntAttribute sliceB VOLUMERESLICEDRIVER_ROTATION_ATTRIBUTE 0
      = readIntAttribute sliceA VOLUMERESLICEDRIVER_ROTATION_ATTRIBUTE 0 + 360)
    (hmode : mode = MODE_AXIAL ∨ mode = MODE_SAGITTAL ∨ mode = MODE_CORONAL
      ∨ mode = MODE_INPLANE ∨ mode = MODE_INPLANE90 ∨ mode = MODE_TRANSVERSE) :
    (UpdateSlice lib driverToRASMatrix sliceB).SliceToRAS
      = (UpdateSlice lib driverToRASMatrix sliceA).SliceToRAS := by
  have c1 : ∀ r : Int, ((r + 360 : Int) : K) + 180 = ((r : K) + 180) + 360 := by
    intro r; push_cast; ring
  have c2 : ∀ r : Int, ((r + 360 : Int) : K) - 90 = ((r : K) - 90) + 360 := by
    intro r; push_cast; ring
  have c3 : ∀ r : Int, ((r + 360 : Int) : K) = (r : K) + 360 := by
    intro r; push_cast; ring
  rcases hmode with h | h | h | h | h | h <;> subst h
  · rw [UpdateSlice_SliceToRAS lib _ sliceB _
          (by rw [hmodeB, hrot, hflipB]; exact compose_axial lib _ _ _),
        UpdateSlice_SliceToRAS lib _ sliceA _
          (by rw [hmodeA, hflipA]; exact compose_axial lib _ _ _), c1, Rz_period hlib]
  · rw [UpdateSlice_SliceToRAS lib _ sliceB _
          (by rw [hmodeB, hrot, hflipB]; exact compose_sagittal lib _ _ _),
        UpdateSlice_SliceToRAS lib _ sliceA _
          (by rw [hmodeA, hflipA]; exact compose_sagittal lib _ _ _), c2, Rx_period hlib]
  · rw [UpdateSlice_SliceToRAS lib _ sliceB _
          (by rw [hmodeB, hrot, hflipB]; exact compose_coronal lib _ _ _),
        UpdateSlice_SliceToRAS lib _ sliceA _
          (by rw [hmodeA, hflipA]; exact compose_coronal lib _ _ _), c1, Ry_period hlib]
  · rw [UpdateSlice_SliceToRAS lib _ sliceB _
          (by rw [hmodeB, hrot, hflipB]; exact compose_inplane lib _ _ _),
        UpdateSlice_SliceToRAS lib _ sliceA _
          (by rw [hmodeA, hflipA]; exact compose_inplane lib _ _ _), c3, Rz_period hlib]
  · rw [UpdateSlice_SliceToRAS lib _ sliceB _
          (by rw [hmodeB, hrot, hflipB]; exact compose_inplane90 lib _ _ _),
        UpdateSlice_SliceToRAS lib _ sliceA _
          (by rw [hmodeA, hflipA]; exact compose_inplane90 lib _ _ _), c3, Rz_period hlib]
  · rw [UpdateSlice_SliceToRAS lib _ sliceB _
          (by rw [hmodeB, hrot, hflipB]; exact compose_transverse lib _ _ _),
        UpdateSlice_SliceToRAS lib _ sliceA _
          (by rw [hmodeA, hflipA]; exact compose_transverse lib _ _ _), c3, Rz_period hlib]

/-- Witness for C8: two INPLANE slices with rotations 30 and 390. -/
theorem UpdateSlice_rotation_full_turn_witness :
    ExactTrig exampleMath
      ∧ (UpdateSlice exampleMath scaledPose (exampleSlice "4" "390" "1")).SliceToRAS
        = (UpdateSlice exampleMath scaledPose (exampleSlice "4" "30" "1")).SliceToRAS :=
  ⟨exampleMath_exactTrig,
    UpdateSlice_rotation_full_turn exampleMath exampleMath_exactTrig scaledPose
      (exampleSlice "4" "30" "1") (exampleSlice "4" "390" "1") 4 1
      (by decide) (by decide) (by decide) (by decide) (by decide)
      (Or.inr (Or.inr (Or.inr (Or.inl rfl))))⟩

/-- C9: in modes AXIAL, SAGITTAL and CORONAL two driver poses with the same
translation column, whatever their rotation blocks, make `UpdateSlice` leave
the same slice node. -/
theorem UpdateSlice_ignores_driver_orientation (lib : VtkMath K) (pose1 pose2 : Mat4 K)
    (sliceNode : vtkMRMLSliceNode K)
    (hpos : GetPosition pose1 = GetPosition pose2)
    (hmode : readIntAttribute sliceNode VOLUMERESLICEDRIVER_MODE_ATTRIBUTE MODE_NONE = MODE_AXIAL
      ∨ readIntAttribute sliceNode VOLUMERESLICEDRIVER_MODE_ATTRIBUTE MODE_NONE = MODE_SAGITTAL
      ∨ readIntAttribute sliceNode VOLUMERESLICEDRIVER_MODE_ATTRIBUTE MODE_NONE = MODE_CORONAL) :
    UpdateSlice lib pose1 sliceNode = UpdateSlice lib pose2 sliceNode := by
  rcases hmode with h | h | h
  · simp only [UpdateSlice, h, compose_axial, hpos]
  · simp only [UpdateSlice, h, compose_sagittal, hpos]
  · simp only [UpdateSlice, h, compose_coronal, hpos]

/-- Witness for C9: a pose with orthogonal columns and a sheared pose, both
with translation (5,6,7), drive a CORONAL slice to the same result. -/
theorem UpdateSlice_ignores_driver_orientation_witness :
    GetPosition scaledPose = GetPosition shearedPose
    ∧ UpdateSlice exampleMath scaledPose (exampleSlice "3" "30" "0")
      = UpdateSlice exampleMath shearedPose (exampleSlice "3" "30" "0") :=
  ⟨by simp [GetPosition, scaledPose, shearedPose],
    UpdateSlice_ignores_driver_orientation exampleMath scaledPose shearedPose
      (exampleSlice "3" "30" "0") (by simp [GetPosition, scaledPose, shearedPose])
      (Or.inr (Or.inr (by decide)))⟩

/-- C10: the pose `UpdateSliceByLine` builds and passes to `UpdateSlice` has
translation `position2`, for every pair of points; for (0,0,0) and (1,0,0) the
translation is (1,0,0). -/
theorem lineTransform_translation (lib : VtkMath K) (position1 position2 : Vec3 K)
    (sliceNode : vtkMRMLSliceNode K) :
    UpdateSliceByLine lib position1 position2 sliceNode
        = UpdateSlice lib (lineTransform lib position1 position2) sliceNode
    ∧ GetPosition (lineTransform lib position1 position2) = position2
    ∧ GetPosition (lineTransform lib ![0, 0, 0] ![1, 0, 0]) = ![1, 0, 0] := by
  have key : ∀ p1 p2 : Vec3 K, GetPosition (lineTransform lib p1 p2) = p2 := by
    intro p1 p2
    funext i
    fin_cases i <;> simp [GetPosition, lineTransform, SetElement]
  exact ⟨rfl, key _ _, key _ _⟩

end claims

section sceneLemmas

variable {K : Type}

/-- Looking a node up after every node was changed in place. -/
theorem GetNodeByID_mapNodes (g : String → vtkMRMLNode K → vtkMRMLNode K)
    (scene : vtkMRMLScene K) (id : String) :
    GetNodeByID (mapNodes g scene) id = (GetNodeByID scene id).map (g id) := by
  unfold GetNodeByID mapNodes
  induction scene with
  | nil => rfl
  | cons entry rest ih =>
    obtain ⟨k, v⟩ := entry
    by_cases h : id = k
    · subst h
      simp [List.lookup]
    · have hb : (id == k) = false := by simpa using h
      simp only [List.map_cons, List.lookup, hb]
      exact ih

theorem mapNodes_mapNodes (g h : String → vtkMRMLNode K → vtkMRMLNode K)
    (scene : vtkMRMLScene K) :
    mapNodes g (mapNodes h scene) = mapNodes (fun id node => g id (h id node)) scene := by
  simp [mapNodes]

theorem lookup_filter_ne (l : List (String × String)) (name key : String) (h : name ≠ key) :
    List.lookup name (l.filter fun kv => kv.1 != key) = List.lookup name l := by
  induction l with
  | nil => rfl
  | cons entry rest ih =>
    obtain ⟨k, v⟩ := entry
    by_cases hk : k = key
    · subst hk
      have hb : (name == k) = false := by simpa using h
      simp [List.filter, List.lookup, hb, ih]
    · have hf : (k != key) = true := by simpa using hk
      simp only [List.filter, hf, List.lookup]
      rw [ih]

theorem lookup_filter_self (l : List (String × String)) (key : String) :
    List.lookup key (l.filter fun kv => kv.1 != key) = none := by
  induction l with
  | nil => rfl
  | cons entry rest ih =>
    obtain ⟨k, v⟩ := entry
    by_cases hk : k = key
    · subst hk
      simp [List.filter, ih]
    · have hf : (k != key) = true := by simpa using hk
      have hb : (key == k) = false := by simpa using (Ne.symm hk)
      simp only [List.filter, hf, List.lookup, hb]
      exact ih

theorem GetAttribute_RemoveAttribute_self (sliceNode : vtkMRMLSliceNode K) (name : String) :
    (sliceNode.RemoveAttribute name).GetAttribute name = none :=
  lookup_filter_self _ _

theorem GetAttribute_RemoveAttribute_ne (sliceNode : vtkMRMLSliceNode K) (name key : String)
    (h : name ≠ key) :
    (sliceNode.RemoveAttribute key).GetAttribute name = sliceNode.GetAttribute name :=
  lookup_filter_ne _ _ _ h

theorem RemoveAttribute_RemoveAttribute (sliceNode : vtkMRMLSliceNode K) (name : String) :
    (sliceNode.RemoveAttribute name).RemoveAttribute name = sliceNode.RemoveAttribute name := by
  simp [vtkMRMLSliceNode.RemoveAttribute, List.filter_filter]

theorem ObservedNodes_AddObservedNode_nodup (node : String)
    (logic : vtkSlicerVolumeResliceDriverLogic K) (h : logic.ObservedNodes.Nodup) :
    (AddObservedNode node logic).ObservedNodes.Nodup := by
  unfold AddObservedNode
  split_ifs with hmem
  · exact h
  · simp only [List.nodup_append, List.nodup_singleton, List.disjoint_singleton]
    exact ⟨h, trivial, hmem⟩

theorem mem_ObservedNodes_AddObservedNode (node : String)
    (logic : vtkSlicerVolumeResliceDriverLogic K) :
    node ∈ (AddObservedNode node logic).ObservedNodes := by
  unfold AddObservedNode
  split_ifs with hmem
  · exact hmem
  · simp

theorem ObservedNodes_subset_AddObservedNode (node : String)
    (logic : vtkSlicerVolumeResliceDriverLogic K) :
    logic.ObservedNodes ⊆ (AddObservedNode node logic).ObservedNodes := by
  unfold AddObservedNode
  split_ifs with hmem
  · exact List.Subset.refl _
  · exact List.subset_append_left _ _

theorem Scene_AddObservedNode (node : String) (logic : vtkSlicerVolumeResliceDriverLogic K) :
    (AddObservedNode node logic).Scene = logic.Scene := by
  unfold AddObservedNode
  split_ifs <;> rfl

/-- Looking a node up after a slice node was changed in place. -/
theorem GetNodeByID_modifySliceNode (scene : vtkMRMLScene K) (sliceID : String)
    (f : vtkMRMLSliceNode K → vtkMRMLSliceNode K) (id : String) :
    GetNodeByID (modifySliceNode scene sliceID f) id
      = (GetNodeByID scene id).map fun node =>
        match node with
        | .Slice sliceNode => if id = sliceID then .Slice (f sliceNode) else node
        | _ => node :=
  GetNodeByID_mapNodes _ _ _

theorem GetSliceNode_modifySliceNode_self (scene : vtkMRMLScene K) (sliceID : String)
    (f : vtkMRMLSliceNode K → vtkMRMLSliceNode K) (sliceNode : vtkMRMLSliceNode K)
    (h : GetSliceNode scene sliceID = some sliceNode) :
    GetSliceNode (modifySliceNode scene sliceID f) sliceID = some (f sliceNode) := by
  unfold GetSliceNode at h ⊢
  rw [GetNodeByID_modifySliceNode]
  cases hnode : GetNodeByID scene sliceID with
  | none => rw [hnode] at h; simp at h
  | some node =>
    rw [hnode] at h
    cases node with
    | Slice s =>
      simp only [Option.some.injEq] at h
      subst h
      simp
    | Transformable t => simp at h
    | Other => simp at h

theorem GetNodeByID_modifySliceNode_ne (scene : vtkMRMLScene K) (sliceID : String)
    (f : vtkMRMLSliceNode K → vtkMRMLSliceNode K) (id : String) (h : id ≠ sliceID) :
    GetNodeByID (modifySliceNode scene sliceID f) id = GetNodeByID scene id := by
  rw [GetNodeByID_modifySliceNode]
  cases hnode : GetNodeByID scene id with
  | none => rfl
  | some node => cases node <;> simp [h]

theorem GetNodeByID_modifySliceNode_transformable (scene : vtkMRMLScene K) (sliceID : String)
    (f : vtkMRMLSliceNode K → vtkMRMLSliceNode K) (id : String)
    (t : vtkMRMLTransformableNode K) :
    GetNodeByID (modifySliceNode scene sliceID f) id = some (.Transformable t)
      ↔ GetNodeByID scene id = some (.Transformable t) := by
  rw [GetNodeByID_modifySliceNode]
  cases hnode : GetNodeByID scene id with
  | none => simp
  | some node =>
    cases node with
    | Slice s => by_cases hb : id = sliceID <;> simp [hb]
    | Transformable t => simp
    | Other => simp

theorem isSome_GetSliceNode_modifySliceNode (scene : vtkMRMLScene K) (sliceID : String)
    (f : vtkMRMLSliceNode K → vtkMRMLSliceNode K) (id : String) :
    (GetSliceNode (modifySliceNode scene sliceID f) id).isSome
      = (GetSliceNode scene id).isSome := by
  unfold GetSliceNode
  rw [GetNodeByID_modifySliceNode]
  cases hnode : GetNodeByID scene id with
  | none => simp
  | some node =>
    cases node with
    | Slice s => by_cases hb : id = sliceID <;> simp [hb]
    | Transformable t => simp
    | Other => simp

/-- One step of the rescan loop either changes nothing or adds an observed
node. -/
theorem rescanNode_cases (scene : vtkMRMLScene K) (logic : vtkSlicerVolumeResliceDriverLogic K)
    (entry : String × vtkMRMLNode K) :
    rescanNode scene logic entry = logic
      ∨ ∃ d, rescanNode scene logic entry = AddObservedNode d logic := by
  unfold rescanNode
  cases entry.2 with
  | Slice slice =>
    simp only []
    cases slice.GetAttribute VOLUMERESLICEDRIVER_DRIVER_ATTRIBUTE with
    | none => exact Or.inl rfl
    | some driverCC =>
      simp only []
      cases GetNodeByID scene driverCC with
      | none => exact Or.inl rfl
      | some node =>
        cases node with
        | Slice _ => exact Or.inl rfl
        | Transformable _ => exact Or.inr ⟨driverCC, rfl⟩
        | Other => exact Or.inl rfl
  | Transformable _ => exact Or.inl rfl
  | Other => exact Or.inl rfl

theorem rescanNode_keeps (scene : vtkMRMLScene K) (logic : vtkSlicerVolumeResliceDriverLogic K)
    (entry : String × vtkMRMLNode K) :
    (rescanNode scene logic entry).Scene = logic.Scene
      ∧ (logic.ObservedNodes.Nodup → (rescanNode scene logic entry).ObservedNodes.Nodup)
      ∧ logic.ObservedNodes ⊆ (rescanNode scene logic entry).ObservedNodes := by
  rcases rescanNode_cases scene logic entry with h | ⟨d, h⟩
  · rw [h]; exact ⟨rfl, fun h => h, List.Subset.refl _⟩
  · rw [h]
    exact ⟨Scene_AddObservedNode _ _, ObservedNodes_AddObservedNode_nodup _ _,
      ObservedNodes_subset_AddObservedNode _ _⟩

theorem foldl_rescanNode_keeps (scene : vtkMRMLScene K) (l : vtkMRMLScene K)
    (logic : vtkSlicerVolumeResliceDriverLogic K) :
    (l.foldl (rescanNode scene) logic).Scene = logic.Scene
      ∧ (logic.ObservedNodes.Nodup → (l.foldl (rescanNode scene) logic).ObservedNodes.Nodup)
      ∧ logic.ObservedNodes ⊆ (l.foldl (rescanNode scene) logic).ObservedNodes := by
  induction l generalizing logic with
  | nil => exact ⟨rfl, fun h => h, List.Subset.refl _⟩
  | cons entry rest ih =>
    rw [List.foldl_cons]
    obtain ⟨i1, i2, i3⟩ := ih (rescanNode scene logic entry)
    obtain ⟨s1, s2, s3⟩ := rescanNode_keeps scene logic entry
    exact ⟨i1.trans s1, fun hn => i2 (s2 hn), List.Subset.trans s3 i3⟩

/-- What `UpdateFromMRMLScene` keeps: the scene is the same, the observed
nodes stay without repetition and none is dropped. -/
theorem UpdateFromMRMLScene_keeps (logic : vtkSlicerVolumeResliceDriverLogic K) :
    (UpdateFromMRMLScene logic).Scene = logic.Scene
      ∧ (logic.ObservedNodes.Nodup → (UpdateFromMRMLScene logic).ObservedNodes.Nodup)
      ∧ logic.ObservedNodes ⊆ (UpdateFromMRMLScene logic).ObservedNodes :=
  foldl_rescanNode_keeps logic.Scene logic.Scene logic

/-- Changing a slice node in place twice by an idempotent `f` is changing it
once. -/
theorem modifySliceNode_idem (scene : vtkMRMLScene K) (sliceID : String)
    (f : vtkMRMLSliceNode K → vtkMRMLSliceNode K) (hf : ∀ s, f (f s) = f s) :
    modifySliceNode (modifySliceNode scene sliceID f) sliceID f
      = modifySliceNode scene sliceID f := by
  unfold modifySliceNode
  rw [mapNodes_mapNodes]
  congr 1
  funext id node
  cases node with
  | Slice s => by_cases hid : id = sliceID <;> simp [hid, hf]
  | Transformable t => rfl
  | Other => rfl

end sceneLemmas

section driverLemmas

variable {K : Type} [LinearOrderedField K]

/-- The two cross products of `UpdateSliceByLine` for the direction `n`: the
pair `(t, s)` of the branch taken. -/
theorem lineTransform_def (lib : VtkMath K) (p1 p2 : Vec3 K) :
    lineTransform lib p1 p2 =
      SetElement (SetElement (SetElement (SetElement (SetElement (SetElement (SetElement
        (SetElement (SetElement (SetElement (SetElement (SetElement (1 : Mat4 K)
          0 0 ((if lineDirection lib p1 p2 1 < 1 then
              (Cross ![0, 1, 0] (lineDirection lib p1 p2),
                Cross (lineDirection lib p1 p2) (Cross ![0, 1, 0] (lineDirection lib p1 p2)))
            else (Cross (Cross (lineDirection lib p1 p2) ![1, 0, 0]) (lineDirection lib p1 p2),
                Cross (lineDirection lib p1 p2) ![1, 0, 0])).1 0))
          1 0 ((if lineDirection lib p1 p2 1 < 1 then
              (Cross ![0, 1, 0] (lineDirection lib p1 p2),
                Cross (lineDirection lib p1 p2) (Cross ![0, 1, 0] (lineDirection lib p1 p2)))
            else (Cross (Cross (lineDirection lib p1 p2) ![1, 0, 0]) (lineDirection lib p1 p2),
                Cross (lineDirection lib p1 p2) ![1, 0, 0])).1 1))
          2 0 ((if lineDirection lib p1 p2 1 < 1 then
              (Cross ![0, 1, 0] (lineDirection lib p1 p2),
                Cross (lineDirection lib p1 p2) (Cross ![0, 1, 0] (lineDirection lib p1 p2)))
            else (Cross (Cross (lineDirection lib p1 p2) ![1, 0, 0]) (lineDirection lib p1 p2),
                Cross (lineDirection lib p1 p2) ![1, 0, 0])).1 2))
          0 1 ((if lineDirection lib p1 p2 1 < 1 then
              (Cross ![0, 1, 0] (lineDirection lib p1 p2),
                Cross (lineDirection lib p1 p2) (Cross ![0, 1, 0] (lineDirection lib p1 p2)))
            else (Cross (Cross (lineDirection lib p1 p2) ![1, 0, 0]) (lineDirection lib p1 p2),
                Cross (lineDirection lib p1 p2) ![1, 0, 0])).2 0))
          1 1 ((if lineDirection lib p1 p2 1 < 1 then
              (Cross ![0, 1, 0] (lineDirection lib p1 p2),
                Cross (lineDirection lib p1 p2) (Cross ![0, 1, 0] (lineDirection lib p1 p2)))
            else (Cross (Cross (lineDirection lib p1 p2) ![1, 0, 0]) (lineDirection lib p1 p2),
                Cross (lineDirection lib p1 p2) ![1, 0, 0])).2 1))
          2 1 ((if lineDirection lib p1 p2 1 < 1 then
              (Cross ![0, 1, 0] (lineDirection lib p1 p2),
                Cross (lineDirection lib p1 p2) (Cross ![0, 1, 0] (lineDirection lib p1 p2)))
            else (Cross (Cross (lineDirection lib p1 p2) ![1, 0, 0]) (lineDirection lib p1 p2),
                Cross (lineDirection lib p1 p2) ![1, 0, 0])).2 2))
          0 2 (lineDirection lib p1 p2 0))
          1 2 (lineDirection lib p1 p2 1))
          2 2 (lineDirection lib p1 p2 2))
          0 3 (p2 0))
          1 3 (p2 1))
          2 3 (p2 2) := rfl

/-- On the branch that starts from `s = (0,1,0)`: the columns are
`t = (0,1,0) × n`, `s = n × t` and `n`. -/
theorem lineTransform_of_lt (lib : VtkMath K) (p1 p2 : Vec3 K)
    (h : lineDirection lib p1 p2 1 < 1) :
    column (lineTransform lib p1 p2) 0 = Cross ![0, 1, 0] (lineDirection lib p1 p2)
    ∧ column (lineTransform lib p1 p2) 1
      = Cross (lineDirection lib p1 p2) (Cross ![0, 1, 0] (lineDirection lib p1 p2))
    ∧ column (lineTransform lib p1 p2) 2 = lineDirection lib p1 p2 := by
  rw [lineTransform_def]
  simp only [if_pos h]
  refine ⟨?_, ?_, ?_⟩ <;> funext i <;> fin_cases i <;> simp [column, SetElement]

/-- On the branch that starts from `t = (1,0,0)`: the columns are
`t = s × n`, `s = n × (1,0,0)` and `n`. -/
theorem lineTransform_of_not_lt (lib : VtkMath K) (p1 p2 : Vec3 K)
    (h : ¬ lineDirection lib p1 p2 1 < 1) :
    column (lineTransform lib p1 p2) 0
      = Cross (Cross (lineDirection lib p1 p2) ![1, 0, 0]) (lineDirection lib p1 p2)
    ∧ column (lineTransform lib p1 p2) 1 = Cross (lineDirection lib p1 p2) ![1, 0, 0]
    ∧ column (lineTransform lib p1 p2) 2 = lineDirection lib p1 p2 := by
  rw [lineTransform_def]
  simp only [if_neg h]
  refine ⟨?_, ?_, ?_⟩ <;> funext i <;> fin_cases i <;> simp [column, SetElement]

theorem Dot_Cross_left (a b : Vec3 K) : Dot (Cross a b) a = 0 := by
  simp [Dot, Cross]; ring

theorem Dot_Cross_right (a b : Vec3 K) : Dot (Cross a b) b = 0 := by
  simp [Dot, Cross]; ring

theorem Dot_comm (a b : Vec3 K) : Dot a b = Dot b a := by
  simp [Dot]; ring

/-- The three rotation columns of `lineTransform` are pairwise orthogonal. -/
theorem lineTransform_orthogonal (lib : VtkMath K) (p1 p2 : Vec3 K) :
    Dot (column (lineTransform lib p1 p2) 0) (column (lineTransform lib p1 p2) 1) = 0
    ∧ Dot (column (lineTransform lib p1 p2) 0) (column (lineTransform lib p1 p2) 2) = 0
    ∧ Dot (column (lineTransform lib p1 p2) 1) (column (lineTransform lib p1 p2) 2) = 0 := by
  by_cases h : lineDirection lib p1 p2 1 < 1
  · obtain ⟨h0, h1, h2⟩ := lineTransform_of_lt lib p1 p2 h
    rw [h0, h1, h2]
    exact ⟨by rw [Dot_comm]; exact Dot_Cross_right _ _, Dot_Cross_right _ _,
      Dot_Cross_left _ _⟩
  · obtain ⟨h0, h1, h2⟩ := lineTransform_of_not_lt lib p1 p2 h
    rw [h0, h1, h2]
    exact ⟨Dot_Cross_left _ _, Dot_Cross_right _ _, Dot_Cross_left _ _⟩

/-- The direction `n` has squared length 1 when the square root is exact on
the squared distance of the two points. -/
theorem lineDirection_unit (lib : VtkMath K) (p1 p2 : Vec3 K)
    (hsq : lineLength lib p1 p2 * lineLength lib p1 p2
      = (p2 0 - p1 0) * (p2 0 - p1 0) + (p2 1 - p1 1) * (p2 1 - p1 1)
        + (p2 2 - p1 2) * (p2 2 - p1 2)) :
    Dot (lineDirection lib p1 p2) (lineDirection lib p1 p2) = 1 := by
  unfold lineDirection
  split_ifs with h
  · have hne : lineLength lib p1 p2 ≠ 0 := ne_of_gt h
    simp only [Dot, Matrix.cons_val_zero, Matrix.cons_val_one, Matrix.head_cons,
      Matrix.cons_val_two, Matrix.tail_cons]
    field_simp
    rw [← hsq]
  · simp [Dot, Matrix.vecHead, Matrix.vecTail]

/-- A direction of squared length 1 whose y component is not below 1 is
(0,1,0). -/
theorem direction_of_not_lt (n : Vec3 K) (hunit : Dot n n = 1) (h : ¬ n 1 < 1) :
    n 0 = 0 ∧ n 1 = 1 ∧ n 2 = 0 := by
  have h1 : 1 ≤ n 1 := not_lt.mp h
  simp only [Dot] at hunit
  have h0 : n 0 * n 0 ≥ 0 := mul_self_nonneg _
  have h2 : n 2 * n 2 ≥ 0 := mul_self_nonneg _
  have h11 : n 1 * n 1 ≥ 1 := by nlinarith
  have e1 : n 1 * n 1 = 1 := by nlinarith
  have e0 : n 0 * n 0 = 0 := by nlinarith
  have e2 : n 2 * n 2 = 0 := by nlinarith
  refine ⟨mul_self_eq_zero.mp e0, ?_, mul_self_eq_zero.mp e2⟩
  nlinarith

/-- With a direction `n` of squared length 1 and zero y component, the cross
products `t = (0,1,0) × n` and `s = n × t` have squared length 1 and
`t × s = n`. -/
theorem cross_basis_of_level (n : Vec3 K) (hunit : Dot n n = 1) (h : n 1 = 0) :
    Dot (Cross ![0, 1, 0] n) (Cross ![0, 1, 0] n) = 1
    ∧ Dot (Cross n (Cross ![0, 1, 0] n)) (Cross n (Cross ![0, 1, 0] n)) = 1
    ∧ Cross (Cross ![0, 1, 0] n) (Cross n (Cross ![0, 1, 0] n)) = n := by
  simp only [Dot] at hunit
  rw [h] at hunit
  have hu : n 0 * n 0 + n 2 * n 2 = 1 := by linarith
  refine ⟨?_, ?_, ?_⟩
  · simp [Dot, Cross, h, Matrix.vecHead, Matrix.vecTail]
    linarith
  · simp [Dot, Cross, h, Matrix.vecHead, Matrix.vecTail]
    linear_combination (n 0 * n 0 + n 2 * n 2 + 1) * hu
  · funext i
    fin_cases i
    · simp [Cross, h, Matrix.vecHead, Matrix.vecTail]
      linear_combination (n 0) * hu
    · simp [Cross, h, Matrix.vecHead, Matrix.vecTail]
    · simp [Cross, h, Matrix.vecHead, Matrix.vecTail]
      linear_combination (n 2) * hu

/-- With the direction (0,1,0), the cross products `s = n × (1,0,0)` and
`t = s × n` have squared length 1 and `t × s = n`. -/
theorem cross_basis_of_up (n : Vec3 K) (h0 : n 0 = 0) (h1 : n 1 = 1) (h2 : n 2 = 0) :
    Dot (Cross (Cross n ![1, 0, 0]) n) (Cross (Cross n ![1, 0, 0]) n) = 1
    ∧ Dot (Cross n ![1, 0, 0]) (Cross n ![1, 0, 0]) = 1
    ∧ Cross (Cross (Cross n ![1, 0, 0]) n) (Cross n ![1, 0, 0]) = n := by
  refine ⟨?_, ?_, ?_⟩
  · simp [Dot, Cross, h0, h1, h2, Matrix.vecHead, Matrix.vecTail]
  · simp [Dot, Cross, h0, h1, h2, Matrix.vecHead, Matrix.vecTail]
  · funext i
    fin_cases i <;> simp [Cross, h0, h1, h2, Matrix.vecHead, Matrix.vecTail]

/-- When the direction is (0,0,1) the pose built by `UpdateSliceByLine` has the
identity as its rotation block. -/
theorem lineTransform_of_direction_z (lib : VtkMath K) (p1 p2 : Vec3 K)
    (h : lineDirection lib p1 p2 = ![0, 0, 1]) :
    lineTransform lib p1 p2
      = !![1, 0, 0, p2 0; 0, 1, 0, p2 1; 0, 0, 1, p2 2; 0, 0, 0, 1] := by
  rw [lineTransform_def, h]
  ext i j
  fin_cases i <;> fin_cases j <;>
    simp [SetElement, Cross, Matrix.vecHead, Matrix.vecTail]

theorem lineLength_self (lib : VtkMath K) (p : Vec3 K) :
    lineLength lib p p = lib.sqrt 0 := by
  simp [lineLength]

theorem orthonormalColumns_identity_rotation (a b c : K) :
    orthonormalColumns (!![1, 0, 0, a; 0, 1, 0, b; 0, 0, 1, c; 0, 0, 0, 1] : Mat4 K) := by
  simp [orthonormalColumns, Dot, column, Matrix.vecHead, Matrix.vecTail]

/-- Entries of the local pose computed by `UpdateSliceByImageNode`; the bottom
row of the index-to-world matrix is left as it is. -/
theorem rtimgTransform_eq (lib : VtkMath K) (inode : vtkMRMLScalarVolumeNode K) (i : Fin 3) :
    rtimgTransform lib inode (idx i) 0
        = inode.IJKToRAS (idx i) 0 / Norm lib (column inode.IJKToRAS 0)
    ∧ rtimgTransform lib inode (idx i) 1
        = inode.IJKToRAS (idx i) 1 / Norm lib (column inode.IJKToRAS 1)
    ∧ rtimgTransform lib inode (idx i) 2
        = inode.IJKToRAS (idx i) 2 / Norm lib (column inode.IJKToRAS 2)
    ∧ rtimgTransform lib inode (idx i) 3
        = inode.IJKToRAS (idx i) 3
          + (inode.IJKToRAS (idx i) 0 / Norm lib (column inode.IJKToRAS 0)
              * (Norm lib (column inode.IJKToRAS 0) * (imageSize inode 0 : K) / 2)
            + inode.IJKToRAS (idx i) 1 / Norm lib (column inode.IJKToRAS 1)
              * (Norm lib (column inode.IJKToRAS 1) * (imageSize inode 1 : K) / 2)
            + inode.IJKToRAS (idx i) 2 / Norm lib (column inode.IJKToRAS 2) * 0) := by
  have e0 : Norm lib (column inode.IJKToRAS 0)
      = lib.sqrt (inode.IJKToRAS 0 0 * inode.IJKToRAS 0 0
        + inode.IJKToRAS 1 0 * inode.IJKToRAS 1 0 + inode.IJKToRAS 2 0 * inode.IJKToRAS 2 0) := rfl
  have e1 : Norm lib (column inode.IJKToRAS 1)
      = lib.sqrt (inode.IJKToRAS 0 1 * inode.IJKToRAS 0 1
        + inode.IJKToRAS 1 1 * inode.IJKToRAS 1 1 + inode.IJKToRAS 2 1 * inode.IJKToRAS 2 1) := rfl
  have e2 : Norm lib (column inode.IJKToRAS 2)
      = lib.sqrt (inode.IJKToRAS 0 2 * inode.IJKToRAS 0 2
        + inode.IJKToRAS 1 2 * inode.IJKToRAS 1 2 + inode.IJKToRAS 2 2 * inode.IJKToRAS 2 2) := rfl
  rw [e0, e1, e2]
  fin_cases i <;>
    simp [rtimgTransform, SetElement, GetElement, idx]

/-- Method `UpdateSlice` leaves the attributes of the slice as they are. -/
theorem Attributes_UpdateSlice (lib : VtkMath K) (M : Mat4 K) (sliceNode : vtkMRMLSliceNode K) :
    (UpdateSlice lib M sliceNode).Attributes = sliceNode.Attributes := by
  unfold UpdateSlice
  simp only []
  split <;> rfl

/-- The list of matrices passed to `UpdateSlice` has at most one element, and
`UpdateSliceByTransformableNode` is `UpdateSlice` applied to them in turn. -/
theorem UpdateSliceByTransformableNode_calls (lib : VtkMath K)
    (tnode : vtkMRMLTransformableNode K) (sliceNode : vtkMRMLSliceNode K) :
    (updateSliceCalls lib tnode).length ≤ 1
    ∧ UpdateSliceByTransformableNode (UpdateSlice lib) lib tnode sliceNode
      = (updateSliceCalls lib tnode).foldl (fun s M => UpdateSlice lib M s) sliceNode := by
  cases tnode with
  | LinearTransform toWorld =>
    cases toWorld <;>
      simp [updateSliceCalls, UpdateSliceByTransformableNode, UpdateSliceByTransformNode]
  | ScalarVolume inode =>
    obtain ⟨A, d, parent⟩ := inode
    rcases parent with _ | _ | P <;>
      simp [updateSliceCalls, UpdateSliceByTransformableNode, UpdateSliceByImageNode]
  | MarkupsPlane M => simp [updateSliceCalls, UpdateSliceByTransformableNode]
  | MarkupsLine p1 p2 => simp [updateSliceCalls, UpdateSliceByTransformableNode]
  | MarkupsFiducial p => simp [updateSliceCalls, UpdateSliceByTransformableNode]
  | MarkupsOther => simp [updateSliceCalls, UpdateSliceByTransformableNode]
  | AnnotationRuler p1 p2 => simp [updateSliceCalls, UpdateSliceByTransformableNode]
  | Other => simp [updateSliceCalls, UpdateSliceByTransformableNode]

/-- Method `UpdateSliceByTransformableNode` leaves the attributes of the slice
as they are. -/
theorem Attributes_UpdateSliceByTransformableNode (lib : VtkMath K)
    (tnode : vtkMRMLTransformableNode K) (sliceNode : vtkMRMLSliceNode K) :
    (UpdateSliceByTransformableNode (UpdateSlice lib) lib tnode sliceNode).Attributes
      = sliceNode.Attributes := by
  rw [(UpdateSliceByTransformableNode_calls lib tnode sliceNode).2]
  generalize updateSliceCalls lib tnode = calls
  induction calls generalizing sliceNode with
  | nil => rfl
  | cons M rest ih => rw [List.foldl_cons, ih, Attributes_UpdateSlice]

theorem ObservedNodes_ProcessMRMLNodesEvents (lib : VtkMath K) (callerID : String)
    (logic : vtkSlicerVolumeResliceDriverLogic K) :
    (ProcessMRMLNodesEvents lib callerID logic).ObservedNodes = logic.ObservedNodes := by
  unfold ProcessMRMLNodesEvents
  split <;> rfl

theorem ObservedNodes_InvokeEvent (lib : VtkMath K) (node : String)
    (logic : vtkSlicerVolumeResliceDriverLogic K) :
    (InvokeEvent lib node logic).ObservedNodes = logic.ObservedNodes := by
  unfold InvokeEvent
  split_ifs
  · exact ObservedNodes_ProcessMRMLNodesEvents lib node logic
  · rfl

/-- Looking a node up after `ProcessMRMLNodesEvents` for a transformable
caller: a slice bound to the caller is the result of
`UpdateSliceByTransformableNode`, every other node is as before. -/
theorem GetNodeByID_ProcessMRMLNodesEvents (lib : VtkMath K) (callerID : String)
    (callerNode : vtkMRMLTransformableNode K) (logic : vtkSlicerVolumeResliceDriverLogic K)
    (h : GetNodeByID logic.Scene callerID = some (.Transformable callerNode)) (id : String) :
    GetNodeByID (ProcessMRMLNodesEvents lib callerID logic).Scene id
      = (GetNodeByID logic.Scene id).map fun node =>
        match node with
        | .Slice sliceNode =>
          if sliceNode.GetAttribute VOLUMERESLICEDRIVER_DRIVER_ATTRIBUTE = some callerID then
            .Slice (UpdateSliceByTransformableNode (UpdateSlice lib) lib callerNode sliceNode)
          else node
        | _ => node := by
  unfold ProcessMRMLNodesEvents
  simp only [h]
  exact GetNodeByID_mapNodes _ _ _

/-- Whether an identifier names a slice node is not changed by
`ProcessMRMLNodesEvents`, and nodes that are not slices are left as they
are. -/
theorem kind_ProcessMRMLNodesEvents (lib : VtkMath K) (callerID : String)
    (logic : vtkSlicerVolumeResliceDriverLogic K) (id : String) :
    ((GetSliceNode (ProcessMRMLNodesEvents lib callerID logic).Scene id).isSome
      = (GetSliceNode logic.Scene id).isSome)
    ∧ (∀ t, GetNodeByID (ProcessMRMLNodesEvents lib callerID logic).Scene id
        = some (.Transformable t) ↔ GetNodeByID logic.Scene id = some (.Transformable t)) := by
  unfold ProcessMRMLNodesEvents
  split
  · rename_i callerNode hcaller
    simp only [GetSliceNode, GetNodeByID_mapNodes]
    cases hnode : GetNodeByID logic.Scene id with
    | none => simp
    | some node =>
      cases node with
      | Slice s =>
        by_cases hb :
            (s.GetAttribute VOLUMERESLICEDRIVER_DRIVER_ATTRIBUTE = some callerID) <;>
          simp [hb]
      | Transformable t => simp
      | Other => simp
  · simp

/-- Method `SetDriverForSlice` for a slice of the scene and an identifier that
names a transformable node: the attribute is set, the node is added to the
observed nodes and its event is processed. -/
theorem SetDriverForSlice_of_transformable (lib : VtkMath K) (nodeID sliceID : String)
    (logic : vtkSlicerVolumeResliceDriverLogic K) (sliceNode : vtkMRMLSliceNode K)
    (tnode : vtkMRMLTransformableNode K)
    (hs : GetSliceNode logic.Scene sliceID = some sliceNode)
    (ht : GetNodeByID logic.Scene nodeID = some (.Transformable tnode)) :
    SetDriverForSlice lib nodeID sliceID logic
      = some (ProcessMRMLNodesEvents lib nodeID
          (AddObservedNode nodeID
            { logic with
              Scene := modifySliceNode logic.Scene sliceID fun s =>
                s.SetAttribute VOLUMERESLICEDRIVER_DRIVER_ATTRIBUTE nodeID })) := by
  unfold SetDriverForSlice
  simp only [hs, ht]
  unfold UpdateSliceIfObserved
  simp only [Scene_AddObservedNode]
  rw [GetSliceNode_modifySliceNode_self _ _ _ _ hs]
  simp only [GetAttribute_SetAttribute]
  rw [(GetNodeByID_modifySliceNode_transformable _ _ _ _ _).mpr ht]
  simp only [InvokeEvent]
  rw [if_pos (mem_ObservedNodes_AddObservedNode _ _)]

/-- Method `SetDriverForSlice` for a slice of the scene and an identifier that
names no transformable node: the driver attribute is removed and nothing else
changes. -/
theorem SetDriverForSlice_of_not_transformable (lib : VtkMath K) (nodeID sliceID : String)
    (logic : vtkSlicerVolumeResliceDriverLogic K) (sliceNode : vtkMRMLSliceNode K)
    (hs : GetSliceNode logic.Scene sliceID = some sliceNode)
    (hn : ∀ tnode, GetNodeByID logic.Scene nodeID ≠ some (.Transformable tnode)) :
    SetDriverForSlice lib nodeID sliceID logic
      = some { logic with
          Scene := modifySliceNode logic.Scene sliceID fun s =>
            s.RemoveAttribute VOLUMERESLICEDRIVER_DRIVER_ATTRIBUTE } := by
  unfold SetDriverForSlice
  rw [hs]
  cases hnode : GetNodeByID logic.Scene nodeID with
  | none => rfl
  | some node =>
    cases node with
    | Slice s => rfl
    | Transformable t => exact absurd hnode (hn t)
    | Other => rfl

/-- What every call of `SetDriverForSlice` on a slice of the scene keeps: it
returns, the identifiers that name slices are the same, the observed nodes
stay without repetition and none is dropped, and a transformable driver is
among them afterwards. -/
theorem SetDriverForSlice_keeps (lib : VtkMath K) (nodeID sliceID : String)
    (logic : vtkSlicerVolumeResliceDriverLogic K)
    (hs : (GetSliceNode logic.Scene sliceID).isSome) :
    ∃ logic', SetDriverForSlice lib nodeID sliceID logic = some logic'
      ∧ (∀ id, (GetSliceNode logic'.Scene id).isSome = (GetSliceNode logic.Scene id).isSome)
      ∧ (∀ id t, GetNodeByID logic'.Scene id = some (.Transformable t)
          ↔ GetNodeByID logic.Scene id = some (.Transformable t))
      ∧ (logic.ObservedNodes.Nodup → logic'.ObservedNodes.Nodup)
      ∧ logic.ObservedNodes ⊆ logic'.ObservedNodes
      ∧ (∀ t, GetNodeByID logic.Scene nodeID = some (.Transformable t) →
          nodeID ∈ logic'.ObservedNodes) := by
  obtain ⟨sliceNode, hslice⟩ := Option.isSome_iff_exists.mp hs
  by_cases ht : ∃ t, GetNodeByID logic.Scene nodeID = some (.Transformable t)
  · obtain ⟨t, ht⟩ := ht
    refine ⟨_, SetDriverForSlice_of_transformable lib nodeID sliceID logic sliceNode t hslice ht,
      ?_, ?_, ?_, ?_, ?_⟩
    · intro id
      rw [(kind_ProcessMRMLNodesEvents lib nodeID _ id).1, Scene_AddObservedNode]
      exact isSome_GetSliceNode_modifySliceNode _ _ _ _
    · intro id t'
      rw [(kind_ProcessMRMLNodesEvents lib nodeID _ id).2 t', Scene_AddObservedNode]
      exact GetNodeByID_modifySliceNode_transformable _ _ _ _ _
    · intro hnodup
      rw [ObservedNodes_ProcessMRMLNodesEvents]
      exact ObservedNodes_AddObservedNode_nodup nodeID
        { logic with
          Scene := modifySliceNode logic.Scene sliceID fun s =>
            s.SetAttribute VOLUMERESLICEDRIVER_DRIVER_ATTRIBUTE nodeID } hnodup
    · rw [ObservedNodes_ProcessMRMLNodesEvents]
      exact ObservedNodes_subset_AddObservedNode nodeID
        { logic with
          Scene := modifySliceNode logic.Scene sliceID fun s =>
            s.SetAttribute VOLUMERESLICEDRIVER_DRIVER_ATTRIBUTE nodeID }
    · intro _ _
      rw [ObservedNodes_ProcessMRMLNodesEvents]
      exact mem_ObservedNodes_AddObservedNode _ _
  · have hn : ∀ t, GetNodeByID logic.Scene nodeID ≠ some (.Transformable t) :=
      fun t h => ht ⟨t, h⟩
    refine ⟨_, SetDriverForSlice_of_not_transformable lib nodeID sliceID logic sliceNode
      hslice hn, ?_, ?_, ?_, ?_, ?_⟩
    · intro id
      exact isSome_GetSliceNode_modifySliceNode _ _ _ _
    · intro id t'
      exact GetNodeByID_modifySliceNode_transformable _ _ _ _ _
    · exact fun h => h
    · exact List.Subset.refl _
    · intro t h
      exact absurd h (hn t)

/-- After `ProcessMRMLNodesEvents` for a transformable caller, a slice bound
to the caller is the result of `UpdateSliceByTransformableNode` on it. -/
theorem GetSliceNode_ProcessMRMLNodesEvents_bound (lib : VtkMath K) (callerID : String)
    (callerNode : vtkMRMLTransformableNode K) (logic : vtkSlicerVolumeResliceDriverLogic K)
    (h : GetNodeByID logic.Scene callerID = some (.Transformable callerNode))
    (id : String) (sliceNode : vtkMRMLSliceNode K)
    (hs : GetSliceNode logic.Scene id = some sliceNode)
    (hb : sliceNode.GetAttribute VOLUMERESLICEDRIVER_DRIVER_ATTRIBUTE = some callerID) :
    GetSliceNode (ProcessMRMLNodesEvents lib callerID logic).Scene id
      = some (UpdateSliceByTransformableNode (UpdateSlice lib) lib callerNode sliceNode) := by
  unfold GetSliceNode at hs ⊢
  rw [GetNodeByID_ProcessMRMLNodesEvents lib callerID callerNode logic h]
  cases hnode : GetNodeByID logic.Scene id with
  | none => rw [hnode] at hs; simp at hs
  | some node =>
    rw [hnode] at hs
    cases node with
    | Slice s =>
      simp only [Option.some.injEq] at hs
      subst hs
      simp [hb]
    | Transformable t => simp at hs
    | Other => simp at hs

end driverLemmas

section driverClaims

variable {K : Type} [LinearOrderedField K]

/-- The cross products are not normalized: for the points (0,0,0) and (3,4,0),
with `sqrt 25 = 5`, the direction is (3/5,4/5,0) and the first rotation column
`t = (0,1,0) × n = (0,0,-3/5)` is not of unit length. -/
theorem lineTransform_not_orthonormal :
    ¬ ∃ lib : VtkMath ℚ, lib.sqrt 25 = 5
      ∧ orthonormalColumns (lineTransform lib ![0, 0, 0] ![3, 4, 0]) := by
  rintro ⟨lib, h5, hunit, -⟩
  have hlen : lineLength lib ![0, 0, 0] ![3, 4, 0] = 5 := by
    have h : lineLength lib ![0, 0, 0] ![3, 4, 0] = lib.sqrt 25 := by
      norm_num [lineLength, Matrix.vecHead, Matrix.vecTail]
    rw [h, h5]
  have hdir : lineDirection lib ![0, 0, 0] ![3, 4, 0] = ![3 / 5, 4 / 5, 0] := by
    unfold lineDirection
    rw [hlen, if_pos (by norm_num)]
    norm_num [Matrix.vecHead, Matrix.vecTail]
  have hlt : lineDirection lib ![0, 0, 0] ![3, 4, 0] 1 < 1 := by
    rw [hdir]; norm_num
  rw [(lineTransform_of_lt lib _ _ hlt).1, hdir] at hunit
  norm_num [Dot, Cross, Matrix.vecHead, Matrix.vecTail] at hunit

/-- The columns of the matrix built for a line: with the square root exact on
the squared distance of the two points, the third rotation column of the pose
built by `UpdateSliceByLine` is the direction `n`, of unit length; the first
two are the cross products `t = (0,1,0) × n`, `s = n × t` on the branch taken
when `n[1] < 1` and `s = n × (1,0,0)`, `t = s × n` on the other branch, not
normalized; the three columns are pairwise orthogonal; and when `n[1] = 0` or
on the other branch they are of unit length with `t × s = n`. -/
theorem lineTransform_basis (lib : VtkMath K) (p1 p2 : Vec3 K)
    (hsq : lineLength lib p1 p2 * lineLength lib p1 p2
      = (p2 0 - p1 0) * (p2 0 - p1 0) + (p2 1 - p1 1) * (p2 1 - p1 1)
        + (p2 2 - p1 2) * (p2 2 - p1 2)) :
    column (lineTransform lib p1 p2) 2 = lineDirection lib p1 p2
    ∧ Dot (lineDirection lib p1 p2) (lineDirection lib p1 p2) = 1
    ∧ (lineDirection lib p1 p2 1 < 1 →
      column (lineTransform lib p1 p2) 0 = Cross ![0, 1, 0] (lineDirection lib p1 p2)
      ∧ column (lineTransform lib p1 p2) 1
        = Cross (lineDirection lib p1 p2) (column (lineTransform lib p1 p2) 0))
    ∧ (¬ lineDirection lib p1 p2 1 < 1 →
      column (lineTransform lib p1 p2) 1 = Cross (lineDirection lib p1 p2) ![1, 0, 0]
      ∧ column (lineTransform lib p1 p2) 0
        = Cross (column (lineTransform lib p1 p2) 1) (lineDirection lib p1 p2))
    ∧ Dot (column (lineTransform lib p1 p2) 0) (column (lineTransform lib p1 p2) 1) = 0
    ∧ Dot (column (lineTransform lib p1 p2) 0) (column (lineTransform lib p1 p2) 2) = 0
    ∧ Dot (column (lineTransform lib p1 p2) 1) (column (lineTransform lib p1 p2) 2) = 0
    ∧ (lineDirection lib p1 p2 1 = 0 ∨ ¬ lineDirection lib p1 p2 1 < 1 →
      orthonormalColumns (lineTransform lib p1 p2)
      ∧ Cross (column (lineTransform lib p1 p2) 0) (column (lineTransform lib p1 p2) 1)
        = column (lineTransform lib p1 p2) 2) := by
  have hunit := lineDirection_unit lib p1 p2 hsq
  obtain ⟨o01, o02, o12⟩ := lineTransform_orthogonal lib p1 p2
  have hn : column (lineTransform lib p1 p2) 2 = lineDirection lib p1 p2 := by
    by_cases h : lineDirection lib p1 p2 1 < 1
    · exact (lineTransform_of_lt lib p1 p2 h).2.2
    · exact (lineTransform_of_not_lt lib p1 p2 h).2.2
  refine ⟨hn, hunit, ?_, ?_, o01, o02, o12, ?_⟩
  · intro h
    obtain ⟨h0, h1, -⟩ := lineTransform_of_lt lib p1 p2 h
    exact ⟨h0, by rw [h1, h0]⟩
  · intro h
    obtain ⟨h0, h1, -⟩ := lineTransform_of_not_lt lib p1 p2 h
    exact ⟨h1, by rw [h0, h1]⟩
  · intro h
    have hlevel : lineDirection lib p1 p2 1 = 0 → lineDirection lib p1 p2 1 < 1 := by
      intro h0; rw [h0]; exact zero_lt_one
    by_cases hlt : lineDirection lib p1 p2 1 < 1
    · have hz : lineDirection lib p1 p2 1 = 0 := by
        rcases h with h | h
        · exact h
        · exact absurd hlt h
      obtain ⟨h0, h1, h2⟩ := lineTransform_of_lt lib p1 p2 hlt
      obtain ⟨u0, u1, hc⟩ := cross_basis_of_level _ hunit hz
      refine ⟨⟨?_, ?_, ?_, o01, o02, o12⟩, ?_⟩
      · rw [h0]; exact u0
      · rw [h1]; exact u1
      · rw [h2]; exact hunit
      · rw [h0, h1, h2]; exact hc
    · obtain ⟨e0, e1, e2⟩ := direction_of_not_lt _ hunit hlt
      obtain ⟨h0, h1, h2⟩ := lineTransform_of_not_lt lib p1 p2 hlt
      obtain ⟨u0, u1, hc⟩ := cross_basis_of_up _ e0 e1 e2
      refine ⟨⟨?_, ?_, ?_, o01, o02, o12⟩, ?_⟩
      · rw [h0]; exact u0
      · rw [h1]; exact u1
      · rw [h2]; exact hunit
      · rw [h0, h1, h2]; exact hc

/-- Instance: for the points (0,0,0) and (1,0,0) the direction has zero y
component and the columns are orthonormal. -/
theorem lineTransform_basis_witness :
    lineDirection exampleMath ![0, 0, 0] ![1, 0, 0] 1 = 0
    ∧ orthonormalColumns (lineTransform exampleMath ![0, 0, 0] ![1, 0, 0]) :=
  have hlen : lineLength exampleMath ![0, 0, 0] ![1, 0, 0] = 1 := by
    norm_num [lineLength, exampleMath, Rat.sqrt, Matrix.vecHead, Matrix.vecTail]
  have hdir : lineDirection exampleMath ![0, 0, 0] ![1, 0, 0] 1 = 0 := by
    unfold lineDirection
    rw [hlen, if_pos zero_lt_one]
    norm_num [Matrix.vecHead, Matrix.vecTail]
  ⟨hdir,
    ((lineTransform_basis exampleMath ![0, 0, 0] ![1, 0, 0]
      (by rw [hlen]; norm_num [Matrix.vecHead, Matrix.vecTail])).2.2.2.2.2.2.2
        (Or.inl hdir)).1⟩

/-- Counterexample to C12: for the points (0,0,0) and (0,0,1) the y component
of the direction is 0 whatever the square root is, so the test `n[1] < 1.0`
passes and the branch that starts from `t = (1,0,0)` is not taken. -/
theorem line_along_z_not_fallback :
    ¬ ∃ lib : VtkMath ℚ, lineUsesFallback lib ![0, 0, 0] ![0, 0, 1] := by
  rintro ⟨lib, h⟩
  apply h
  unfold lineDirection
  split_ifs <;> simp [Matrix.vecHead, Matrix.vecTail]

/-- C12, amended: for the points (0,0,0) and (0,0,1), with `sqrt 1 = 1`,
`UpdateSliceByLine` takes the branch that starts from `s = (0,1,0)`, not the
one that starts from `t = (1,0,0)`; the direction is (0,0,1) and the resulting
columns t = (1,0,0), s = (0,1,0), n = (0,0,1) are orthonormal with
`t × s = n`. -/
theorem line_along_z_basis (lib : VtkMath K) (hone : lib.sqrt 1 = 1) :
    ¬ lineUsesFallback lib ![0, 0, 0] ![0, 0, 1]
    ∧ lineTransform lib ![0, 0, 0] ![0, 0, 1]
      = !![1, 0, 0, 0; 0, 1, 0, 0; 0, 0, 1, 1; 0, 0, 0, 1]
    ∧ orthonormalColumns (lineTransform lib ![0, 0, 0] ![0, 0, 1])
    ∧ Cross (column (lineTransform lib ![0, 0, 0] ![0, 0, 1]) 0)
        (column (lineTransform lib ![0, 0, 0] ![0, 0, 1]) 1)
      = column (lineTransform lib ![0, 0, 0] ![0, 0, 1]) 2 := by
  have hlen : lineLength lib ![0, 0, 0] ![0, 0, 1] = 1 := by
    have h : lineLength lib ![0, 0, 0] ![0, 0, 1] = lib.sqrt 1 := by
      simp [lineLength, Matrix.vecHead, Matrix.vecTail]
    rw [h, hone]
  have hdir : lineDirection lib ![0, 0, 0] ![0, 0, 1] = ![0, 0, 1] := by
    unfold lineDirection
    rw [hlen, if_pos zero_lt_one]
    simp [Matrix.vecHead, Matrix.vecTail]
  have hM := lineTransform_of_direction_z lib ![0, 0, 0] ![0, 0, 1] hdir
  have hM2 : lineTransform lib ![0, 0, 0] ![0, 0, 1]
      = !![1, 0, 0, 0; 0, 1, 0, 0; 0, 0, 1, 1; 0, 0, 0, 1] := by
    rw [hM]; simp [Matrix.vecHead, Matrix.vecTail]
  refine ⟨?_, hM2, ?_, ?_⟩
  · unfold lineUsesFallback
    rw [hdir]
    simp [Matrix.vecHead, Matrix.vecTail]
  · rw [hM2]; exact orthonormalColumns_identity_rotation 0 0 1
  · rw [hM2]
    funext i
    fin_cases i <;> simp [Cross, column, Matrix.vecHead, Matrix.vecTail]

/-- Witness for C12 as amended, with the rational square root. -/
theorem line_along_z_basis_witness :
    exampleMath.sqrt 1 = 1
    ∧ ¬ lineUsesFallback exampleMath ![0, 0, 0] ![0, 0, 1]
    ∧ orthonormalColumns (lineTransform exampleMath ![0, 0, 0] ![0, 0, 1]) :=
  ⟨exampleMath_sqrt_one, (line_along_z_basis exampleMath exampleMath_sqrt_one).1,
    (line_along_z_basis exampleMath exampleMath_sqrt_one).2.2.1⟩

/-- C13: with `sqrt 0 = 0`, for coincident end points `p` the test `nlen > 0`
fails, so nothing is divided by the length; the direction defaults to
(0,0,1), and the pose built by `UpdateSliceByLine` has the identity as its
rotation block and `p` as its translation. -/
theorem lineTransform_coincident (lib : VtkMath K) (hzero : lib.sqrt 0 = 0) (p : Vec3 K)
    (sliceNode : vtkMRMLSliceNode K) :
    ¬ lineLength lib p p > 0
    ∧ lineDirection lib p p = ![0, 0, 1]
    ∧ lineTransform lib p p
      = !![1, 0, 0, p 0; 0, 1, 0, p 1; 0, 0, 1, p 2; 0, 0, 0, 1]
    ∧ UpdateSliceByLine lib p p sliceNode
      = UpdateSlice lib (!![1, 0, 0, p 0; 0, 1, 0, p 1; 0, 0, 1, p 2; 0, 0, 0, 1]) sliceNode := by
  have hlen : ¬ lineLength lib p p > 0 := by
    rw [lineLength_self, hzero]; exact lt_irrefl 0
  have hdir : lineDirection lib p p = ![0, 0, 1] := by
    unfold lineDirection
    rw [if_neg hlen]
  have hM := lineTransform_of_direction_z lib p p hdir
  refine ⟨hlen, hdir, hM, ?_⟩
  unfold UpdateSliceByLine
  rw [hM]

/-- Witness for C13: both end points at (1,1,1). -/
theorem lineTransform_coincident_witness :
    exampleMath.sqrt 0 = 0
    ∧ lineTransform exampleMath ![1, 1, 1] ![1, 1, 1]
      = !![1, 0, 0, 1; 0, 1, 0, 1; 0, 0, 1, 1; 0, 0, 0, 1] :=
  ⟨by norm_num [exampleMath, Rat.sqrt],
    (lineTransform_coincident exampleMath (by norm_num [exampleMath, Rat.sqrt]) ![1, 1, 1]
      (exampleSlice "1" "0" "0")).2.2.1⟩

/-- C14: for an index-to-world matrix `A` whose three axis columns have
non-zero lengths `s0`, `s1`, `s2`, the local pose computed by
`UpdateSliceByImageNode` has rotation columns `a0/s0`, `a1/s1`, `a2/s2` and
translation `p + (a0/s0)·(s0·d0/2) + (a1/s1)·(s1·d1/2)`, which is
`p + a0·d0/2 + a1·d1/2`, for the image dimensions `d` (zero without image
data, so that the translation is then `p`); the third dimension does not
occur. -/
theorem rtimgTransform_pose (lib : VtkMath K) (inode : vtkMRMLScalarVolumeNode K)
    (h0 : Norm lib (column inode.IJKToRAS 0) ≠ 0)
    (h1 : Norm lib (column inode.IJKToRAS 1) ≠ 0)
    (h2 : Norm lib (column inode.IJKToRAS 2) ≠ 0) :
    (∀ i : Fin 3, column (rtimgTransform lib inode) 0 i
      = column inode.IJKToRAS 0 i / Norm lib (column inode.IJKToRAS 0))
    ∧ (∀ i : Fin 3, column (rtimgTransform lib inode) 1 i
      = column inode.IJKToRAS 1 i / Norm lib (column inode.IJKToRAS 1))
    ∧ (∀ i : Fin 3, column (rtimgTransform lib inode) 2 i
      = column inode.IJKToRAS 2 i / Norm lib (column inode.IJKToRAS 2))
    ∧ (∀ i : Fin 3, GetPosition (rtimgTransform lib inode) i
      = GetPosition inode.IJKToRAS i
        + column inode.IJKToRAS 0 i / Norm lib (column inode.IJKToRAS 0)
          * (Norm lib (column inode.IJKToRAS 0) * (imageSize inode 0 : K) / 2)
        + column inode.IJKToRAS 1 i / Norm lib (column inode.IJKToRAS 1)
          * (Norm lib (column inode.IJKToRAS 1) * (imageSize inode 1 : K) / 2))
    ∧ (∀ i : Fin 3, GetPosition (rtimgTransform lib inode) i
      = GetPosition inode.IJKToRAS i
        + column inode.IJKToRAS 0 i * (imageSize inode 0 : K) / 2
        + column inode.IJKToRAS 1 i * (imageSize inode 1 : K) / 2)
    ∧ (inode.ImageDimensions = none →
      GetPosition (rtimgTransform lib inode) = GetPosition inode.IJKToRAS) := by
  have _h2 := h2
  have hcol : ∀ (M : Mat4 K) (j : Fin 4) (i : Fin 3), column M j i = M (idx i) j := by
    intro M j i
    fin_cases i <;> rfl
  have hget : ∀ (M : Mat4 K) (i : Fin 3), GetPosition M i = M (idx i) 3 := by
    intro M i
    fin_cases i <;> rfl
  have hpos : ∀ i : Fin 3, GetPosition (rtimgTransform lib inode) i
      = GetPosition inode.IJKToRAS i
        + column inode.IJKToRAS 0 i / Norm lib (column inode.IJKToRAS 0)
          * (Norm lib (column inode.IJKToRAS 0) * (imageSize inode 0 : K) / 2)
        + column inode.IJKToRAS 1 i / Norm lib (column inode.IJKToRAS 1)
          * (Norm lib (column inode.IJKToRAS 1) * (imageSize inode 1 : K) / 2) := by
    intro i
    rw [hget, hget, hcol, hcol, (rtimgTransform_eq lib inode i).2.2.2]
    ring
  have hpos2 : ∀ i : Fin 3, GetPosition (rtimgTransform lib inode) i
      = GetPosition inode.IJKToRAS i
        + column inode.IJKToRAS 0 i * (imageSize inode 0 : K) / 2
        + column inode.IJKToRAS 1 i * (imageSize inode 1 : K) / 2 := by
    intro i
    rw [hpos i]
    field_simp
    ring
  refine ⟨?_, ?_, ?_, hpos, hpos2, ?_⟩
  · intro i
    rw [hcol, hcol, (rtimgTransform_eq lib inode i).1]
  · intro i
    rw [hcol, hcol, (rtimgTransform_eq lib inode i).2.1]
  · intro i
    rw [hcol, hcol, (rtimgTransform_eq lib inode i).2.2.1]
  · intro hnone
    funext i
    rw [hpos2 i]
    simp [imageSize, hnone]

/-- Witness for C14: for the 10×10×1 image with unit spacing and the identity
as index-to-world matrix, the translation of the local pose is (5,5,0). -/
theorem rtimgTransform_pose_witness :
    Norm exampleMath (column exampleImage.IJKToRAS 0) ≠ 0
    ∧ GetPosition (rtimgTransform exampleMath exampleImage) = ![5, 5, 0] :=
  have n0 : Norm exampleMath (column exampleImage.IJKToRAS 0) = 1 := by
    norm_num [Norm, column, exampleImage, exampleMath, Rat.sqrt, Matrix.vecHead,
      Matrix.vecTail]
  have n1 : Norm exampleMath (column exampleImage.IJKToRAS 1) = 1 := by
    norm_num [Norm, column, exampleImage, exampleMath, Rat.sqrt, Matrix.vecHead,
      Matrix.vecTail]
  have n2 : Norm exampleMath (column exampleImage.IJKToRAS 2) = 1 := by
    norm_num [Norm, column, exampleImage, exampleMath, Rat.sqrt, Matrix.vecHead,
      Matrix.vecTail]
  ⟨by rw [n0]; exact one_ne_zero, by
    funext i
    rw [(rtimgTransform_pose exampleMath exampleImage (by rw [n0]; exact one_ne_zero)
      (by rw [n1]; exact one_ne_zero) (by rw [n2]; exact one_ne_zero)).2.2.2.2.1 i]
    fin_cases i <;>
      norm_num [GetPosition, column, exampleImage, imageSize, Matrix.vecHead, Matrix.vecTail]⟩

/-- C15: with a parent linear transform whose world matrix `P` is available,
`UpdateSliceByImageNode` is `UpdateSlice` on `P` times the local pose; with no
parent linear transform, or with its world matrix unavailable, it is
`UpdateSlice` on the local pose. In each case the list of matrices passed to
`UpdateSlice` has that one element. -/
theorem UpdateSliceByImageNode_parent (lib : VtkMath K) (inode : vtkMRMLScalarVolumeNode K)
    (sliceNode : vtkMRMLSliceNode K) :
    (∀ P : Mat4 K, inode.ParentTransform = some (some P) →
      UpdateSliceByImageNode (UpdateSlice lib) lib inode sliceNode
        = UpdateSlice lib (P * rtimgTransform lib inode) sliceNode
      ∧ UpdateSliceByImageNode (fun M calls => calls ++ [M]) lib inode []
        = [P * rtimgTransform lib inode])
    ∧ (inode.ParentTransform = none ∨ inode.ParentTransform = some none →
      UpdateSliceByImageNode (UpdateSlice lib) lib inode sliceNode
        = UpdateSlice lib (rtimgTransform lib inode) sliceNode
      ∧ UpdateSliceByImageNode (fun M calls => calls ++ [M]) lib inode []
        = [rtimgTransform lib inode]) := by
  constructor
  · intro P hP
    simp [UpdateSliceByImageNode, hP]
  · rintro (h | h) <;> simp [UpdateSliceByImageNode, h]

/-- Instance of C15: the example image under a parent whose world matrix is
`scaledPose`. -/
theorem UpdateSliceByImageNode_parent_witness :
    UpdateSliceByImageNode (fun M calls => calls ++ [M]) exampleMath
        { exampleImage with ParentTransform := some (some scaledPose) } []
      = [scaledPose * rtimgTransform exampleMath
          { exampleImage with ParentTransform := some (some scaledPose) }] :=
  ((UpdateSliceByImageNode_parent exampleMath
      { exampleImage with ParentTransform := some (some scaledPose) }
      (exampleSlice "1" "0" "0")).1 scaledPose rfl).2

/-- C16: starting from observed nodes without repetition, every sequence of
`SetDriverForSlice` calls on slices of the scene and `UpdateFromMRMLScene`
calls returns and leaves the observed nodes without repetition; and binding
two slices to the same transformable driver leaves that driver exactly once
among the observed nodes. -/
theorem ObservedNodes_nodup (lib : VtkMath K) (calls : List RegistryCall)
    (logic : vtkSlicerVolumeResliceDriverLogic K)
    (hnodup : logic.ObservedNodes.Nodup)
    (hslices : ∀ nodeID sliceID, RegistryCall.SetDriver nodeID sliceID ∈ calls →
      (GetSliceNode logic.Scene sliceID).isSome) :
    (∃ logic', runCalls lib calls logic = some logic' ∧ logic'.ObservedNodes.Nodup)
    ∧ (∀ nodeID tnode sliceA sliceB,
        GetNodeByID logic.Scene nodeID = some (.Transformable tnode) →
        (GetSliceNode logic.Scene sliceA).isSome → (GetSliceNode logic.Scene sliceB).isSome →
        ∃ logic', runCalls lib [.SetDriver nodeID sliceA, .SetDriver nodeID sliceB] logic
            = some logic'
          ∧ logic'.ObservedNodes.count nodeID = 1) := by
  constructor
  · induction calls generalizing logic with
    | nil => exact ⟨logic, rfl, hnodup⟩
    | cons call rest ih =>
      cases call with
      | SetDriver nodeID sliceID =>
        obtain ⟨logic1, h1, hkind, -, hnd, -, -⟩ :=
          SetDriverForSlice_keeps lib nodeID sliceID logic
            (hslices nodeID sliceID (List.mem_cons_self _ _))
        obtain ⟨logic2, h2, hnd2⟩ := ih logic1 (hnd hnodup) (by
          intro n s hmem
          rw [hkind]
          exact hslices n s (List.mem_cons_of_mem _ hmem))
        exact ⟨logic2, by simp only [runCalls, h1]; exact h2, hnd2⟩
      | Rescan =>
        obtain ⟨hscene, hnd, -⟩ := UpdateFromMRMLScene_keeps logic
        obtain ⟨logic2, h2, hnd2⟩ := ih (UpdateFromMRMLScene logic) (hnd hnodup) (by
          intro n s hmem
          rw [hscene]
          exact hslices n s (List.mem_cons_of_mem _ hmem))
        exact ⟨logic2, by simp only [runCalls]; exact h2, hnd2⟩
  · intro nodeID tnode sliceA sliceB ht hA hB
    obtain ⟨logic1, h1, hkind, -, hnd, -, hmem⟩ :=
      SetDriverForSlice_keeps lib nodeID sliceA logic hA
    obtain ⟨logic2, h2, -, -, hnd2, hsub, -⟩ :=
      SetDriverForSlice_keeps lib nodeID sliceB logic1 (by rw [hkind]; exact hB)
    refine ⟨logic2, by simp only [runCalls, h1, h2], ?_⟩
    exact List.count_eq_one_of_mem (hnd2 (hnd hnodup)) (hsub (hmem tnode ht))

/-- Witness for C16: two slices bound to the same linear transform, then a
rescan. -/
theorem ObservedNodes_nodup_witness :
    exampleLogic.ObservedNodes.Nodup
    ∧ ∃ logic', runCalls exampleMath
          [.SetDriver "Tracker" "Red", .SetDriver "Tracker" "Yellow", .Rescan] exampleLogic
        = some logic'
      ∧ logic'.ObservedNodes.Nodup :=
  ⟨List.nodup_nil,
    (ObservedNodes_nodup exampleMath
      [.SetDriver "Tracker" "Red", .SetDriver "Tracker" "Yellow", .Rescan] exampleLogic
      List.nodup_nil (by
        intro nodeID sliceID hmem
        simp at hmem
        rcases hmem with ⟨-, rfl⟩ | ⟨-, rfl⟩ <;> decide)).1⟩

/-- C18: for a slice of the scene and an identifier that names no node,
`SetDriverForSlice` returns; the observed nodes are the same; the slice has
lost its driver attribute and kept its mode, rotation and flip attributes and
its matrix; every other node is the same; and a second call changes
nothing. -/
theorem SetDriverForSlice_unresolved (lib : VtkMath K) (nodeID sliceID : String)
    (logic : vtkSlicerVolumeResliceDriverLogic K) (sliceNode : vtkMRMLSliceNode K)
    (hs : GetSliceNode logic.Scene sliceID = some sliceNode)
    (hn : GetNodeByID logic.Scene nodeID = none) :
    ∃ logic' sliceNode', SetDriverForSlice lib nodeID sliceID logic = some logic'
      ∧ logic'.ObservedNodes = logic.ObservedNodes
      ∧ GetSliceNode logic'.Scene sliceID = some sliceNode'
      ∧ sliceNode'.GetAttribute VOLUMERESLICEDRIVER_DRIVER_ATTRIBUTE = none
      ∧ sliceNode'.GetAttribute VOLUMERESLICEDRIVER_MODE_ATTRIBUTE
        = sliceNode.GetAttribute VOLUMERESLICEDRIVER_MODE_ATTRIBUTE
      ∧ sliceNode'.GetAttribute VOLUMERESLICEDRIVER_ROTATION_ATTRIBUTE
        = sliceNode.GetAttribute VOLUMERESLICEDRIVER_ROTATION_ATTRIBUTE
      ∧ sliceNode'.GetAttribute VOLUMERESLICEDRIVER_FLIP_ATTRIBUTE
        = sliceNode.GetAttribute VOLUMERESLICEDRIVER_FLIP_ATTRIBUTE
      ∧ sliceNode'.SliceToRAS = sliceNode.SliceToRAS
      ∧ (∀ id, id ≠ sliceID → GetNodeByID logic'.Scene id = GetNodeByID logic.Scene id)
      ∧ SetDriverForSlice lib nodeID sliceID logic' = some logic' := by
  have hnt : ∀ tnode, GetNodeByID logic.Scene nodeID ≠ some (.Transformable tnode) := by
    intro t h
    rw [hn] at h
    exact Option.noConfusion h
  have hcall := SetDriverForSlice_of_not_transformable lib nodeID sliceID logic sliceNode hs hnt
  have hslice' := GetSliceNode_modifySliceNode_self logic.Scene sliceID
    (fun s => s.RemoveAttribute VOLUMERESLICEDRIVER_DRIVER_ATTRIBUTE) sliceNode hs
  refine ⟨_, sliceNode.RemoveAttribute VOLUMERESLICEDRIVER_DRIVER_ATTRIBUTE, hcall, rfl,
    hslice', GetAttribute_RemoveAttribute_self _ _,
    GetAttribute_RemoveAttribute_ne _ _ _ (by decide),
    GetAttribute_RemoveAttribute_ne _ _ _ (by decide),
    GetAttribute_RemoveAttribute_ne _ _ _ (by decide), rfl, ?_, ?_⟩
  · intro id hid
    exact GetNodeByID_modifySliceNode_ne _ _ _ _ hid
  · have hnt' : ∀ tnode,
        GetNodeByID (modifySliceNode logic.Scene sliceID fun s =>
          s.RemoveAttribute VOLUMERESLICEDRIVER_DRIVER_ATTRIBUTE) nodeID
          ≠ some (.Transformable tnode) := by
      intro t h
      exact hnt t ((GetNodeByID_modifySliceNode_transformable _ _ _ _ _).mp h)
    rw [SetDriverForSlice_of_not_transformable lib nodeID sliceID _ _ hslice' hnt']
    rw [modifySliceNode_idem logic.Scene sliceID
      (fun s => s.RemoveAttribute VOLUMERESLICEDRIVER_DRIVER_ATTRIBUTE)
      (fun s => RemoveAttribute_RemoveAttribute s VOLUMERESLICEDRIVER_DRIVER_ATTRIBUTE)]

/-- Witness for C18: an identifier that names no node, on a bound slice. -/
theorem SetDriverForSlice_unresolved_witness :
    GetSliceNode boundLogic.Scene "Red" = some redSlice
    ∧ GetNodeByID boundLogic.Scene "Probe" = none
    ∧ ∃ logic' sliceNode', SetDriverForSlice exampleMath "Probe" "Red" boundLogic = some logic'
      ∧ logic'.ObservedNodes = boundLogic.ObservedNodes
      ∧ GetSliceNode logic'.Scene "Red" = some sliceNode'
      ∧ sliceNode'.GetAttribute VOLUMERESLICEDRIVER_DRIVER_ATTRIBUTE = none
      ∧ sliceNode'.GetAttribute VOLUMERESLICEDRIVER_MODE_ATTRIBUTE
        = redSlice.GetAttribute VOLUMERESLICEDRIVER_MODE_ATTRIBUTE
      ∧ sliceNode'.GetAttribute VOLUMERESLICEDRIVER_ROTATION_ATTRIBUTE
        = redSlice.GetAttribute VOLUMERESLICEDRIVER_ROTATION_ATTRIBUTE
      ∧ sliceNode'.GetAttribute VOLUMERESLICEDRIVER_FLIP_ATTRIBUTE
        = redSlice.GetAttribute VOLUMERESLICEDRIVER_FLIP_ATTRIBUTE
      ∧ sliceNode'.SliceToRAS = redSlice.SliceToRAS
      ∧ (∀ id, id ≠ "Red" → GetNodeByID logic'.Scene id = GetNodeByID boundLogic.Scene id)
      ∧ SetDriverForSlice exampleMath "Probe" "Red" logic' = some logic' :=
  ⟨rfl, rfl, SetDriverForSlice_unresolved exampleMath "Probe" "Red" boundLogic redSlice rfl rfl⟩

/-- Counterexample to C19: an identifier that names a transformable node of a
class the logic has no case for is recorded as the slice's driver, and the
node is added to the observed nodes. -/
theorem unsupported_transformable_is_bound :
    (SetDriverForSlice exampleMath "Model" "Red" exampleLogic).map
      (fun logic => (logic.ObservedNodes,
        (GetSliceNode logic.Scene "Red").bind fun s =>
          s.GetAttribute VOLUMERESLICEDRIVER_DRIVER_ATTRIBUTE))
      = some (["Model"], some "Model") := by
  decide

/-- C19, amended: on a slice of the scene, `SetDriverForSlice` with an
identifier that names a node that is not transformable returns, removes the
slice's driver attribute and leaves the observed nodes as they are; with an
identifier that names a transformable node of any class it returns, records
the identifier as the slice's driver attribute and has the node among the
observed nodes, and for the classes the logic has no case for the slice's
matrix is left as it is. -/
theorem SetDriverForSlice_by_class (lib : VtkMath K) (nodeID sliceID : String)
    (logic : vtkSlicerVolumeResliceDriverLogic K) (sliceNode : vtkMRMLSliceNode K)
    (hs : GetSliceNode logic.Scene sliceID = some sliceNode) :
    (∀ node, GetNodeByID logic.Scene nodeID = some node → (∀ tnode, node ≠ .Transformable tnode) →
      ∃ logic' sliceNode', SetDriverForSlice lib nodeID sliceID logic = some logic'
        ∧ logic'.ObservedNodes = logic.ObservedNodes
        ∧ GetSliceNode logic'.Scene sliceID = some sliceNode'
        ∧ sliceNode'.GetAttribute VOLUMERESLICEDRIVER_DRIVER_ATTRIBUTE = none)
    ∧ (∀ tnode, GetNodeByID logic.Scene nodeID = some (.Transformable tnode) →
      ∃ logic' sliceNode', SetDriverForSlice lib nodeID sliceID logic = some logic'
        ∧ nodeID ∈ logic'.ObservedNodes
        ∧ GetSliceNode logic'.Scene sliceID = some sliceNode'
        ∧ sliceNode'.GetAttribute VOLUMERESLICEDRIVER_DRIVER_ATTRIBUTE = some nodeID
        ∧ (tnode = .Other ∨ tnode = .MarkupsOther →
          sliceNode'.SliceToRAS = sliceNode.SliceToRAS)) := by
  constructor
  · intro node hnode hnt
    have hn : ∀ tnode, GetNodeByID logic.Scene nodeID ≠ some (.Transformable tnode) := by
      intro t h
      rw [hnode] at h
      exact hnt t (Option.some.inj h)
    exact ⟨_, _, SetDriverForSlice_of_not_transformable lib nodeID sliceID logic sliceNode hs hn,
      rfl, GetSliceNode_modifySliceNode_self _ _ _ _ hs, GetAttribute_RemoveAttribute_self _ _⟩
  · intro tnode ht
    have hs2 : GetSliceNode
        (AddObservedNode nodeID
          { logic with
            Scene := modifySliceNode logic.Scene sliceID fun s =>
              s.SetAttribute VOLUMERESLICEDRIVER_DRIVER_ATTRIBUTE nodeID }).Scene sliceID
        = some (sliceNode.SetAttribute VOLUMERESLICEDRIVER_DRIVER_ATTRIBUTE nodeID) := by
      rw [Scene_AddObservedNode]
      exact GetSliceNode_modifySliceNode_self _ _ _ _ hs
    have ht2 : GetNodeByID
        (AddObservedNode nodeID
          { logic with
            Scene := modifySliceNode logic.Scene sliceID fun s =>
              s.SetAttribute VOLUMERESLICEDRIVER_DRIVER_ATTRIBUTE nodeID }).Scene nodeID
        = some (.Transformable tnode) := by
      rw [Scene_AddObservedNode]
      exact (GetNodeByID_modifySliceNode_transformable _ _ _ _ _).mpr ht
    refine ⟨_, _, SetDriverForSlice_of_transformable lib nodeID sliceID logic sliceNode tnode hs ht,
      ?_, GetSliceNode_ProcessMRMLNodesEvents_bound lib nodeID tnode _ ht2 sliceID _ hs2
        (GetAttribute_SetAttribute _ _ _), ?_, ?_⟩
    · rw [ObservedNodes_ProcessMRMLNodesEvents]
      exact mem_ObservedNodes_AddObservedNode _ _
    · unfold vtkMRMLSliceNode.GetAttribute
      rw [Attributes_UpdateSliceByTransformableNode]
      exact GetAttribute_SetAttribute _ _ _
    · rintro (h | h) <;> subst h <;> rfl

/-- Witness for C19 as amended: binding a slice to the node "Model", a
transformable node of a class the logic has no case for. -/
theorem SetDriverForSlice_by_class_witness :
    GetSliceNode boundLogic.Scene "Red" = some redSlice
    ∧ ∃ logic' sliceNode', SetDriverForSlice exampleMath "Model" "Red" boundLogic = some logic'
      ∧ "Model" ∈ logic'.ObservedNodes
      ∧ GetSliceNode logic'.Scene "Red" = some sliceNode'
      ∧ sliceNode'.GetAttribute VOLUMERESLICEDRIVER_DRIVER_ATTRIBUTE = some "Model"
      ∧ ((vtkMRMLTransformableNode.Other : vtkMRMLTransformableNode ℚ) = .Other
          ∨ (vtkMRMLTransformableNode.Other : vtkMRMLTransformableNode ℚ) = .MarkupsOther →
        sliceNode'.SliceToRAS = redSlice.SliceToRAS) :=
  ⟨rfl, (SetDriverForSlice_by_class exampleMath "Model" "Red" boundLogic redSlice rfl).2
    .Other rfl⟩

end driverClaims

section setterLemmas

variable {K : Type}

/-- Setting one attribute leaves the others as they are. -/
theorem GetAttribute_SetAttribute_ne (sliceNode : vtkMRMLSliceNode K) (name key value : String)
    (h : name ≠ key) :
    (sliceNode.SetAttribute key value).GetAttribute name = sliceNode.GetAttribute name := by
  have hb : (name == key) = false := by simpa using h
  simp only [vtkMRMLSliceNode.SetAttribute, vtkMRMLSliceNode.GetAttribute, List.lookup, hb]
  exact lookup_filter_ne _ _ _ h

/-- A node that is not in the scene is not there after a slice node was
changed in place. -/
theorem GetNodeByID_modifySliceNode_none (scene : vtkMRMLScene K) (sliceID : String)
    (f : vtkMRMLSliceNode K → vtkMRMLSliceNode K) (id : String)
    (h : GetNodeByID scene id = none) :
    GetNodeByID (modifySliceNode scene sliceID f) id = none := by
  rw [GetNodeByID_modifySliceNode, h]
  rfl

end setterLemmas

section setterDriverLemmas

variable {K : Type} [LinearOrderedField K]

/-- Method `UpdateSliceIfObserved` dereferences a null pointer on a slice whose
driver attribute names no node of the scene. -/
theorem UpdateSliceIfObserved_of_unresolved (lib : VtkMath K) (sliceID : String)
    (logic : vtkSlicerVolumeResliceDriverLogic K) (sliceNode : vtkMRMLSliceNode K)
    (driverCC : String)
    (hs : GetSliceNode logic.Scene sliceID = some sliceNode)
    (hd : sliceNode.GetAttribute VOLUMERESLICEDRIVER_DRIVER_ATTRIBUTE = some driverCC)
    (hn : GetNodeByID logic.Scene driverCC = none) :
    UpdateSliceIfObserved lib sliceID logic = none := by
  unfold UpdateSliceIfObserved
  rw [hs]
  simp only [hd, hn]

/-- After an attribute other than the driver attribute is set on a slice whose
driver attribute names no node, `UpdateSliceIfObserved` dereferences a null
pointer. -/
theorem UpdateSliceIfObserved_after_SetAttribute (lib : VtkMath K) (sliceID : String)
    (logic : vtkSlicerVolumeResliceDriverLogic K) (sliceNode : vtkMRMLSliceNode K)
    (driverCC key value : String)
    (hkey : VOLUMERESLICEDRIVER_DRIVER_ATTRIBUTE ≠ key)
    (hs : GetSliceNode logic.Scene sliceID = some sliceNode)
    (hd : sliceNode.GetAttribute VOLUMERESLICEDRIVER_DRIVER_ATTRIBUTE = some driverCC)
    (hn : GetNodeByID logic.Scene driverCC = none) :
    UpdateSliceIfObserved lib sliceID
      { logic with
        Scene := modifySliceNode logic.Scene sliceID fun sliceNode =>
          sliceNode.SetAttribute key value } = none := by
  apply UpdateSliceIfObserved_of_unresolved lib sliceID _ (sliceNode.SetAttribute key value)
    driverCC
  · exact GetSliceNode_modifySliceNode_self _ _ _ _ hs
  · rw [GetAttribute_SetAttribute_ne _ _ _ _ hkey]; exact hd
  · exact GetNodeByID_modifySliceNode_none _ _ _ _ hn

end setterDriverLemmas

section frameLemmas

variable {K : Type} [LinearOrderedField K]

theorem bottomRowAffine_Rx (lib : VtkMath K) (a : K) :
    bottomRowAffine (Rx lib a) ∧ fixesOrigin (Rx lib a) := by
  simp [bottomRowAffine, fixesOrigin, Rx, Matrix.vecHead, Matrix.vecTail]

theorem bottomRowAffine_Ry (lib : VtkMath K) (a : K) :
    bottomRowAffine (Ry lib a) ∧ fixesOrigin (Ry lib a) := by
  simp [bottomRowAffine, fixesOrigin, Ry, Matrix.vecHead, Matrix.vecTail]

theorem bottomRowAffine_Rz (lib : VtkMath K) (a : K) :
    bottomRowAffine (Rz lib a) ∧ fixesOrigin (Rz lib a) := by
  simp [bottomRowAffine, fixesOrigin, Rz, Matrix.vecHead, Matrix.vecTail]

theorem bottomRowAffine_translationMatrix (p : Vec3 K) :
    bottomRowAffine (translationMatrix p) ∧ GetPosition (translationMatrix p) = p := by
  refine ⟨by simp [bottomRowAffine, translationMatrix, Matrix.vecHead, Matrix.vecTail], ?_⟩
  funext i
  fin_cases i <;> simp [GetPosition, translationMatrix, Matrix.vecHead, Matrix.vecTail]

theorem bottomRowAffine_orthoNormalize (lib : VtkMath K) (M : Mat4 K) :
    bottomRowAffine (orthoNormalize lib M)
      ∧ GetPosition (orthoNormalize lib M) = GetPosition M :=
  ⟨orthoNormalize_bottom lib M, GetPosition_orthoNormalize lib M⟩

/-- A matrix with bottom row (0,0,0,1), multiplied on the right by one with
bottom row (0,0,0,1) and zero translation column, keeps its bottom row and its
translation column. -/
theorem bottomRowAffine_mul (A B : Mat4 K) (p : Vec3 K)
    (hA : bottomRowAffine A ∧ GetPosition A = p)
    (hB : bottomRowAffine B ∧ fixesOrigin B) :
    bottomRowAffine (A * B) ∧ GetPosition (A * B) = p := by
  obtain ⟨⟨a0, a1, a2, a3⟩, hp⟩ := hA
  obtain ⟨⟨b0, b1, b2, b3⟩, c0, c1, c2⟩ := hB
  subst hp
  refine ⟨?_, ?_⟩
  · simp [bottomRowAffine, Matrix.mul_apply, Fin.sum_univ_four, a0, a1, a2, a3, b0, b1, b2, b3]
  · funext i
    fin_cases i <;>
      simp [GetPosition, Matrix.mul_apply, Fin.sum_univ_four, c0, c1, c2, b3]

/-- The matrix composed in each of the six driving modes has the translation
column of the driver matrix and the bottom row (0,0,0,1). -/
theorem composeSliceToRAS_frame (lib : VtkMath K) (M : Mat4 K) (mode rotation flip : Int)
    (hmode : mode = MODE_AXIAL ∨ mode = MODE_SAGITTAL ∨ mode = MODE_CORONAL
      ∨ mode = MODE_INPLANE ∨ mode = MODE_INPLANE90 ∨ mode = MODE_TRANSVERSE) :
    ∃ R, composeSliceToRAS lib M mode rotation flip = some R
      ∧ bottomRowAffine R ∧ GetPosition R = GetPosition M := by
  have hT := bottomRowAffine_translationMatrix (GetPosition M)
  have hD := bottomRowAffine_orthoNormalize lib M
  rcases hmode with h | h | h | h | h | h <;> subst h
  · exact ⟨_, compose_axial lib M rotation flip,
      bottomRowAffine_mul _ _ _ (bottomRowAffine_mul _ _ _ hT (bottomRowAffine_Rz lib _))
        (bottomRowAffine_Rx lib _)⟩
  · exact ⟨_, compose_sagittal lib M rotation flip,
      bottomRowAffine_mul _ _ _
        (bottomRowAffine_mul _ _ _ (bottomRowAffine_mul _ _ _ hT (bottomRowAffine_Rx lib _))
          (bottomRowAffine_Rz lib _))
        (bottomRowAffine_Ry lib _)⟩
  · exact ⟨_, compose_coronal lib M rotation flip,
      bottomRowAffine_mul _ _ _
        (bottomRowAffine_mul _ _ _ (bottomRowAffine_mul _ _ _ hT (bottomRowAffine_Ry lib _))
          (bottomRowAffine_Rx lib _))
        (bottomRowAffine_Rx lib _)⟩
  · exact ⟨_, compose_inplane lib M rotation flip,
      bottomRowAffine_mul _ _ _
        (bottomRowAffine_mul _ _ _
          (bottomRowAffine_mul _ _ _ (bottomRowAffine_mul _ _ _ hD (bottomRowAffine_Rx lib _))
            (bottomRowAffine_Ry lib _))
          (bottomRowAffine_Rz lib _))
        (bottomRowAffine_Rx lib _)⟩
  · exact ⟨_, compose_inplane90 lib M rotation flip,
      bottomRowAffine_mul _ _ _
        (bottomRowAffine_mul _ _ _ (bottomRowAffine_mul _ _ _ hD (bottomRowAffine_Rx lib _))
          (bottomRowAffine_Rz lib _))
        (bottomRowAffine_Rx lib _)⟩
  · exact ⟨_, compose_transverse lib M rotation flip,
      bottomRowAffine_mul _ _ _ (bottomRowAffine_mul _ _ _ hD (bottomRowAffine_Rz lib _))
        (bottomRowAffine_Rx lib _)⟩

/-- A vector that is not zero has a non-zero squared length. -/
theorem Dot_self_ne_zero (v : Vec3 K) (h : v ≠ 0) : Dot v v ≠ 0 := by
  intro h0
  apply h
  unfold Dot at h0
  have e0 : v 0 * v 0 = 0 := by
    nlinarith [mul_self_nonneg (v 0), mul_self_nonneg (v 1), mul_self_nonneg (v 2)]
  have e1 : v 1 * v 1 = 0 := by
    nlinarith [mul_self_nonneg (v 0), mul_self_nonneg (v 1), mul_self_nonneg (v 2)]
  have e2 : v 2 * v 2 = 0 := by
    nlinarith [mul_self_nonneg (v 0), mul_self_nonneg (v 1), mul_self_nonneg (v 2)]
  funext i
  fin_cases i
  · exact mul_self_eq_zero.mp e0
  · exact mul_self_eq_zero.mp e1
  · exact mul_self_eq_zero.mp e2

/-- The rotation block of the orthonormalized matrix when the tolerance test
fails is what `Orthogonalize3x3` returns. -/
theorem rotationBlock_orthoNormalize (lib : VtkMath K) (M : Mat4 K) (h : ¬ withinTolerance M) :
    rotationBlock (orthoNormalize lib M) = lib.Orthogonalize3x3 (rotationBlock M) := by
  rw [orthoNormalize_of_not_withinTolerance lib M h]
  ext i j
  fin_cases i <;> fin_cases j <;> simp [rotationBlock, idx_zero, idx_one, idx_two]

/-- The pose built for a line passes the tolerance test. -/
theorem withinTolerance_lineTransform (lib : VtkMath K) (p1 p2 : Vec3 K) :
    withinTolerance (lineTransform lib p1 p2) := by
  obtain ⟨h01, h02, h12⟩ := lineTransform_orthogonal lib p1 p2
  have ht : (0 : K) < tolerance := by unfold tolerance; norm_num
  unfold withinTolerance
  rw [h01, h02, h12, abs_zero]
  exact ⟨ht, ht, ht⟩

end frameLemmas

section finalClaims

variable {K : Type} [LinearOrderedField K]

/-- C21, where the code departs from the claim: on a slice whose driver
attribute names no node of the scene, `SetModeForSlice`, `SetRotationForSlice`
and `SetFlipForSlice` set their attribute and then call
`UpdateSliceIfObserved`, which calls `InvokeEvent` on the null pointer that
`GetNodeByID` returned; none of the three calls completes. -/
theorem setters_dereference_unresolved_driver (lib : VtkMath K) (formatDouble : K → String)
    (sliceID : String) (logic : vtkSlicerVolumeResliceDriverLogic K)
    (sliceNode : vtkMRMLSliceNode K) (driverCC : String)
    (hs : GetSliceNode logic.Scene sliceID = some sliceNode)
    (hd : sliceNode.GetAttribute VOLUMERESLICEDRIVER_DRIVER_ATTRIBUTE = some driverCC)
    (hn : GetNodeByID logic.Scene driverCC = none)
    (mode : Int) (rotation : K) (flip : Bool) :
    SetModeForSlice lib mode sliceID logic = none
      ∧ SetRotationForSlice lib formatDouble rotation sliceID logic = none
      ∧ SetFlipForSlice lib flip sliceID logic = none := by
  refine ⟨?_, ?_, ?_⟩
  · unfold SetModeForSlice
    rw [hs]
    exact UpdateSliceIfObserved_after_SetAttribute lib sliceID logic sliceNode driverCC _ _
      (by decide) hs hd hn
  · unfold SetRotationForSlice
    rw [hs]
    exact UpdateSliceIfObserved_after_SetAttribute lib sliceID logic sliceNode driverCC _ _
      (by decide) hs hd hn
  · unfold SetFlipForSlice
    rw [hs]
    exact UpdateSliceIfObserved_after_SetAttribute lib sliceID logic sliceNode driverCC _ _
      (by decide) hs hd hn

/-- The failing input of C21: the slice "Red" names the driver "Gone", which is
no node of the scene; setting its mode to 4, its rotation to 30 or its flip to
true does not complete. -/
theorem setters_dereference_unresolved_driver_witness :
    GetNodeByID danglingLogic.Scene "Gone" = none
      ∧ SetModeForSlice exampleMath 4 "Red" danglingLogic = none
      ∧ SetRotationForSlice exampleMath (fun _ => "30") 30 "Red" danglingLogic = none
      ∧ SetFlipForSlice exampleMath true "Red" danglingLogic = none :=
  ⟨rfl,
    setters_dereference_unresolved_driver exampleMath (fun _ => "30") "Red" danglingLogic
      ⟨[(VOLUMERESLICEDRIVER_DRIVER_ATTRIBUTE, "Gone"),
        (VOLUMERESLICEDRIVER_MODE_ATTRIBUTE, "1")], scaledPose⟩
      "Gone" rfl rfl rfl 4 30 true⟩

/-- C22: the orthonormalization block of `UpdateSlice` takes its first branch
exactly when the three pairwise dot products of the rotation columns of the
input are below 0.002 in absolute value. On that branch each rotation column
of the output is the normalized input column, which is the input column
divided by its length when that length is not zero, as it is for a non-zero
column and an exact square root; on the other branch the rotation block is
what `Orthogonalize3x3` returns. On both branches the translation column is
that of the input and the bottom row is (0,0,0,1). -/
theorem orthoNormalize_branches (lib : VtkMath K) (M : Mat4 K) :
    (tolerance : K) = 2 / 1000
    ∧ (withinTolerance M ↔
        |Dot (column M 0) (column M 1)| < 2 / 1000
          ∧ |Dot (column M 0) (column M 2)| < 2 / 1000
          ∧ |Dot (column M 1) (column M 2)| < 2 / 1000)
    ∧ (withinTolerance M → ∀ j : Fin 3,
        column (orthoNormalize lib M) (idx j) = Normalize lib (column M (idx j))
        ∧ (Norm lib (column M (idx j)) ≠ 0 → ∀ i : Fin 3,
            column (orthoNormalize lib M) (idx j) i
              = column M (idx j) i / Norm lib (column M (idx j)))
        ∧ (column M (idx j) ≠ 0 →
            lib.sqrt (Dot (column M (idx j)) (column M (idx j)))
                * lib.sqrt (Dot (column M (idx j)) (column M (idx j)))
              = Dot (column M (idx j)) (column M (idx j)) →
            Norm lib (column M (idx j)) ≠ 0))
    ∧ (¬ withinTolerance M →
        rotationBlock (orthoNormalize lib M) = lib.Orthogonalize3x3 (rotationBlock M))
    ∧ GetPosition (orthoNormalize lib M) = GetPosition M
    ∧ bottomRowAffine (orthoNormalize lib M) := by
  have htol : (tolerance : K) = 2 / 1000 := by unfold tolerance; norm_num
  refine ⟨htol, ?_, ?_, rotationBlock_orthoNormalize lib M, GetPosition_orthoNormalize lib M,
    orthoNormalize_bottom lib M⟩
  · unfold withinTolerance
    rw [htol]
  · intro hfast j
    have hcol := column_orthoNormalize lib M hfast j
    refine ⟨hcol, ?_, ?_⟩
    · intro hden i
      rw [hcol, Normalize_def, if_pos hden]
      fin_cases i <;> rfl
    · intro hne hsq
      rw [Norm_eq]
      exact (Normalize_of_ne_zero lib _ hsq (Dot_self_ne_zero _ hne)).1

/-- Witness for C22: the pose with orthogonal columns of lengths 2, 3 and 4
takes the first branch, its second column is not zero and is divided by its
length. -/
theorem orthoNormalize_branches_witness :
    withinTolerance scaledPose
      ∧ Norm exampleMath (column scaledPose (idx 1)) ≠ 0
      ∧ ∀ i : Fin 3, column (orthoNormalize exampleMath scaledPose) (idx 1) i
          = column scaledPose (idx 1) i / Norm exampleMath (column scaledPose (idx 1)) :=
  ⟨withinTolerance_scaledPose,
    (Normalize_of_ne_zero exampleMath _ (sqrtExactOn_scaledPose 1)
      (scaledPose_columns_ne_zero 1)).1,
    ((orthoNormalize_branches exampleMath scaledPose).2.2.1 withinTolerance_scaledPose 1).2.1
      (Normalize_of_ne_zero exampleMath _ (sqrtExactOn_scaledPose 1)
        (scaledPose_columns_ne_zero 1)).1⟩

/-- C23: in each of the modes AXIAL, SAGITTAL, CORONAL, INPLANE, INPLANE90 and
TRANSVERSE, for every driver matrix, whatever its bottom row, and every
rotation and flip, `UpdateSlice` composes a matrix, and the matrix it commits
to the slice has the translation column of the driver matrix and the bottom
row (0,0,0,1). -/
theorem UpdateSlice_translation_and_bottom_row (lib : VtkMath K) (driverToRASMatrix : Mat4 K)
    (mode rotation flip : Int)
    (hmode : mode = MODE_AXIAL ∨ mode = MODE_SAGITTAL ∨ mode = MODE_CORONAL
      ∨ mode = MODE_INPLANE ∨ mode = MODE_INPLANE90 ∨ mode = MODE_TRANSVERSE) :
    (∃ R, composeSliceToRAS lib driverToRASMatrix mode rotation flip = some R
      ∧ GetPosition R = GetPosition driverToRASMatrix ∧ bottomRowAffine R)
    ∧ ∀ sliceNode : vtkMRMLSliceNode K,
      readIntAttribute sliceNode VOLUMERESLICEDRIVER_MODE_ATTRIBUTE MODE_NONE = mode →
      readIntAttribute sliceNode VOLUMERESLICEDRIVER_ROTATION_ATTRIBUTE 0 = rotation →
      readIntAttribute sliceNode VOLUMERESLICEDRIVER_FLIP_ATTRIBUTE 0 = flip →
      GetPosition (UpdateSlice lib driverToRASMatrix sliceNode).SliceToRAS
          = GetPosition driverToRASMatrix
        ∧ bottomRowAffine (UpdateSlice lib driverToRASMatrix sliceNode).SliceToRAS := by
  obtain ⟨R, hR, hbottom, hpos⟩ :=
    composeSliceToRAS_frame lib driverToRASMatrix mode rotation flip hmode
  refine ⟨⟨R, hR, hpos, hbottom⟩, ?_⟩
  intro sliceNode hm hr hf
  rw [UpdateSlice_SliceToRAS lib driverToRASMatrix sliceNode R (by rw [hm, hr, hf]; exact hR)]
  exact ⟨hpos, hbottom⟩

/-- Witness for C23: a slice in INPLANE mode with rotation 30 and flip 1,
driven by a matrix whose bottom row is (1,2,3,4). -/
theorem UpdateSlice_translation_and_bottom_row_witness :
    projectivePose 3 0 = 1
      ∧ GetPosition (UpdateSlice exampleMath projectivePose
          (exampleSlice "4" "30" "1")).SliceToRAS = GetPosition projectivePose
      ∧ bottomRowAffine (UpdateSlice exampleMath projectivePose
          (exampleSlice "4" "30" "1")).SliceToRAS :=
  ⟨rfl,
    (UpdateSlice_translation_and_bottom_row exampleMath projectivePose MODE_INPLANE 30 1
      (Or.inr (Or.inr (Or.inr (Or.inl rfl))))).2 (exampleSlice "4" "30" "1")
      (by decide) (by decide) (by decide)⟩

/-- C24: for every pair of points, the three rotation columns of the matrix
built by `UpdateSliceByLine` have pairwise dot products 0, so the matrix
passes the tolerance test of `UpdateSlice`, the orthonormalization block
normalizes its columns and its result does not depend on `Orthogonalize3x3`;
a markups line and an annotation ruler pass exactly this matrix to
`UpdateSlice`. -/
theorem lineTransform_takes_first_branch (lib : VtkMath K) (p1 p2 : Vec3 K) :
    (Dot (column (lineTransform lib p1 p2) 0) (column (lineTransform lib p1 p2) 1) = 0
      ∧ Dot (column (lineTransform lib p1 p2) 0) (column (lineTransform lib p1 p2) 2) = 0
      ∧ Dot (column (lineTransform lib p1 p2) 1) (column (lineTransform lib p1 p2) 2) = 0)
    ∧ withinTolerance (lineTransform lib p1 p2)
    ∧ (∀ j : Fin 3, column (orthoNormalize lib (lineTransform lib p1 p2)) (idx j)
        = Normalize lib (column (lineTransform lib p1 p2) (idx j)))
    ∧ (∀ orth : Mat3 K → Mat3 K,
        orthoNormalize ⟨lib.sqrt, lib.cosDeg, lib.sinDeg, orth⟩ (lineTransform lib p1 p2)
          = orthoNormalize lib (lineTransform lib p1 p2))
    ∧ (∀ sliceNode : vtkMRMLSliceNode K,
        UpdateSliceByLine lib p1 p2 sliceNode
          = UpdateSlice lib (lineTransform lib p1 p2) sliceNode)
    ∧ updateSliceCalls lib (.MarkupsLine p1 p2) = [lineTransform lib p1 p2]
    ∧ updateSliceCalls lib (.AnnotationRuler p1 p2) = [lineTransform lib p1 p2] := by
  have hfast := withinTolerance_lineTransform lib p1 p2
  refine ⟨lineTransform_orthogonal lib p1 p2, hfast,
    column_orthoNormalize lib _ hfast, ?_, fun _ => rfl, rfl, rfl⟩
  intro orth
  rw [orthoNormalize_of_withinTolerance _ _ hfast, orthoNormalize_of_withinTolerance _ _ hfast]
  rfl

end finalClaims

section degenerateLine

variable {K : Type} [LinearOrderedField K]

/-- A zero vector is left as it is by `Normalize` when the square root of 0
is 0. -/
theorem Normalize_zero (lib : VtkMath K) (h0 : lib.sqrt 0 = 0) :
    Normalize lib ![0, 0, 0] = ![0, 0, 0] := by
  have hden : Norm lib ![0, 0, 0] = 0 := by
    have h : Norm lib ![0, 0, 0] = lib.sqrt 0 := by
      simp [Norm, Matrix.vecHead, Matrix.vecTail]
    rw [h, h0]
  rw [Normalize_def, hden]
  simp

/-- The direction from (0,1,0) to (0,0,0) is (0,-1,0) when the square root is
exact at 1. -/
theorem lineDirection_antiparallel_y (lib : VtkMath K) (h1 : lib.sqrt 1 = 1) :
    lineDirection lib ![0, 1, 0] ![0, 0, 0] = ![0, -1, 0] := by
  have hlen : lineLength lib ![0, 1, 0] ![0, 0, 0] = 1 := by
    have h : lineLength lib ![0, 1, 0] ![0, 0, 0] = lib.sqrt 1 := by
      simp [lineLength, Matrix.vecHead, Matrix.vecTail]
    rw [h, h1]
  unfold lineDirection
  rw [hlen, if_pos zero_lt_one]
  simp [Matrix.vecHead, Matrix.vecTail]

/-- The rotation columns built for the points (0,1,0) and (0,0,0): the test
`n[1] < 1.0` passes and both cross products are zero. -/
theorem lineTransform_antiparallel_y (lib : VtkMath K) (h1 : lib.sqrt 1 = 1) :
    lineDirection lib ![0, 1, 0] ![0, 0, 0] 1 < 1
    ∧ column (lineTransform lib ![0, 1, 0] ![0, 0, 0]) 0 = ![0, 0, 0]
    ∧ column (lineTransform lib ![0, 1, 0] ![0, 0, 0]) 1 = ![0, 0, 0]
    ∧ column (lineTransform lib ![0, 1, 0] ![0, 0, 0]) 2 = ![0, -1, 0] := by
  have hdir := lineDirection_antiparallel_y lib h1
  have hlt : lineDirection lib ![0, 1, 0] ![0, 0, 0] 1 < 1 := by
    rw [hdir]
    simp only [Matrix.cons_val_one, Matrix.head_cons]
    linarith [(zero_lt_one : (0 : K) < 1)]
  obtain ⟨c0, c1, c2⟩ := lineTransform_of_lt lib _ _ hlt
  rw [hdir] at c0 c1 c2
  refine ⟨hlt, ?_, ?_, c2⟩
  · rw [c0]
    funext i
    fin_cases i <;> simp [Cross, Matrix.vecHead, Matrix.vecTail]
  · rw [c1]
    funext i
    fin_cases i <;> simp [Cross, Matrix.vecHead, Matrix.vecTail]

/-- The orthonormalization block leaves the rotation columns built for the
points (0,1,0) and (0,0,0) as they are, two of them zero. -/
theorem column_orthoNormalize_antiparallel_y (lib : VtkMath K) (h1 : lib.sqrt 1 = 1)
    (h0 : lib.sqrt 0 = 0) :
    column (orthoNormalize lib (lineTransform lib ![0, 1, 0] ![0, 0, 0])) 0 = ![0, 0, 0]
    ∧ column (orthoNormalize lib (lineTransform lib ![0, 1, 0] ![0, 0, 0])) 1 = ![0, 0, 0]
    ∧ column (orthoNormalize lib (lineTransform lib ![0, 1, 0] ![0, 0, 0])) 2
      = ![0, -1, 0] := by
  obtain ⟨-, c0, c1, c2⟩ := lineTransform_antiparallel_y lib h1
  have hfast := withinTolerance_lineTransform lib ![0, 1, 0] ![0, 0, 0]
  have o0 := column_orthoNormalize lib _ hfast 0
  have o1 := column_orthoNormalize lib _ hfast 1
  have o2 := column_orthoNormalize lib _ hfast 2
  rw [idx_zero] at o0
  rw [idx_one] at o1
  rw [idx_two] at o2
  rw [c0] at o0
  rw [c1] at o1
  rw [c2] at o2
  refine ⟨by rw [o0]; exact Normalize_zero lib h0, by rw [o1]; exact Normalize_zero lib h0, ?_⟩
  rw [o2]
  apply Normalize_of_unit lib _ _ h1
  simp [Dot, Matrix.vecHead, Matrix.vecTail]

end degenerateLine

section concreteRoutines

theorem exampleMath_sqrt_zero : exampleMath.sqrt 0 = 0 := by
  norm_num [exampleMath, Rat.sqrt]

theorem exampleMath_sqrt_millionth : exampleMath.sqrt (1 / 1000000) = 1 / 1000 := by
  norm_num [exampleMath, Rat.sqrt]

end concreteRoutines

section slipClaims

variable {K : Type} [LinearOrderedField K]

/-- C4, where the code departs from the claim: `shortSkewedPose`, whose first
two axes (1,0,0) and (3/5000,4/5000,0) are about 53 degrees apart, passes the
tolerance test, which compares the raw dot product 3/5000 with 0.002; its
columns are only divided by their lengths, and the first two columns of the
result have dot product 3/5, so the result is not orthonormal and does not
pass the tolerance test itself. The matrix `UpdateSliceByLine` builds for the
points (0,1,0) and (0,0,0) has two zero columns; it passes the test and the
zero columns stay zero, not of unit length. -/
theorem orthoNormalize_keeps_skew_and_zero_columns (lib : VtkMath ℚ) (h1 : lib.sqrt 1 = 1)
    (h2 : lib.sqrt (1 / 1000000) = 1 / 1000) (h0 : lib.sqrt 0 = 0) :
    withinTolerance shortSkewedPose
    ∧ Dot (column (orthoNormalize lib shortSkewedPose) 0)
        (column (orthoNormalize lib shortSkewedPose) 1) = 3 / 5
    ∧ ¬ withinTolerance (orthoNormalize lib shortSkewedPose)
    ∧ ¬ orthonormalColumns (orthoNormalize lib shortSkewedPose)
    ∧ withinTolerance (lineTransform lib ![0, 1, 0] ![0, 0, 0])
    ∧ Dot (column (orthoNormalize lib (lineTransform lib ![0, 1, 0] ![0, 0, 0])) 0)
        (column (orthoNormalize lib (lineTransform lib ![0, 1, 0] ![0, 0, 0])) 0) = 0
    ∧ ¬ orthonormalColumns (orthoNormalize lib (lineTransform lib ![0, 1, 0] ![0, 0, 0])) := by
  have hdot : Dot (column (orthoNormalize lib shortSkewedPose) 0)
      (column (orthoNormalize lib shortSkewedPose) 1) = 3 / 5 := by
    rw [orthoNormalize_shortSkewedPose lib h1 h2]
    norm_num [Dot, column, Matrix.vecHead, Matrix.vecTail]
  have hslow : ¬ withinTolerance (orthoNormalize lib shortSkewedPose) := by
    rw [orthoNormalize_shortSkewedPose lib h1 h2]
    norm_num [withinTolerance, Dot, column, tolerance, Matrix.vecHead, Matrix.vecTail, abs_lt]
  obtain ⟨z0, -, -⟩ := column_orthoNormalize_antiparallel_y lib h1 h0
  have hzero : Dot (column (orthoNormalize lib (lineTransform lib ![0, 1, 0] ![0, 0, 0])) 0)
      (column (orthoNormalize lib (lineTransform lib ![0, 1, 0] ![0, 0, 0])) 0) = 0 := by
    rw [z0]
    simp [Dot, Matrix.vecHead, Matrix.vecTail]
  refine ⟨withinTolerance_shortSkewedPose, hdot, hslow, ?_,
    withinTolerance_lineTransform lib _ _, hzero, ?_⟩
  · rintro ⟨-, -, -, h, -, -⟩
    rw [hdot] at h
    norm_num at h
  · rintro ⟨h, -⟩
    rw [hzero] at h
    norm_num at h

/-- The failing inputs of C4 evaluated with `exampleMath`. -/
theorem orthoNormalize_keeps_skew_and_zero_columns_witness :
    withinTolerance shortSkewedPose
    ∧ Dot (column (orthoNormalize exampleMath shortSkewedPose) 0)
        (column (orthoNormalize exampleMath shortSkewedPose) 1) = 3 / 5
    ∧ ¬ orthonormalColumns (orthoNormalize exampleMath shortSkewedPose)
    ∧ ¬ orthonormalColumns
        (orthoNormalize exampleMath (lineTransform exampleMath ![0, 1, 0] ![0, 0, 0])) :=
  ⟨withinTolerance_shortSkewedPose,
    (orthoNormalize_keeps_skew_and_zero_columns exampleMath exampleMath_sqrt_one
      exampleMath_sqrt_millionth exampleMath_sqrt_zero).2.1,
    (orthoNormalize_keeps_skew_and_zero_columns exampleMath exampleMath_sqrt_one
      exampleMath_sqrt_millionth exampleMath_sqrt_zero).2.2.2.1,
    (orthoNormalize_keeps_skew_and_zero_columns exampleMath exampleMath_sqrt_one
      exampleMath_sqrt_millionth exampleMath_sqrt_zero).2.2.2.2.2.2⟩

/-- C11, where the code departs from the claim: for the points (0,1,0) and
(0,0,0), the instance the claim names, the direction is n = (0,-1,0); the test
`n[1] < 1.0` passes although n is parallel to (0,1,0), and both cross
products are zero, t = s = (0,0,0). The columns are not of unit length,
`t × s` is not n, and the orthonormalization block of `UpdateSlice` leaves the
zero columns as they are. -/
theorem lineTransform_antiparallel_degenerate (lib : VtkMath K) (h1 : lib.sqrt 1 = 1)
    (h0 : lib.sqrt 0 = 0) :
    lineDirection lib ![0, 1, 0] ![0, 0, 0] = ![0, -1, 0]
    ∧ ¬ lineUsesFallback lib ![0, 1, 0] ![0, 0, 0]
    ∧ column (lineTransform lib ![0, 1, 0] ![0, 0, 0]) 0 = ![0, 0, 0]
    ∧ column (lineTransform lib ![0, 1, 0] ![0, 0, 0]) 1 = ![0, 0, 0]
    ∧ column (lineTransform lib ![0, 1, 0] ![0, 0, 0]) 2 = ![0, -1, 0]
    ∧ ¬ orthonormalColumns (lineTransform lib ![0, 1, 0] ![0, 0, 0])
    ∧ Cross (column (lineTransform lib ![0, 1, 0] ![0, 0, 0]) 0)
        (column (lineTransform lib ![0, 1, 0] ![0, 0, 0]) 1)
      ≠ column (lineTransform lib ![0, 1, 0] ![0, 0, 0]) 2
    ∧ column (orthoNormalize lib (lineTransform lib ![0, 1, 0] ![0, 0, 0])) 0 = ![0, 0, 0]
    ∧ column (orthoNormalize lib (lineTransform lib ![0, 1, 0] ![0, 0, 0])) 1
      = ![0, 0, 0] := by
  obtain ⟨hlt, c0, c1, c2⟩ := lineTransform_antiparallel_y lib h1
  obtain ⟨z0, z1, -⟩ := column_orthoNormalize_antiparallel_y lib h1 h0
  refine ⟨lineDirection_antiparallel_y lib h1, fun h => h hlt, c0, c1, c2, ?_, ?_, z0, z1⟩
  · rintro ⟨h, -⟩
    rw [c0] at h
    simp [Dot, Matrix.vecHead, Matrix.vecTail] at h
  · rw [c0, c1, c2]
    intro h
    have h := congrFun h 1
    simp [Cross, Matrix.vecHead, Matrix.vecTail] at h

/-- The failing input of C11 evaluated with `exampleMath`. -/
theorem lineTransform_antiparallel_degenerate_witness :
    column (lineTransform exampleMath ![0, 1, 0] ![0, 0, 0]) 0 = ![0, 0, 0]
    ∧ column (lineTransform exampleMath ![0, 1, 0] ![0, 0, 0]) 1 = ![0, 0, 0]
    ∧ column (lineTransform exampleMath ![0, 1, 0] ![0, 0, 0]) 2 = ![0, -1, 0]
    ∧ ¬ orthonormalColumns (lineTransform exampleMath ![0, 1, 0] ![0, 0, 0]) :=
  ⟨(lineTransform_antiparallel_degenerate exampleMath exampleMath_sqrt_one
      exampleMath_sqrt_zero).2.2.1,
    (lineTransform_antiparallel_degenerate exampleMath exampleMath_sqrt_one
      exampleMath_sqrt_zero).2.2.2.1,
    (lineTransform_antiparallel_degenerate exampleMath exampleMath_sqrt_one
      exampleMath_sqrt_zero).2.2.2.2.1,
    (lineTransform_antiparallel_degenerate exampleMath exampleMath_sqrt_one
      exampleMath_sqrt_zero).2.2.2.2.2.1⟩

end slipClaims

end VolumeResliceDriver
